import Mathlib

/-!
# Query classification and route selection (server/core/queryclassifier.cc)

A shallow embedding of `maxscale::QueryClassifier`: the route selector
`get_route_target`, the hint processing `process_routing_hints` and the
per-packet entry point `update_route_info`, with the session facts, the SQL
parser and the router handler as explicit arguments.

Unsigned machine integers are natural numbers. Route targets and type masks
are only combined with bitwise AND and OR, which cannot overflow; the byte
counter of LOAD DATA is a 64-bit sum of packet lengths.  `mxb_assert` is a
debug-build check and compiles to nothing in a release build; the embedding
follows the release build.  Log calls have no effect on the state and are
left out.
-/

namespace MaxScale

/-! ## Constants declared in headers -/

/-- Modelled from the spec: the enum of route targets is declared in
maxscale/queryclassifier.hh, which is not among the sources.  The spec gives
RouteTarget as a bitfield over UNDEFINED, PRIMARY, REPLICA, ALL, NAMED_SERVER,
RLAG_MAX, LAST_USED; UNDEFINED is the empty field. -/
def TARGET_UNDEFINED : Nat := 0x00

/-- Modelled from the spec: route target bit PRIMARY (TARGET_MASTER in the code). -/
def TARGET_MASTER : Nat := 0x01

/-- Modelled from the spec: route target bit REPLICA (TARGET_SLAVE in the code). -/
def TARGET_SLAVE : Nat := 0x02

/-- Modelled from the spec: route target modifier bit NAMED_SERVER. -/
def TARGET_NAMED_SERVER : Nat := 0x04

/-- Modelled from the spec: route target bit ALL. -/
def TARGET_ALL : Nat := 0x08

/-- Modelled from the spec: route target modifier bit RLAG_MAX. -/
def TARGET_RLAG_MAX : Nat := 0x10

/-- Modelled from the spec: route target bit LAST_USED. -/
def TARGET_LAST_USED : Nat := 0x20

/-- Modelled from the spec: the type mask bits (enum qc_query_type_t) are
declared in maxscale/query_classifier.hh, which is not among the sources.  The
spec gives TypeMask as a bitfield; UNKNOWN is the empty mask and every other
name is one bit. -/
def QUERY_TYPE_UNKNOWN : Nat := 0x000000

/-- Modelled from the spec: type mask bit LOCAL_READ. -/
def QUERY_TYPE_LOCAL_READ : Nat := 0x000001

/-- Modelled from the spec: type mask bit READ. -/
def QUERY_TYPE_READ : Nat := 0x000002

/-- Modelled from the spec: type mask bit WRITE. -/
def QUERY_TYPE_WRITE : Nat := 0x000004

/-- Modelled from the spec: type mask bit MASTER_READ. -/
def QUERY_TYPE_MASTER_READ : Nat := 0x000008

/-- Modelled from the spec: type mask bit SESSION_WRITE. -/
def QUERY_TYPE_SESSION_WRITE : Nat := 0x000010

/-- Modelled from the spec: type mask bit USERVAR_WRITE. -/
def QUERY_TYPE_USERVAR_WRITE : Nat := 0x000020

/-- Modelled from the spec: type mask bit USERVAR_READ. -/
def QUERY_TYPE_USERVAR_READ : Nat := 0x000040

/-- Modelled from the spec: type mask bit SYSVAR_READ. -/
def QUERY_TYPE_SYSVAR_READ : Nat := 0x000080

/-- Modelled from the spec: type mask bit GSYSVAR_READ. -/
def QUERY_TYPE_GSYSVAR_READ : Nat := 0x000200

/-- Modelled from the spec: type mask bit GSYSVAR_WRITE. -/
def QUERY_TYPE_GSYSVAR_WRITE : Nat := 0x000400

/-- Modelled from the spec: type mask bit BEGIN_TRX. -/
def QUERY_TYPE_BEGIN_TRX : Nat := 0x000800

/-- Modelled from the spec: type mask bit ENABLE_AUTOCOMMIT. -/
def QUERY_TYPE_ENABLE_AUTOCOMMIT : Nat := 0x001000

/-- Modelled from the spec: type mask bit DISABLE_AUTOCOMMIT. -/
def QUERY_TYPE_DISABLE_AUTOCOMMIT : Nat := 0x002000

/-- Modelled from the spec: type mask bit ROLLBACK. -/
def QUERY_TYPE_ROLLBACK : Nat := 0x004000

/-- Modelled from the spec: type mask bit COMMIT. -/
def QUERY_TYPE_COMMIT : Nat := 0x008000

/-- Modelled from the spec: type mask bit PREPARE_NAMED_STMT. -/
def QUERY_TYPE_PREPARE_NAMED_STMT : Nat := 0x010000

/-- Modelled from the spec: type mask bit PREPARE_STMT. -/
def QUERY_TYPE_PREPARE_STMT : Nat := 0x020000

/-- Modelled from the spec: type mask bit EXEC_STMT. -/
def QUERY_TYPE_EXEC_STMT : Nat := 0x040000

/-- Modelled from the spec: type mask bit CREATE_TMP_TABLE. -/
def QUERY_TYPE_CREATE_TMP_TABLE : Nat := 0x080000

/-- Modelled from the spec: type mask bit READ_TMP_TABLE. -/
def QUERY_TYPE_READ_TMP_TABLE : Nat := 0x100000

/-- Modelled from the spec: type mask bit SHOW_DATABASES. -/
def QUERY_TYPE_SHOW_DATABASES : Nat := 0x200000

/-- Modelled from the spec: type mask bit SHOW_TABLES. -/
def QUERY_TYPE_SHOW_TABLES : Nat := 0x400000

/-- Modelled from the spec: the macro qc_query_is_type(typemask, type) of
maxscale/query_classifier.hh, not among the sources: the mask contains every
bit of the type, `((typemask) & (type)) == (type)`. -/
def qc_query_is_type (typemask type : Nat) : Bool :=
  (typemask &&& type) == type

/-- Modelled from the spec: the length of the packet header, 3 bytes of payload
length and 1 byte of sequence id (MYSQL_HEADER_LEN of mysql.hh). -/
def MYSQL_HEADER_LEN : Nat := 4

/-- Modelled from the spec: the command codes of the MariaDB/MySQL protocol
(enum mxs_mysql_cmd_t of mysql.hh, not among the sources); the values of the
codes that the comments of determine_query_type number are as given there. -/
def MXS_COM_QUIT : Nat := 0x01

/-- Modelled from the spec: command code INIT_DB. -/
def MXS_COM_INIT_DB : Nat := 0x02

/-- Modelled from the spec: command code QUERY. -/
def MXS_COM_QUERY : Nat := 0x03

/-- Modelled from the spec: command code FIELD_LIST. -/
def MXS_COM_FIELD_LIST : Nat := 0x04

/-- Modelled from the spec: command code CREATE_DB. -/
def MXS_COM_CREATE_DB : Nat := 0x05

/-- Modelled from the spec: command code DROP_DB. -/
def MXS_COM_DROP_DB : Nat := 0x06

/-- Modelled from the spec: command code REFRESH. -/
def MXS_COM_REFRESH : Nat := 0x07

/-- Modelled from the spec: command code DEBUG. -/
def MXS_COM_DEBUG : Nat := 0x0d

/-- Modelled from the spec: command code PING. -/
def MXS_COM_PING : Nat := 0x0e

/-- Modelled from the spec: command code CHANGE_USER. -/
def MXS_COM_CHANGE_USER : Nat := 0x11

/-- Modelled from the spec: command code STMT_PREPARE. -/
def MXS_COM_STMT_PREPARE : Nat := 0x16

/-- Modelled from the spec: command code STMT_EXECUTE. -/
def MXS_COM_STMT_EXECUTE : Nat := 0x17

/-- Modelled from the spec: command code STMT_SEND_LONG_DATA. -/
def MXS_COM_STMT_SEND_LONG_DATA : Nat := 0x18

/-- Modelled from the spec: command code STMT_CLOSE. -/
def MXS_COM_STMT_CLOSE : Nat := 0x19

/-- Modelled from the spec: command code STMT_RESET. -/
def MXS_COM_STMT_RESET : Nat := 0x1a

/-- Modelled from the spec: command code SET_OPTION. -/
def MXS_COM_SET_OPTION : Nat := 0x1b

/-- Modelled from the spec: command code STMT_FETCH. -/
def MXS_COM_STMT_FETCH : Nat := 0x1c

/-- Modelled from the spec: command code RESET_CONNECTION. -/
def MXS_COM_RESET_CONNECTION : Nat := 0x1f

/-- Modelled from the spec: command code STMT_BULK_EXECUTE. -/
def MXS_COM_STMT_BULK_EXECUTE : Nat := 0xfa

/-- Modelled from the spec: the values of use_sql_variables_in (enum
mxs_target_t, declared in a header that is not among the sources). -/
inductive mxs_target_t where
  | TYPE_UNDEFINED
  | TYPE_MASTER
  | TYPE_ALL
  deriving DecidableEq, Repr

/-- Modelled from the spec: the load-data states of the classifier (enum
load_data_state_t of maxscale/queryclassifier.hh, not among the sources). -/
inductive load_data_state_t where
  | LOAD_DATA_INACTIVE
  | LOAD_DATA_ACTIVE
  | LOAD_DATA_END
  deriving DecidableEq, Repr

/-- Modelled from the spec: the target the router is using when a packet is
classified (enum current_target_t of maxscale/queryclassifier.hh, not among
the sources). -/
inductive current_target_t where
  | CURRENT_TARGET_UNDEFINED
  | CURRENT_TARGET_MASTER
  | CURRENT_TARGET_SLAVE
  deriving DecidableEq, Repr

/-- Modelled from the spec: the kinds of routing hint (enum HINT_TYPE of
maxscale/hint.h, not among the sources); the kinds are those that the switch
of process_routing_hints names. -/
inductive HINT_TYPE where
  | HINT_ROUTE_TO_MASTER
  | HINT_ROUTE_TO_SLAVE
  | HINT_ROUTE_TO_NAMED_SERVER
  | HINT_ROUTE_TO_UPTODATE_SERVER
  | HINT_ROUTE_TO_ALL
  | HINT_ROUTE_TO_LAST_USED
  | HINT_PARAMETER
  deriving DecidableEq, Repr

/-- Modelled from the spec: the operation the parser detects in a statement
(enum qc_query_op_t of maxscale/query_classifier.hh, not among the sources).
The classifier compares it with QUERY_OP_CALL and QUERY_OP_EXECUTE only. -/
inductive qc_query_op_t where
  | QUERY_OP_UNDEFINED
  | QUERY_OP_CALL
  | QUERY_OP_EXECUTE
  | QUERY_OP_SELECT
  | QUERY_OP_INSERT
  | QUERY_OP_UPDATE
  | QUERY_OP_DELETE
  | QUERY_OP_DROP
  | QUERY_OP_SET
  deriving DecidableEq, Repr

/-! ## Data -/

/-- One routing hint: its kind and its `data` (the server name of a
ROUTE_TO_NAMED_SERVER hint, the parameter name of a PARAMETER hint), a C
string. The hints of a buffer form a linked list through `next`, here a list. -/
structure HINT where
  type : HINT_TYPE
  data : String
  deriving DecidableEq, Repr

/-- A packet buffer: the bytes of the packet, header included, and the hints
attached to it. -/
structure GWBUF where
  data : List Nat
  hint : List HINT
  deriving DecidableEq, Repr

/-- The facts the classifier reads from the client session (`m_pSession`). -/
structure MXS_SESSION where
  is_trx_active : Bool
  is_trx_read_only : Bool
  is_trx_ending : Bool
  current_db : String
  deriving DecidableEq, Repr

/-- The record `QueryClassifier::RouteInfo`. -/
structure RouteInfo where
  m_target : Nat
  m_command : Nat
  m_type_mask : Nat
  m_stmt_id : Nat
  deriving DecidableEq, Repr

/-- The entry `PSManager::BinaryPS` of a binary prepared statement. -/
structure BinaryPS where
  type : Nat
  param_count : Nat
  deriving DecidableEq, Repr

/-- The state of a `QueryClassifier` together with its `PSManager`. The hash
maps are partial functions from the key; the set of temporary tables is a
list. -/
structure QueryClassifier where
  m_use_sql_variables_in : mxs_target_t
  m_load_data_state : load_data_state_t
  m_load_data_sent : Nat
  m_have_tmp_tables : Bool
  m_large_query : Bool
  m_multi_statements_allowed : Bool
  m_binary_ps : Nat → Option BinaryPS
  m_text_ps : String → Option Nat
  m_trx_is_read_only : Bool
  m_ps_continuation : Bool
  m_ps_handles : Nat → Option Nat
  m_prev_ps_id : Nat
  m_tmp_tables : List String
  m_route_info : RouteInfo

/-- The constructor `RouteInfo::RouteInfo()`. -/
def RouteInfo.init : RouteInfo :=
  { m_target := TARGET_UNDEFINED, m_command := 0xff,
    m_type_mask := QUERY_TYPE_UNKNOWN, m_stmt_id := 0 }

/-- The constructor `QueryClassifier::QueryClassifier`; the flag
`multi_statements` is what are_multi_statements_allowed reads from the
capabilities of the client. `m_prev_ps_id` has no initialiser in the
constructor and starts here at 0. -/
def QueryClassifier.init (use_sql_variables_in : mxs_target_t)
    (multi_statements : Bool) : QueryClassifier :=
  { m_use_sql_variables_in := use_sql_variables_in
    m_load_data_state := .LOAD_DATA_INACTIVE
    m_load_data_sent := 0
    m_have_tmp_tables := false
    m_large_query := false
    m_multi_statements_allowed := multi_statements
    m_binary_ps := fun _ => none
    m_text_ps := fun _ => none
    m_trx_is_read_only := true
    m_ps_continuation := false
    m_ps_handles := fun _ => none
    m_prev_ps_id := 0
    m_tmp_tables := []
    m_route_info := RouteInfo.init }

/-! ## The route selector -/

/-- The method `QueryClassifier::query_type_is_read_only`. -/
def query_type_is_read_only (qc : QueryClassifier) (qtype : Nat) : Bool :=
  if !qc_query_is_type qtype QUERY_TYPE_MASTER_READ
      && !qc_query_is_type qtype QUERY_TYPE_WRITE
      && (qc_query_is_type qtype QUERY_TYPE_READ
          || qc_query_is_type qtype QUERY_TYPE_SHOW_TABLES
          || qc_query_is_type qtype QUERY_TYPE_SHOW_DATABASES
          || qc_query_is_type qtype QUERY_TYPE_USERVAR_READ
          || qc_query_is_type qtype QUERY_TYPE_SYSVAR_READ
          || qc_query_is_type qtype QUERY_TYPE_GSYSVAR_READ) then
    if qc_query_is_type qtype QUERY_TYPE_USERVAR_READ then
      if qc.m_use_sql_variables_in = .TYPE_ALL then true else false
    else
      true
  else
    false

/-- The method `QueryClassifier::get_route_target`. -/
def get_route_target (qc : QueryClassifier) (ses : MXS_SESSION)
    (command qtype : Nat) : Nat :=
  let trx_active := ses.is_trx_active
  let target := TARGET_UNDEFINED
  let load_active := qc.m_load_data_state != .LOAD_DATA_INACTIVE
  if qc_query_is_type qtype QUERY_TYPE_PREPARE_STMT
      || qc_query_is_type qtype QUERY_TYPE_PREPARE_NAMED_STMT
      || command == MXS_COM_STMT_CLOSE
      || command == MXS_COM_STMT_RESET then
    TARGET_ALL
  else if !load_active
      && (qc_query_is_type qtype QUERY_TYPE_SESSION_WRITE
          || (qc.m_use_sql_variables_in == .TYPE_ALL
              && qc_query_is_type qtype QUERY_TYPE_USERVAR_WRITE)
          || qc_query_is_type qtype QUERY_TYPE_GSYSVAR_WRITE
          || qc_query_is_type qtype QUERY_TYPE_ENABLE_AUTOCOMMIT
          || qc_query_is_type qtype QUERY_TYPE_DISABLE_AUTOCOMMIT) then
    let target := if qc_query_is_type qtype QUERY_TYPE_READ then TARGET_MASTER else target
    target ||| TARGET_ALL
  else if !trx_active && !load_active && query_type_is_read_only qc qtype then
    TARGET_SLAVE
  else if ses.is_trx_read_only then
    TARGET_SLAVE
  else
    TARGET_MASTER

/-! ## Hints -/

/-- Modelled from the spec: the C library comparison
`strncasecmp(s1, s2, n) == 0` on C strings: the first `n` characters of the two
strings (all of a shorter string) agree when letter case is ignored. -/
def strncasecmp_eq (s1 s2 : String) (n : Nat) : Bool :=
  (s1.toList.take n).map Char.toLower == (s2.toList.take n).map Char.toLower

/-- Modelled from the spec: the C library comparison `strcasecmp(s1, s2) == 0`
on C strings: the two strings agree when letter case is ignored. -/
def strcasecmp_eq (s1 s2 : String) : Bool :=
  s1.toList.map Char.toLower == s2.toList.map Char.toLower

/-- The method `QueryClassifier::process_routing_hints`: the walk over the
linked list of hints, with `supports` for `m_pHandler->supports_hint` and the
target passed in and returned instead of updated through a pointer. The cases
HINT_ROUTE_TO_UPTODATE_SERVER and HINT_ROUTE_TO_ALL hold only a debug assertion
and change nothing. -/
def process_routing_hints (supports : HINT_TYPE → Bool) : List HINT → Nat → Nat
  | [], target => target
  | pHint :: next, target =>
    if supports pHint.type then
      match pHint.type with
      | .HINT_ROUTE_TO_MASTER => TARGET_MASTER
      | .HINT_ROUTE_TO_NAMED_SERVER =>
        process_routing_hints supports next (target ||| TARGET_NAMED_SERVER)
      | .HINT_ROUTE_TO_UPTODATE_SERVER => process_routing_hints supports next target
      | .HINT_ROUTE_TO_ALL => process_routing_hints supports next target
      | .HINT_ROUTE_TO_LAST_USED => process_routing_hints supports next TARGET_LAST_USED
      | .HINT_PARAMETER =>
        if strncasecmp_eq pHint.data "max_slave_replication_lag"
            "max_slave_replication_lag".length then
          process_routing_hints supports next (target ||| TARGET_RLAG_MAX)
        else
          process_routing_hints supports next target
      | .HINT_ROUTE_TO_SLAVE => process_routing_hints supports next TARGET_SLAVE
    else
      process_routing_hints supports next target

/-! ## The collaborators of the classifier -/

/-- The router side of the classifier, the abstract class
`QueryClassifier::Handler`, over a handler state `σ`: `lock_to_master` may
change the handler and reports whether it succeeded, the other two only read
it. -/
structure Handler (σ : Type) where
  lock_to_master : σ → Bool × σ
  is_locked_to_master : σ → Bool
  supports_hint : σ → HINT_TYPE → Bool

/-- The functions of the SQL parser that the classifier calls on a buffer
(maxscale/query_classifier.hh). They are outside this file and are taken as
given: any functions of the buffer. -/
structure SqlParser where
  qc_get_type_mask : GWBUF → Nat
  qc_get_operation : GWBUF → qc_query_op_t
  qc_get_table_names : GWBUF → List String
  qc_is_drop_table_query : GWBUF → Bool
  qc_get_prepare_name : GWBUF → Option String
  qc_get_function_info : GWBUF → List String

/-- The string helpers of maxscale/modutil.hh that check_for_multi_stmt calls.
They are outside this file and are taken as given. A `char*` into the buffer
is the list of the bytes from that position on; a returned pointer is the
number of bytes it lies past the pointer passed in, and `none` is NULL. -/
structure Modutil where
  strnchr_esc_mysql : List Nat → Nat → Int → Option Nat
  is_mysql_sp_end : List Nat → Int → Bool
  is_mysql_statement_end : List Nat → Int → Bool

/-! ## Reading the packet -/

/-- Modelled from the spec: `gwbuf_length`, the number of bytes of the buffer. -/
def gwbuf_length (buffer : GWBUF) : Nat :=
  buffer.data.length

/-- Modelled from the spec: `gwbuf_copy_data(buffer, offset, bytes, dest)`, the
bytes copied out of the buffer: at most `bytes` of them, starting at `offset`,
fewer when the buffer ends earlier. The function returns their number. -/
def gwbuf_copy_data (buffer : GWBUF) (offset bytes : Nat) : List Nat :=
  (buffer.data.drop offset).take bytes

/-- Modelled from the spec: `mxs_mysql_get_command`, the first byte of the
payload, or 0 when the buffer has none. -/
def mxs_mysql_get_command (buffer : GWBUF) : Nat :=
  buffer.data.getD MYSQL_HEADER_LEN 0

/-- Modelled from the spec: `gw_mysql_get_byte3`, a 3-byte little-endian
integer (all numeric fields are little-endian). -/
def gw_mysql_get_byte3 (b : List Nat) : Nat :=
  b.getD 0 0 + b.getD 1 0 * 2 ^ 8 + b.getD 2 0 * 2 ^ 16

/-- Modelled from the spec: `gw_mysql_get_byte4`, a 4-byte little-endian
integer (all numeric fields are little-endian). -/
def gw_mysql_get_byte4 (b : List Nat) : Nat :=
  b.getD 0 0 + b.getD 1 0 * 2 ^ 8 + b.getD 2 0 * 2 ^ 16 + b.getD 3 0 * 2 ^ 24

/-- Modelled from the spec: the offset of the statement id in a COM_STMT_*
packet, MYSQL_PS_ID_OFFSET: the id is the 4-byte integer at offset 5. -/
def MYSQL_PS_ID_OFFSET : Nat := MYSQL_HEADER_LEN + 1

/-- Modelled from the spec: the size of the statement id, MYSQL_PS_ID_SIZE. -/
def MYSQL_PS_ID_SIZE : Nat := 4

/-- The function `mysql_extract_ps_id`. -/
def mysql_extract_ps_id (buffer : GWBUF) : Nat :=
  let id := gwbuf_copy_data buffer MYSQL_PS_ID_OFFSET MYSQL_PS_ID_SIZE
  if id.length == MYSQL_PS_ID_SIZE then gw_mysql_get_byte4 id else 0

/-- The function `qc_mysql_extract_ps_id`, a copy of mysql_extract_ps_id. -/
def qc_mysql_extract_ps_id (buffer : GWBUF) : Nat :=
  let id := gwbuf_copy_data buffer MYSQL_PS_ID_OFFSET MYSQL_PS_ID_SIZE
  if id.length == MYSQL_PS_ID_SIZE then gw_mysql_get_byte4 id else 0

/-- The function `qc_mysql_is_ps_command`. -/
def qc_mysql_is_ps_command (cmd : Nat) : Bool :=
  cmd == MXS_COM_STMT_EXECUTE
    || cmd == MXS_COM_STMT_BULK_EXECUTE
    || cmd == MXS_COM_STMT_SEND_LONG_DATA
    || cmd == MXS_COM_STMT_CLOSE
    || cmd == MXS_COM_STMT_FETCH
    || cmd == MXS_COM_STMT_RESET

/-- The function `have_semicolon` on the first `len` bytes at the pointer. -/
def have_semicolon (ptr : List Nat) (len : Int) : Bool :=
  (ptr.take len.toNat).any (fun c => c == 59)

/-- The function `is_packet_a_query`. -/
def is_packet_a_query (packet_type : Nat) : Bool :=
  packet_type == MXS_COM_QUERY

/-- The function `check_for_sp_call`. -/
def check_for_sp_call (P : SqlParser) (buf : GWBUF) (packet_type : Nat) : Bool :=
  packet_type == MXS_COM_QUERY && P.qc_get_operation buf == .QUERY_OP_CALL

/-- The function `get_text_ps_id`: the name of the prepared statement, empty
when the parser gives none. -/
def get_text_ps_id (P : SqlParser) (buffer : GWBUF) : String :=
  match P.qc_get_prepare_name buffer with
  | some name => name
  | none => ""

/-! ## Prepared statements -/

/-- The method `PSManager::get_type` for a binary statement, through
`QueryClassifier::ps_get_type`. -/
def ps_get_type (qc : QueryClassifier) (id : Nat) : Nat :=
  match qc.m_binary_ps id with
  | some it => it.type
  | none => QUERY_TYPE_UNKNOWN

/-- The method `PSManager::get_type` for a text statement, through
`QueryClassifier::ps_get_type`. -/
def ps_get_type_text (qc : QueryClassifier) (id : String) : Nat :=
  match qc.m_text_ps id with
  | some type => type
  | none => QUERY_TYPE_UNKNOWN

/-- The method `PSManager::param_count`. -/
def param_count (qc : QueryClassifier) (id : Nat) : Nat :=
  match qc.m_binary_ps id with
  | some it => it.param_count
  | none => 0

/-- The method `QueryClassifier::ps_id_internal_get`. -/
def ps_id_internal_get (qc : QueryClassifier) (pBuffer : GWBUF) : Nat :=
  let external_id := mysql_extract_ps_id pBuffer
  let external_id := if external_id == 0xffffffff then qc.m_prev_ps_id else external_id
  match qc.m_ps_handles external_id with
  | some internal_id => internal_id
  | none => 0

/-- The method `QueryClassifier::query_continues_ps`; the previous command is
the one in `m_route_info`. -/
def query_continues_ps (qc : QueryClassifier) (cmd stmt_id : Nat) (buffer : GWBUF) : Bool :=
  let prev_cmd := qc.m_route_info.m_command
  if prev_cmd == MXS_COM_STMT_SEND_LONG_DATA
      && (cmd == MXS_COM_STMT_EXECUTE || cmd == MXS_COM_STMT_SEND_LONG_DATA) then
    true
  else if cmd == MXS_COM_STMT_FETCH then
    true
  else if cmd == MXS_COM_STMT_EXECUTE then
    let params := param_count qc stmt_id
    if params != 0 then
      let types_offset := MYSQL_HEADER_LEN + 1 + 4 + 1 + 4 + ((params + 7) / 8)
      match gwbuf_copy_data buffer types_offset 1 with
      | have_types :: _ => have_types == 0
      | [] => false
    else
      false
  else
    false

/-- The method `QueryClassifier::ps_store_response` with the ids and the
parameter count given; `m_binary_ps[id].param_count = n` creates the entry,
with type 0, when there is none. -/
def ps_store_response (qc : QueryClassifier) (internal_id external_id param_count : Nat) :
    QueryClassifier :=
  let qc := { qc with
    m_prev_ps_id := external_id
    m_ps_handles := fun k => if k = external_id then some internal_id else qc.m_ps_handles k }
  if param_count != 0 then
    let entry : BinaryPS :=
      match qc.m_binary_ps internal_id with
      | some it => { it with param_count := param_count }
      | none => { type := 0, param_count := param_count }
    { qc with m_binary_ps := fun k => if k = internal_id then some entry else qc.m_binary_ps k }
  else
    qc

/-! ## Classification of one packet -/

/-- The method `QueryClassifier::determine_query_type`. -/
def determine_query_type (P : SqlParser) (querybuf : GWBUF) (command : Nat) : Nat :=
  if command == MXS_COM_QUIT || command == MXS_COM_INIT_DB || command == MXS_COM_REFRESH
      || command == MXS_COM_DEBUG || command == MXS_COM_PING
      || command == MXS_COM_CHANGE_USER || command == MXS_COM_SET_OPTION
      || command == MXS_COM_RESET_CONNECTION then
    QUERY_TYPE_SESSION_WRITE
  else if command == MXS_COM_CREATE_DB || command == MXS_COM_DROP_DB
      || command == MXS_COM_STMT_CLOSE || command == MXS_COM_STMT_SEND_LONG_DATA
      || command == MXS_COM_STMT_RESET then
    QUERY_TYPE_WRITE
  else if command == MXS_COM_FIELD_LIST then
    QUERY_TYPE_READ
  else if command == MXS_COM_QUERY then
    P.qc_get_type_mask querybuf
  else if command == MXS_COM_STMT_PREPARE then
    P.qc_get_type_mask querybuf ||| QUERY_TYPE_PREPARE_STMT
  else if command == MXS_COM_STMT_EXECUTE then
    QUERY_TYPE_EXEC_STMT
  else
    QUERY_TYPE_UNKNOWN

/-- Modelled from the spec: `add_tmp_table` of maxscale/queryclassifier.hh (not
among the sources), insertion into the set of temporary tables. -/
def add_tmp_table (qc : QueryClassifier) (table : String) : QueryClassifier :=
  if table ∈ qc.m_tmp_tables then qc
  else { qc with m_tmp_tables := table :: qc.m_tmp_tables }

/-- Modelled from the spec: `remove_tmp_table` of maxscale/queryclassifier.hh
(not among the sources), removal from the set of temporary tables. -/
def remove_tmp_table (qc : QueryClassifier) (table : String) : QueryClassifier :=
  { qc with m_tmp_tables := qc.m_tmp_tables.filter (fun t => t != table) }

/-- Modelled from the spec: `is_tmp_table` of maxscale/queryclassifier.hh (not
among the sources), membership in the set of temporary tables. -/
def is_tmp_table (qc : QueryClassifier) (table : String) : Bool :=
  decide (table ∈ qc.m_tmp_tables)

/-- The qualification of a table name that foreach_table and
check_create_tmp_table share: a name without a '.' gets the current database
of the session in front. -/
def qualified_table (ses : MXS_SESSION) (t : String) : String :=
  if !t.toList.contains '.' then ses.current_db ++ "." ++ t else t

/-- The function `foreach_table` over the names still to visit: `func` is
applied to each qualified name until it returns false. -/
def foreach_table_loop (ses : MXS_SESSION)
    (func : QueryClassifier → String → Bool × QueryClassifier) :
    List String → QueryClassifier → Bool × QueryClassifier
  | [], qc => (true, qc)
  | t :: rest, qc =>
    match func qc (qualified_table ses t) with
    | (false, qc1) => (false, qc1)
    | (true, qc1) => foreach_table_loop ses func rest qc1

/-- The function `foreach_table`. -/
def foreach_table (P : SqlParser) (qc : QueryClassifier) (ses : MXS_SESSION) (querybuf : GWBUF)
    (func : QueryClassifier → String → Bool × QueryClassifier) : Bool × QueryClassifier :=
  foreach_table_loop ses func (P.qc_get_table_names querybuf) qc

/-- The static method `QueryClassifier::find_table`. -/
def find_table (qc : QueryClassifier) (table : String) : Bool × QueryClassifier :=
  if is_tmp_table qc table then (false, qc) else (true, qc)

/-- The static method `QueryClassifier::delete_table`. -/
def delete_table (qc : QueryClassifier) (table : String) : Bool × QueryClassifier :=
  (true, remove_tmp_table qc table)

/-- The method `QueryClassifier::check_create_tmp_table`: the table added is
the first name of the statement, the empty string when it names none. -/
def check_create_tmp_table (P : SqlParser) (qc : QueryClassifier) (ses : MXS_SESSION)
    (querybuf : GWBUF) (type : Nat) : QueryClassifier :=
  if qc_query_is_type type QUERY_TYPE_CREATE_TMP_TABLE then
    let qc := { qc with m_have_tmp_tables := true }
    let table :=
      match P.qc_get_table_names querybuf with
      | t :: _ => qualified_table ses t
      | [] => ""
    add_tmp_table qc table
  else
    qc

/-- The method `QueryClassifier::is_read_tmp_table`. -/
def is_read_tmp_table (P : SqlParser) (qc : QueryClassifier) (ses : MXS_SESSION)
    (querybuf : GWBUF) (qtype : Nat) : Bool :=
  if qc_query_is_type qtype QUERY_TYPE_READ
      || qc_query_is_type qtype QUERY_TYPE_LOCAL_READ
      || qc_query_is_type qtype QUERY_TYPE_USERVAR_READ
      || qc_query_is_type qtype QUERY_TYPE_SYSVAR_READ
      || qc_query_is_type qtype QUERY_TYPE_GSYSVAR_READ then
    !(foreach_table P qc ses querybuf find_table).1
  else
    false

/-- The method `QueryClassifier::check_drop_tmp_table`. -/
def check_drop_tmp_table (P : SqlParser) (qc : QueryClassifier) (ses : MXS_SESSION)
    (querybuf : GWBUF) : QueryClassifier :=
  if P.qc_is_drop_table_query querybuf then
    (foreach_table P qc ses querybuf delete_table).2
  else
    qc

/-- The search `strnchr_esc_mysql(ptr, c, len)` as check_for_multi_stmt uses
it: nothing is found in a range that is empty (`len` not positive). -/
def find_esc (M : Modutil) (ptr : List Nat) (c : Nat) (len : Int) : Option Nat :=
  if len ≤ 0 then none else M.strnchr_esc_mysql ptr c len

/-- The loop of check_for_multi_stmt that skips the ends of stored procedures:
`ptr` is the offset of the current ';' in `data`; the result is the offset the
loop stops at, `none` for NULL. Every search starts one byte further on, so
`fuel` larger than `buflen` is never used up. -/
def skip_sp_ends (M : Modutil) (data : List Nat) (buflen : Int) : Nat → Nat → Option Nat
  | 0, _ => none
  | fuel + 1, ptr =>
    if M.is_mysql_sp_end (data.drop ptr) (buflen - ptr) then
      match find_esc M (data.drop (ptr + 1)) 59 (buflen - ptr - 1) with
      | some r => skip_sp_ends M data buflen fuel (ptr + 1 + r)
      | none => none
    else
      some ptr

/-- The method `QueryClassifier::check_for_multi_stmt`. -/
def check_for_multi_stmt (M : Modutil) (qc : QueryClassifier) (buf : GWBUF)
    (packet_type : Nat) : Bool :=
  if qc.m_multi_statements_allowed && packet_type == MXS_COM_QUERY then
    let data := buf.data.drop 5
    let buflen : Int := (gw_mysql_get_byte3 buf.data : Int) - 1
    if have_semicolon data buflen then
      match find_esc M data 59 buflen with
      | some p =>
        match skip_sp_ends M data buflen (buflen.toNat + 1) p with
        | some ptr =>
          decide ((ptr : Int) < buflen)
            && !M.is_mysql_statement_end (data.drop ptr) (buflen - ptr)
        | none => false
      | none => false
    else
      false
  else
    false

/-- The method `QueryClassifier::handle_multi_temp_and_load`: the returned
triple is the result, the type mask behind the pointer `qtype` and the
classifier afterwards. -/
def handle_multi_temp_and_load (P : SqlParser) (M : Modutil) (qc : QueryClassifier)
    (ses : MXS_SESSION) (current_target : current_target_t) (querybuf : GWBUF)
    (packet_type qtype : Nat) : current_target_t × Nat × QueryClassifier :=
  let rv :=
    if current_target != .CURRENT_TARGET_MASTER
        && (check_for_multi_stmt M qc querybuf packet_type
            || check_for_sp_call P querybuf packet_type) then
      current_target_t.CURRENT_TARGET_MASTER
    else
      current_target_t.CURRENT_TARGET_UNDEFINED
  let qc1 :=
    if qc.m_have_tmp_tables && is_packet_a_query packet_type then
      check_drop_tmp_table P qc ses querybuf
    else
      qc
  let qtype1 :=
    if qc.m_have_tmp_tables && is_packet_a_query packet_type
        && is_read_tmp_table P qc1 ses querybuf qtype then
      qtype ||| QUERY_TYPE_MASTER_READ
    else
      qtype
  (rv, qtype1, check_create_tmp_table P qc1 ses querybuf qtype1)

/-- The loop of update_route_info over the functions of the statement: the
target becomes LAST_USED when one of them is FOUND_ROWS. -/
def found_rows_target (infos : List String) (route_target : Nat) : Nat :=
  if infos.any (fun name => strcasecmp_eq name "FOUND_ROWS") then TARGET_LAST_USED
  else route_target

/-- The step of update_route_info taken while load data is active (the branch
`load_data_state() == LOAD_DATA_ACTIVE`): the bytes sent are counted and an
empty packet ends the load. The counter `m_load_data_sent` is an unsigned
64-bit integer (`load_data_sent: u64` in the specification, printed with `%lu`),
so `append_load_data_sent` adds the length modulo 2^64. -/
def update_route_info_load_data (qc : QueryClassifier) (pBuffer : GWBUF) : QueryClassifier :=
  let qc := { qc with
    m_load_data_sent := (qc.m_load_data_sent + gwbuf_length pBuffer) % 2 ^ 64 }
  if gwbuf_length pBuffer == MYSQL_HEADER_LEN then
    { qc with m_load_data_state := .LOAD_DATA_END }
  else
    qc

/-- The step of update_route_info that finds the type mask of a command packet
(from `if (in_read_only_trx)` to the call of lock_to_master): the mask, the
classifier afterwards and the handler afterwards. -/
def update_route_info_type_mask {σ : Type} (P : SqlParser) (M : Modutil) (H : Handler σ)
    (qc : QueryClassifier) (ses : MXS_SESSION) (hs : σ) (current_target : current_target_t)
    (pBuffer : GWBUF) (command : Nat) (in_read_only_trx : Bool) :
    Nat × QueryClassifier × σ :=
  if in_read_only_trx then
    (QUERY_TYPE_READ, qc, hs)
  else
    let type_mask := determine_query_type P pBuffer command
    let r := handle_multi_temp_and_load P M qc ses current_target pBuffer command type_mask
    let current_target := r.1
    let type_mask := r.2.1
    let qc := r.2.2
    if current_target == .CURRENT_TARGET_MASTER then
      let l := H.lock_to_master hs
      if !l.1 then (type_mask ||| QUERY_TYPE_WRITE, qc, l.2) else (type_mask, qc, l.2)
    else
      (type_mask, qc, hs)

/-- The step of update_route_info that selects the target (from
`if (m_pHandler->is_locked_to_master())` to the call of get_route_target): the
target, the type mask, the statement id and the value of m_ps_continuation
afterwards; `locked` is what is_locked_to_master returned. -/
def update_route_info_target (P : SqlParser) (qc : QueryClassifier) (ses : MXS_SESSION)
    (locked : Bool) (pBuffer : GWBUF) (command type_mask : Nat) (in_read_only_trx : Bool) :
    Nat × Nat × Nat × Bool :=
  if locked then
    (TARGET_MASTER, type_mask, 0, qc.m_ps_continuation)
  else if !in_read_only_trx && command == MXS_COM_QUERY
      && P.qc_get_operation pBuffer == .QUERY_OP_EXECUTE then
    let type_mask := ps_get_type_text qc (get_text_ps_id P pBuffer)
    (get_route_target qc ses command type_mask, type_mask, 0, qc.m_ps_continuation)
  else if qc_mysql_is_ps_command command then
    let stmt_id := ps_id_internal_get qc pBuffer
    let type_mask := ps_get_type qc stmt_id
    (get_route_target qc ses command type_mask, type_mask, stmt_id,
      query_continues_ps qc command stmt_id pBuffer)
  else
    (get_route_target qc ses command type_mask, type_mask, 0, qc.m_ps_continuation)

/-- The step of update_route_info that rewrites the target of a COM_QUERY
routed to REPLICA that calls FOUND_ROWS. -/
def update_route_info_found_rows (P : SqlParser) (pBuffer : GWBUF) (command route_target : Nat) :
    Nat :=
  if route_target == TARGET_SLAVE && command == MXS_COM_QUERY then
    found_rows_target (P.qc_get_function_info pBuffer) route_target
  else
    route_target

/-- The step of update_route_info that maintains `m_trx_is_read_only`: the
value of the flag afterwards. -/
def update_route_info_trx_is_read_only (qc : QueryClassifier) (ses : MXS_SESSION)
    (type_mask : Nat) : Bool :=
  if ses.is_trx_ending || qc_query_is_type type_mask QUERY_TYPE_BEGIN_TRX then
    true
  else if ses.is_trx_active && !query_type_is_read_only qc type_mask then
    false
  else
    qc.m_trx_is_read_only

/-- The method `QueryClassifier::update_route_info`, put together from the
steps above in the order of the source: the route info returned (also stored
in `m_route_info`), the classifier afterwards and the handler afterwards. -/
def update_route_info {σ : Type} (P : SqlParser) (M : Modutil) (H : Handler σ)
    (qc : QueryClassifier) (ses : MXS_SESSION) (hs : σ)
    (current_target : current_target_t) (pBuffer : GWBUF) :
    RouteInfo × QueryClassifier × σ :=
  let len := gwbuf_length pBuffer
  let qc := { qc with m_ps_continuation := false }
  let in_read_only_trx :=
    current_target != .CURRENT_TARGET_UNDEFINED && ses.is_trx_read_only
  if qc.m_load_data_state == .LOAD_DATA_ACTIVE then
    let qc := update_route_info_load_data qc pBuffer
    let info : RouteInfo :=
      { m_target := TARGET_MASTER, m_command := 0xFF,
        m_type_mask := QUERY_TYPE_UNKNOWN, m_stmt_id := 0 }
    (info, { qc with m_route_info := info }, hs)
  else if len > MYSQL_HEADER_LEN then
    let command := mxs_mysql_get_command pBuffer
    let tm := update_route_info_type_mask P M H qc ses hs current_target pBuffer command
      in_read_only_trx
    let qc := tm.2.1
    let hs := tm.2.2
    let tg := update_route_info_target P qc ses (H.is_locked_to_master hs) pBuffer command
      tm.1 in_read_only_trx
    let type_mask := tg.2.1
    let stmt_id := tg.2.2.1
    let qc := { qc with m_ps_continuation := tg.2.2.2 }
    let route_target := process_routing_hints (H.supports_hint hs) pBuffer.hint tg.1
    let route_target := update_route_info_found_rows P pBuffer command route_target
    let qc := { qc with m_trx_is_read_only := update_route_info_trx_is_read_only qc ses type_mask }
    let info : RouteInfo :=
      { m_target := route_target, m_command := command,
        m_type_mask := type_mask, m_stmt_id := stmt_id }
    (info, { qc with m_route_info := info }, hs)
  else
    let info : RouteInfo :=
      { m_target := TARGET_MASTER, m_command := 0xFF,
        m_type_mask := QUERY_TYPE_UNKNOWN, m_stmt_id := 0 }
    (info, { qc with m_route_info := info }, hs)

/-- The target update_route_info holds for a command packet when the call of
process_routing_hints returns, before the check for FOUND_ROWS: the steps of
update_route_info up to that point. -/
def update_route_info_hint_target {σ : Type} (P : SqlParser) (M : Modutil) (H : Handler σ)
    (qc : QueryClassifier) (ses : MXS_SESSION) (hs : σ)
    (current_target : current_target_t) (pBuffer : GWBUF) : Nat :=
  let qc := { qc with m_ps_continuation := false }
  let in_read_only_trx :=
    current_target != .CURRENT_TARGET_UNDEFINED && ses.is_trx_read_only
  let command := mxs_mysql_get_command pBuffer
  let tm := update_route_info_type_mask P M H qc ses hs current_target pBuffer command
    in_read_only_trx
  let tg := update_route_info_target P tm.2.1 ses (H.is_locked_to_master tm.2.2) pBuffer
    command tm.1 in_read_only_trx
  process_routing_hints (H.supports_hint tm.2.2) pBuffer.hint tg.1

/-- The type-mask step as update_route_info runs it on a command packet: with
m_ps_continuation reset, the command byte of the packet and the test for a
read-only transaction. -/
def update_route_info_mask_step {σ : Type} (P : SqlParser) (M : Modutil) (H : Handler σ)
    (qc : QueryClassifier) (ses : MXS_SESSION) (hs : σ)
    (current_target : current_target_t) (pBuffer : GWBUF) : Nat × QueryClassifier × σ :=
  update_route_info_type_mask P M H { qc with m_ps_continuation := false } ses hs
    current_target pBuffer (mxs_mysql_get_command pBuffer)
    (current_target != .CURRENT_TARGET_UNDEFINED && ses.is_trx_read_only)

/-- The target step as update_route_info runs it on a command packet, after the
type-mask step. -/
def update_route_info_target_step {σ : Type} (P : SqlParser) (M : Modutil) (H : Handler σ)
    (qc : QueryClassifier) (ses : MXS_SESSION) (hs : σ)
    (current_target : current_target_t) (pBuffer : GWBUF) : Nat × Nat × Nat × Bool :=
  update_route_info_target P
    (update_route_info_mask_step P M H qc ses hs current_target pBuffer).2.1 ses
    (H.is_locked_to_master
      (update_route_info_mask_step P M H qc ses hs current_target pBuffer).2.2)
    pBuffer (mxs_mysql_get_command pBuffer)
    (update_route_info_mask_step P M H qc ses hs current_target pBuffer).1
    (current_target != .CURRENT_TARGET_UNDEFINED && ses.is_trx_read_only)

/-! ## The string helpers of check_for_multi_stmt, from the specification -/

/-- The state of the temporary tables is consistent: the flag have_tmp_tables
is set whenever the set of temporary tables has a member. The constructor
establishes this and update_route_info keeps it. -/
def tmp_tables_flagged (qc : QueryClassifier) : Prop :=
  qc.m_tmp_tables ≠ [] → qc.m_have_tmp_tables = true

instance (qc : QueryClassifier) : Decidable (tmp_tables_flagged qc) := by
  unfold tmp_tables_flagged; infer_instance

/-- The one case in which classifying a packet registers a temporary table
that a classification of the same packet reads. The statement is parsed (the
current target is undefined or the session reports no read-only transaction);
the packet is a query packet and not a DROP TABLE; its type mask contains
CREATE_TMP_TABLE and one of the read types that is_read_tmp_table tests; it
names a table; and none of its tables is registered as a temporary table
yet. -/
def registers_table_it_reads (P : SqlParser) (qc : QueryClassifier) (ses : MXS_SESSION)
    (current_target : current_target_t) (pBuffer : GWBUF) : Prop :=
  (current_target != .CURRENT_TARGET_UNDEFINED && ses.is_trx_read_only) = false
    ∧ is_packet_a_query (mxs_mysql_get_command pBuffer) = true
    ∧ P.qc_is_drop_table_query pBuffer = false
    ∧ qc_query_is_type (determine_query_type P pBuffer (mxs_mysql_get_command pBuffer))
        QUERY_TYPE_CREATE_TMP_TABLE = true
    ∧ (qc_query_is_type (determine_query_type P pBuffer (mxs_mysql_get_command pBuffer))
          QUERY_TYPE_READ
        || qc_query_is_type (determine_query_type P pBuffer (mxs_mysql_get_command pBuffer))
          QUERY_TYPE_LOCAL_READ
        || qc_query_is_type (determine_query_type P pBuffer (mxs_mysql_get_command pBuffer))
          QUERY_TYPE_USERVAR_READ
        || qc_query_is_type (determine_query_type P pBuffer (mxs_mysql_get_command pBuffer))
          QUERY_TYPE_SYSVAR_READ
        || qc_query_is_type (determine_query_type P pBuffer (mxs_mysql_get_command pBuffer))
          QUERY_TYPE_GSYSVAR_READ) = true
    ∧ P.qc_get_table_names pBuffer ≠ []
    ∧ ¬ (qc.m_have_tmp_tables = true
        ∧ ∃ t ∈ P.qc_get_table_names pBuffer, qualified_table ses t ∈ qc.m_tmp_tables)

instance (P : SqlParser) (qc : QueryClassifier) (ses : MXS_SESSION)
    (current_target : current_target_t) (pBuffer : GWBUF) :
    Decidable (registers_table_it_reads P qc ses current_target pBuffer) := by
  unfold registers_table_it_reads; infer_instance

/-! ## Module names (server/core/load_utils.cc) -/

/-- Modelled from the spec: `mxb::tolower` of maxbase, whose code is not among
the sources: the string with every upper-case letter A to Z replaced by its
lower-case letter and every other character kept, the lowercase of the
name. -/
def mxb_tolower (s : String) : String :=
  ⟨s.data.map Char.toLower⟩

/-- The record `NAME_MAPPING` of load_utils.cc: the old name of a module and
the name loaded instead (the fields `from` and `to` of the source). The fields
`type` and `warned` only feed the deprecation warning and are left out. -/
structure NAME_MAPPING where
  from_ : String
  to_ : String
  deriving DecidableEq, Repr

/-- The table `name_mappings` of load_utils.cc. -/
def name_mappings : List NAME_MAPPING :=
  [ ⟨"mysqlmon", "mariadbmon"⟩,
    ⟨"mysqlclient", "mariadbclient"⟩,
    ⟨"mariadb", "mariadbclient"⟩,
    ⟨"mysqlauth", "mariadbauth"⟩ ]

/-- The loop of module_get_effective_name over the mappings still to try: the
first mapping whose old name is the name given decides, and ends the loop. -/
def module_get_effective_name_loop (eff_name : String) : List NAME_MAPPING → String
  | [] => eff_name
  | nm :: rest =>
    if eff_name == nm.from_ then nm.to_
    else module_get_effective_name_loop eff_name rest

/-- The function `module_get_effective_name` of load_utils.cc. -/
def module_get_effective_name (name : String) : String :=
  module_get_effective_name_loop (mxb_tolower name) name_mappings

/-! ## Sequences of calls -/

/-- One call of update_route_info as the router makes it: the session facts at
the time of the call, the current target and the packet. -/
structure Call where
  ses : MXS_SESSION
  current_target : current_target_t
  buffer : GWBUF

/-- The classifier and the handler after a sequence of calls of
update_route_info, each call starting from the state the one before left. -/
def update_route_info_run {σ : Type} (P : SqlParser) (M : Modutil) (H : Handler σ) :
    QueryClassifier → σ → List Call → QueryClassifier × σ
  | qc, hs, [] => (qc, hs)
  | qc, hs, c :: rest =>
    update_route_info_run P M H
      (update_route_info P M H qc c.ses hs c.current_target c.buffer).2.1
      (update_route_info P M H qc c.ses hs c.current_target c.buffer).2.2 rest

/-- The calls of a sequence lie strictly inside one transaction, in the words
of the specification: at no call does the session report the transaction as
ending, and no call classifies a type mask that contains BEGIN_TRX. -/
def inside_one_transaction {σ : Type} (P : SqlParser) (M : Modutil) (H : Handler σ) :
    QueryClassifier → σ → List Call → Prop
  | _, _, [] => True
  | qc, hs, c :: rest =>
    c.ses.is_trx_ending = false
      ∧ qc_query_is_type
          (update_route_info P M H qc c.ses hs c.current_target c.buffer).1.m_type_mask
          QUERY_TYPE_BEGIN_TRX = false
      ∧ inside_one_transaction P M H
          (update_route_info P M H qc c.ses hs c.current_target c.buffer).2.1
          (update_route_info P M H qc c.ses hs c.current_target c.buffer).2.2 rest

instance inside_one_transaction_decidable {σ : Type} (P : SqlParser) (M : Modutil)
    (H : Handler σ) :
    (calls : List Call) → (qc : QueryClassifier) → (hs : σ) →
      Decidable (inside_one_transaction P M H qc hs calls)
  | [], _, _ => isTrue trivial
  | c :: rest, qc, hs =>
    have := inside_one_transaction_decidable P M H rest
      (update_route_info P M H qc c.ses hs c.current_target c.buffer).2.1
      (update_route_info P M H qc c.ses hs c.current_target c.buffer).2.2
    inferInstanceAs (Decidable (_ ∧ _ ∧ _))

/-! ## The conditions of the selection rules, in the words of the specification -/

/-- Rule 1 of the specification matches: the command is STMT_CLOSE or
STMT_RESET, or the type mask contains PREPARE_STMT or PREPARE_NAMED_STMT. -/
def matches_rule1 (command qtype : Nat) : Prop :=
  command = MXS_COM_STMT_CLOSE ∨ command = MXS_COM_STMT_RESET
    ∨ qc_query_is_type qtype QUERY_TYPE_PREPARE_STMT = true
    ∨ qc_query_is_type qtype QUERY_TYPE_PREPARE_NAMED_STMT = true

/-- The condition of rule 2 of the specification holds of the type mask: one
of SESSION_WRITE, GSYSVAR_WRITE, ENABLE_AUTOCOMMIT, DISABLE_AUTOCOMMIT is set,
or USERVAR_WRITE is set and use_sql_variables_in = ALL. -/
def matches_rule2 (use_sql_variables_in : mxs_target_t) (qtype : Nat) : Prop :=
  qc_query_is_type qtype QUERY_TYPE_SESSION_WRITE = true
    ∨ qc_query_is_type qtype QUERY_TYPE_GSYSVAR_WRITE = true
    ∨ qc_query_is_type qtype QUERY_TYPE_ENABLE_AUTOCOMMIT = true
    ∨ qc_query_is_type qtype QUERY_TYPE_DISABLE_AUTOCOMMIT = true
    ∨ (qc_query_is_type qtype QUERY_TYPE_USERVAR_WRITE = true
        ∧ use_sql_variables_in = .TYPE_ALL)

instance (command qtype : Nat) : Decidable (matches_rule1 command qtype) := by
  unfold matches_rule1; infer_instance

instance (u : mxs_target_t) (qtype : Nat) : Decidable (matches_rule2 u qtype) := by
  unfold matches_rule2; infer_instance

/-- The condition of rule 4 of the specification: no transaction is active,
load data is inactive and the mask is strictly read-only. -/
def matches_rule4 (qc : QueryClassifier) (ses : MXS_SESSION) (qtype : Nat) : Prop :=
  ses.is_trx_active = false ∧ qc.m_load_data_state = .LOAD_DATA_INACTIVE
    ∧ query_type_is_read_only qc qtype = true

instance (qc : QueryClassifier) (ses : MXS_SESSION) (qtype : Nat) :
    Decidable (matches_rule4 qc ses qtype) := by
  unfold matches_rule4; infer_instance

/-! ## Inputs used in the examples -/

/-- A session outside any transaction, with current database `test`. -/
def ses_idle : MXS_SESSION :=
  { is_trx_active := false, is_trx_read_only := false, is_trx_ending := false,
    current_db := "test" }

/-- A session inside a read-write transaction. -/
def ses_in_trx : MXS_SESSION :=
  { is_trx_active := true, is_trx_read_only := false, is_trx_ending := false,
    current_db := "test" }

/-- A session inside a transaction started with START TRANSACTION READ ONLY. -/
def ses_ro_trx : MXS_SESSION :=
  { is_trx_active := true, is_trx_read_only := true, is_trx_ending := false,
    current_db := "test" }

/-- A freshly constructed classifier with use_sql_variables_in = MASTER. -/
def qc_master : QueryClassifier := QueryClassifier.init .TYPE_MASTER false

/-- A freshly constructed classifier with use_sql_variables_in = ALL. -/
def qc_all : QueryClassifier := QueryClassifier.init .TYPE_ALL false

/-- A parser that finds a plain SELECT in every buffer: mask READ, no tables,
no functions. -/
def parser_select : SqlParser :=
  { qc_get_type_mask := fun _ => QUERY_TYPE_READ
    qc_get_operation := fun _ => .QUERY_OP_SELECT
    qc_get_table_names := fun _ => []
    qc_is_drop_table_query := fun _ => false
    qc_get_prepare_name := fun _ => none
    qc_get_function_info := fun _ => [] }

/-- String helpers that find no ';' in any range. -/
def modutil_no_semicolon : Modutil :=
  { strnchr_esc_mysql := fun _ _ _ => none
    is_mysql_sp_end := fun _ _ => false
    is_mysql_statement_end := fun _ _ => true }

/-- A handler whose state is the flag "locked to primary": lock_to_master
succeeds and sets it, every kind of hint is supported. -/
def handler_flag : Handler Bool :=
  { lock_to_master := fun _ => (true, true)
    is_locked_to_master := fun locked => locked
    supports_hint := fun _ _ => true }

/-- A handler that has no primary to lock to: lock_to_master fails and the
session is never locked; every kind of hint is supported. -/
def handler_unlocked : Handler Unit :=
  { lock_to_master := fun _ => (false, ())
    is_locked_to_master := fun _ => false
    supports_hint := fun _ _ => true }

/-- The packet COM_QUERY "SELECT 1", without hints. -/
def buf_select_1 : GWBUF :=
  { data := [9, 0, 0, 0, 0x03, 83, 69, 76, 69, 67, 84, 32, 49], hint := [] }

/-- The packet COM_STMT_PREPARE "SELECT 1", without hints. -/
def buf_prepare_select_1 : GWBUF :=
  { data := [9, 0, 0, 0, 0x16, 83, 69, 76, 69, 67, 84, 32, 49], hint := [] }

/-- The packet COM_STMT_CLOSE of statement 1, without hints. -/
def buf_stmt_close_1 : GWBUF :=
  { data := [5, 0, 0, 0, 0x19, 1, 0, 0, 0], hint := [] }

/-- The packet COM_STMT_EXECUTE of statement 7 with one parameter: flags,
iteration count, one byte of NULL bitmap and the new-params-bound flag 0,
without hints. -/
def buf_stmt_execute_7 : GWBUF :=
  { data := [12, 0, 0, 0, 0x17, 7, 0, 0, 0, 0, 1, 0, 0, 0, 0, 0], hint := [] }

/-- The packet COM_STMT_EXECUTE with the statement id 0xFFFFFFFF (direct
execution of the statement prepared last), without hints. -/
def buf_stmt_execute_direct : GWBUF :=
  { data := [12, 0, 0, 0, 0x17, 255, 255, 255, 255, 0, 1, 0, 0, 0, 0, 0], hint := [] }

/-- A classifier in which the statement with internal id 1 and one parameter
was registered under the external id 7. -/
def qc_prepared : QueryClassifier := ps_store_response qc_master 1 7 1

/-- A parser that finds SELECT FOUND_ROWS() in every buffer: mask READ, no
tables, the function found_rows. -/
def parser_found_rows : SqlParser :=
  { qc_get_type_mask := fun _ => QUERY_TYPE_READ
    qc_get_operation := fun _ => .QUERY_OP_SELECT
    qc_get_table_names := fun _ => []
    qc_is_drop_table_query := fun _ => false
    qc_get_prepare_name := fun _ => none
    qc_get_function_info := fun _ => ["found_rows"] }

/-- The packet COM_QUERY "SELECT 1" with the hint max_slave_replication_lag. -/
def buf_select_rlag_hint : GWBUF :=
  { data := [9, 0, 0, 0, 0x03, 83, 69, 76, 69, 67, 84, 32, 49],
    hint := [⟨.HINT_PARAMETER, "max_slave_replication_lag"⟩] }

/-- The packet COM_STMT_SEND_LONG_DATA for parameter 0 of statement 7, one
byte of data, without hints. -/
def buf_stmt_long_data_7 : GWBUF :=
  { data := [8, 0, 0, 0, 0x18, 7, 0, 0, 0, 0, 0, 65], hint := [] }

/-- A parser that finds BEGIN in every buffer: mask BEGIN_TRX. -/
def parser_begin : SqlParser :=
  { qc_get_type_mask := fun _ => QUERY_TYPE_BEGIN_TRX
    qc_get_operation := fun _ => .QUERY_OP_UNDEFINED
    qc_get_table_names := fun _ => []
    qc_is_drop_table_query := fun _ => false
    qc_get_prepare_name := fun _ => none
    qc_get_function_info := fun _ => [] }

/-- The packet COM_QUERY "BEGIN", without hints. -/
def buf_begin : GWBUF :=
  { data := [6, 0, 0, 0, 0x03, 66, 69, 71, 73, 78], hint := [] }

/-- A parser that finds an UPDATE in every buffer: mask WRITE. -/
def parser_update : SqlParser :=
  { qc_get_type_mask := fun _ => QUERY_TYPE_WRITE
    qc_get_operation := fun _ => .QUERY_OP_UPDATE
    qc_get_table_names := fun _ => []
    qc_is_drop_table_query := fun _ => false
    qc_get_prepare_name := fun _ => none
    qc_get_function_info := fun _ => [] }

/-- A classifier whose transaction has already seen a write: the flag
m_trx_is_read_only is false. -/
def qc_trx_written : QueryClassifier := { qc_master with m_trx_is_read_only := false }

/-- The calls of a client inside one transaction after its first write: a
SELECT, then an empty packet, then another SELECT, the session reporting an
active read-write transaction throughout. -/
def calls_in_trx : List Call :=
  [⟨ses_in_trx, .CURRENT_TARGET_MASTER, buf_select_1⟩,
    ⟨ses_in_trx, .CURRENT_TARGET_MASTER, ⟨[0, 0, 0, 0], []⟩⟩,
    ⟨ses_in_trx, .CURRENT_TARGET_MASTER, buf_select_1⟩]

/-- The empty packet: a header with payload length 0 and nothing after it,
without hints. -/
def buf_empty : GWBUF := { data := [0, 0, 0, 0], hint := [] }

/-- A packet of LOAD DATA LOCAL INFILE data: three bytes of file contents. -/
def buf_load_data_chunk : GWBUF := { data := [3, 0, 0, 1, 97, 98, 99], hint := [] }

/-- A classifier in the middle of a LOAD DATA LOCAL INFILE: the state is ACTIVE
and 100 bytes have been sent. -/
def qc_loading : QueryClassifier :=
  { qc_master with m_load_data_state := .LOAD_DATA_ACTIVE, m_load_data_sent := 100 }

/-- A classifier in the middle of a LOAD DATA LOCAL INFILE whose byte counter
stands at its largest value, 2^64 - 1. -/
def qc_loading_wrap : QueryClassifier :=
  { qc_master with m_load_data_state := .LOAD_DATA_ACTIVE, m_load_data_sent := 2 ^ 64 - 1 }

/-- A parser that finds CREATE TEMPORARY TABLE t1 in every buffer: mask
WRITE | CREATE_TMP_TABLE, table t1. -/
def parser_create_tmp : SqlParser :=
  { qc_get_type_mask := fun _ => QUERY_TYPE_WRITE ||| QUERY_TYPE_CREATE_TMP_TABLE
    qc_get_operation := fun _ => .QUERY_OP_UNDEFINED
    qc_get_table_names := fun _ => ["t1"]
    qc_is_drop_table_query := fun _ => false
    qc_get_prepare_name := fun _ => none
    qc_get_function_info := fun _ => [] }

/-- A parser that finds DROP TABLE t1 in every buffer: mask WRITE, table t1. -/
def parser_drop : SqlParser :=
  { qc_get_type_mask := fun _ => QUERY_TYPE_WRITE
    qc_get_operation := fun _ => .QUERY_OP_DROP
    qc_get_table_names := fun _ => ["t1"]
    qc_is_drop_table_query := fun _ => true
    qc_get_prepare_name := fun _ => none
    qc_get_function_info := fun _ => [] }

/-- A parser that finds SELECT * FROM t1 in every buffer: mask READ, table
t1. -/
def parser_select_t1 : SqlParser :=
  { qc_get_type_mask := fun _ => QUERY_TYPE_READ
    qc_get_operation := fun _ => .QUERY_OP_SELECT
    qc_get_table_names := fun _ => ["t1"]
    qc_is_drop_table_query := fun _ => false
    qc_get_prepare_name := fun _ => none
    qc_get_function_info := fun _ => [] }

/-- A classifier in which the temporary tables test.t1 and other.t2 are
registered. -/
def qc_tmp_tables : QueryClassifier :=
  { qc_master with m_have_tmp_tables := true, m_tmp_tables := ["test.t1", "other.t2"] }

/-- A parser that finds CREATE TEMPORARY TABLE t1 SELECT @a in every buffer:
mask WRITE | CREATE_TMP_TABLE | USERVAR_READ, table t1. -/
def parser_create_tmp_select : SqlParser :=
  { qc_get_type_mask := fun _ =>
      QUERY_TYPE_WRITE ||| QUERY_TYPE_CREATE_TMP_TABLE ||| QUERY_TYPE_USERVAR_READ
    qc_get_operation := fun _ => .QUERY_OP_UNDEFINED
    qc_get_table_names := fun _ => ["t1"]
    qc_is_drop_table_query := fun _ => false
    qc_get_prepare_name := fun _ => none
    qc_get_function_info := fun _ => [] }

/-- The packet COM_QUERY "CREATE TEMPORARY TABLE t1 SELECT @a", without
hints. -/
def buf_create_tmp_select : GWBUF :=
  { data := [36, 0, 0, 0, 0x03, 67, 82, 69, 65, 84, 69, 32, 84, 69, 77, 80, 79, 82, 65, 82,
      89, 32, 84, 65, 66, 76, 69, 32, 116, 49, 32, 83, 69, 76, 69, 67, 84, 32, 64, 97],
    hint := [] }

/-! ## Theorems: the route selector -/

/-- When rule 1 matches, the first branch of get_route_target is taken. -/
theorem get_route_target_of_rule1 (qc : QueryClassifier) (ses : MXS_SESSION)
    (command qtype : Nat) (h1 : matches_rule1 command qtype) :
    get_route_target qc ses command qtype = TARGET_ALL := by
  unfold matches_rule1 at h1
  unfold get_route_target
  rcases h1 with h | h | h | h <;> simp [h]

/-- A mask with the bits of a type OR-ed in contains the type. -/
theorem qc_query_is_type_or_self (m p : Nat) : qc_query_is_type (m ||| p) p = true := by
  unfold qc_query_is_type
  rw [beq_iff_eq]
  apply Nat.eq_of_testBit_eq
  intro i
  simp only [Nat.testBit_and, Nat.testBit_or]
  cases m.testBit i <;> cases p.testBit i <;> rfl

/-- When neither rule 1 nor the rule-2 condition matches, get_route_target is
decided by its last three branches. -/
theorem get_route_target_of_not_rule12 (qc : QueryClassifier) (ses : MXS_SESSION)
    (command qtype : Nat)
    (h1 : ¬ matches_rule1 command qtype)
    (h2 : ¬ matches_rule2 qc.m_use_sql_variables_in qtype) :
    get_route_target qc ses command qtype =
      if (!ses.is_trx_active && !(qc.m_load_data_state != .LOAD_DATA_INACTIVE)
          && query_type_is_read_only qc qtype) = true then TARGET_SLAVE
      else if ses.is_trx_read_only = true then TARGET_SLAVE
      else TARGET_MASTER := by
  simp only [matches_rule1, not_or] at h1
  obtain ⟨hc, hr, hp, hn⟩ := h1
  simp only [matches_rule2, not_or, not_and] at h2
  obtain ⟨hs, hg, he, hd, hu⟩ := h2
  have hu2 : (qc.m_use_sql_variables_in == mxs_target_t.TYPE_ALL
      && qc_query_is_type qtype QUERY_TYPE_USERVAR_WRITE) = false := by
    cases h : qc_query_is_type qtype QUERY_TYPE_USERVAR_WRITE
    · simp
    · simpa using hu h
  unfold get_route_target
  simp only [Bool.not_eq_true] at hp hn hs hg he hd
  simp [hc, hr, hp, hn, hs, hg, he, hd, hu2]

/-- C1: rule 1 of the route selector. Whenever the command is COM_STMT_CLOSE
or COM_STMT_RESET or the type mask contains PREPARE_STMT or PREPARE_NAMED_STMT,
get_route_target returns exactly ALL, for every session state, every setting
of use_sql_variables_in and every load-data state, the inactive one included. -/
theorem C1_rule1_routes_to_all (qc : QueryClassifier) (ses : MXS_SESSION)
    (command qtype : Nat) (h1 : matches_rule1 command qtype) :
    get_route_target qc ses command qtype = TARGET_ALL :=
  get_route_target_of_rule1 qc ses command qtype h1

/-- C1 holds of a COM_STMT_CLOSE inside a transaction, load data inactive. -/
theorem C1_rule1_routes_to_all_witness :
    qc_master.m_load_data_state = .LOAD_DATA_INACTIVE
      ∧ matches_rule1 MXS_COM_STMT_CLOSE QUERY_TYPE_WRITE
      ∧ get_route_target qc_master ses_in_trx MXS_COM_STMT_CLOSE QUERY_TYPE_WRITE
          = TARGET_ALL :=
  ⟨rfl, Or.inl rfl,
    C1_rule1_routes_to_all qc_master ses_in_trx MXS_COM_STMT_CLOSE QUERY_TYPE_WRITE
      (Or.inl rfl)⟩

/-- C2: rule 2 of the route selector, broadcast case. With load data inactive
(the precondition get_route_target asserts), a command and mask that do not
match rule 1, whose mask has no READ and satisfies the rule-2 condition, are
routed to exactly ALL, whatever the transaction state of the session. -/
theorem C2_rule2_routes_to_all (qc : QueryClassifier) (ses : MXS_SESSION)
    (command qtype : Nat)
    (hload : qc.m_load_data_state = .LOAD_DATA_INACTIVE)
    (h1 : ¬ matches_rule1 command qtype)
    (hread : qc_query_is_type qtype QUERY_TYPE_READ = false)
    (h2 : matches_rule2 qc.m_use_sql_variables_in qtype) :
    get_route_target qc ses command qtype = TARGET_ALL := by
  simp only [matches_rule1, not_or] at h1
  obtain ⟨hc, hr, hp, hn⟩ := h1
  unfold matches_rule2 at h2
  unfold get_route_target
  have hall : TARGET_UNDEFINED ||| TARGET_ALL = TARGET_ALL := by decide
  rcases h2 with h | h | h | h | ⟨h, hu⟩ <;> simp [hc, hr, hp, hn, hread, hload, h, hall, *]

/-- C2 holds of SET autocommit=0 (mask DISABLE_AUTOCOMMIT) inside a
transaction. -/
theorem C2_rule2_routes_to_all_witness :
    qc_master.m_load_data_state = .LOAD_DATA_INACTIVE
      ∧ ¬ matches_rule1 MXS_COM_QUERY QUERY_TYPE_DISABLE_AUTOCOMMIT
      ∧ qc_query_is_type QUERY_TYPE_DISABLE_AUTOCOMMIT QUERY_TYPE_READ = false
      ∧ matches_rule2 qc_master.m_use_sql_variables_in QUERY_TYPE_DISABLE_AUTOCOMMIT
      ∧ get_route_target qc_master ses_in_trx MXS_COM_QUERY QUERY_TYPE_DISABLE_AUTOCOMMIT
          = TARGET_ALL :=
  ⟨rfl, by decide, by decide, by decide,
    C2_rule2_routes_to_all qc_master ses_in_trx MXS_COM_QUERY QUERY_TYPE_DISABLE_AUTOCOMMIT
      rfl (by decide) (by decide) (by decide)⟩

/-- C3, as stated, fails: SELECT together with a session write (mask
SESSION_WRITE | READ) matches the rule-2 condition and contains READ, yet the
target returned is not PRIMARY and it does contain the ALL bit. -/
theorem C3_read_override_counterexample :
    qc_master.m_load_data_state = .LOAD_DATA_INACTIVE
      ∧ ¬ matches_rule1 MXS_COM_QUERY (QUERY_TYPE_SESSION_WRITE ||| QUERY_TYPE_READ)
      ∧ matches_rule2 qc_master.m_use_sql_variables_in
          (QUERY_TYPE_SESSION_WRITE ||| QUERY_TYPE_READ)
      ∧ qc_query_is_type (QUERY_TYPE_SESSION_WRITE ||| QUERY_TYPE_READ) QUERY_TYPE_READ = true
      ∧ get_route_target qc_master ses_idle MXS_COM_QUERY
          (QUERY_TYPE_SESSION_WRITE ||| QUERY_TYPE_READ) ≠ TARGET_MASTER
      ∧ get_route_target qc_master ses_idle MXS_COM_QUERY
          (QUERY_TYPE_SESSION_WRITE ||| QUERY_TYPE_READ) &&& TARGET_ALL = TARGET_ALL := by
  decide

/-- C3, amended: rule 2 of the route selector with READ in the mask. With load
data inactive, a command and mask that do not match rule 1, satisfy the rule-2
condition and contain READ get the target PRIMARY with the ALL bit OR-ed in:
the value is PRIMARY | ALL, which differs from PRIMARY, and both the PRIMARY
bit and the ALL bit are set in it. -/
theorem C3_read_override_primary_or_all (qc : QueryClassifier) (ses : MXS_SESSION)
    (command qtype : Nat)
    (hload : qc.m_load_data_state = .LOAD_DATA_INACTIVE)
    (h1 : ¬ matches_rule1 command qtype)
    (h2 : matches_rule2 qc.m_use_sql_variables_in qtype)
    (hread : qc_query_is_type qtype QUERY_TYPE_READ = true) :
    get_route_target qc ses command qtype = TARGET_MASTER ||| TARGET_ALL
      ∧ get_route_target qc ses command qtype ≠ TARGET_MASTER
      ∧ get_route_target qc ses command qtype &&& TARGET_MASTER = TARGET_MASTER
      ∧ get_route_target qc ses command qtype &&& TARGET_ALL = TARGET_ALL := by
  have key : get_route_target qc ses command qtype = TARGET_MASTER ||| TARGET_ALL := by
    simp only [matches_rule1, not_or] at h1
    obtain ⟨hc, hr, hp, hn⟩ := h1
    unfold matches_rule2 at h2
    unfold get_route_target
    rcases h2 with h | h | h | h | ⟨h, hu⟩ <;> simp [hc, hr, hp, hn, hread, hload, h, *]
  rw [key]
  decide

/-- C3 amended holds of a SELECT that also writes session state. -/
theorem C3_read_override_primary_or_all_witness :
    qc_master.m_load_data_state = .LOAD_DATA_INACTIVE
      ∧ ¬ matches_rule1 MXS_COM_QUERY (QUERY_TYPE_SESSION_WRITE ||| QUERY_TYPE_READ)
      ∧ matches_rule2 qc_master.m_use_sql_variables_in
          (QUERY_TYPE_SESSION_WRITE ||| QUERY_TYPE_READ)
      ∧ qc_query_is_type (QUERY_TYPE_SESSION_WRITE ||| QUERY_TYPE_READ) QUERY_TYPE_READ = true
      ∧ get_route_target qc_master ses_idle MXS_COM_QUERY
          (QUERY_TYPE_SESSION_WRITE ||| QUERY_TYPE_READ) = TARGET_MASTER ||| TARGET_ALL :=
  ⟨rfl, by decide, by decide, by decide,
    (C3_read_override_primary_or_all qc_master ses_idle MXS_COM_QUERY
      (QUERY_TYPE_SESSION_WRITE ||| QUERY_TYPE_READ) rfl (by decide) (by decide)
      (by decide)).1⟩

/-- C4: rule 4 of the route selector. A command and mask that match neither
rule 1 nor rule 2 and are strictly read-only (query_type_is_read_only) are
routed to exactly REPLICA when no transaction is active and load data is
inactive. -/
theorem C4_rule4_read_only_routes_to_replica (qc : QueryClassifier) (ses : MXS_SESSION)
    (command qtype : Nat)
    (h1 : ¬ matches_rule1 command qtype)
    (h2 : ¬ matches_rule2 qc.m_use_sql_variables_in qtype)
    (hro : query_type_is_read_only qc qtype = true)
    (htrx : ses.is_trx_active = false)
    (hload : qc.m_load_data_state = .LOAD_DATA_INACTIVE) :
    get_route_target qc ses command qtype = TARGET_SLAVE := by
  rw [get_route_target_of_not_rule12 qc ses command qtype h1 h2]
  simp [hro, htrx, hload]

/-- C4 holds of a SELECT (mask READ) issued outside a transaction, as after a
COMMIT. -/
theorem C4_rule4_read_only_routes_to_replica_witness :
    ¬ matches_rule1 MXS_COM_QUERY QUERY_TYPE_READ
      ∧ ¬ matches_rule2 qc_master.m_use_sql_variables_in QUERY_TYPE_READ
      ∧ query_type_is_read_only qc_master QUERY_TYPE_READ = true
      ∧ ses_idle.is_trx_active = false
      ∧ qc_master.m_load_data_state = .LOAD_DATA_INACTIVE
      ∧ get_route_target qc_master ses_idle MXS_COM_QUERY QUERY_TYPE_READ = TARGET_SLAVE :=
  ⟨by decide, by decide, by decide, rfl, rfl,
    C4_rule4_read_only_routes_to_replica qc_master ses_idle MXS_COM_QUERY QUERY_TYPE_READ
      (by decide) (by decide) (by decide) rfl rfl⟩

/-- C5: transaction stickiness. While a transaction is active and the session
is not in a read-only transaction, every command and mask that match neither
rule 1 nor rule 2 are routed to exactly PRIMARY; in particular a BEGIN (mask
BEGIN_TRX) and a strictly read-only SELECT (mask READ) are. -/
theorem C5_active_trx_routes_to_primary (qc : QueryClassifier) (ses : MXS_SESSION)
    (command qtype : Nat)
    (htrx : ses.is_trx_active = true)
    (hro : ses.is_trx_read_only = false)
    (h1 : ¬ matches_rule1 command qtype)
    (h2 : ¬ matches_rule2 qc.m_use_sql_variables_in qtype) :
    get_route_target qc ses command qtype = TARGET_MASTER
      ∧ get_route_target qc ses MXS_COM_QUERY QUERY_TYPE_BEGIN_TRX = TARGET_MASTER
      ∧ get_route_target qc ses MXS_COM_QUERY QUERY_TYPE_READ = TARGET_MASTER := by
  refine ⟨?_, ?_, ?_⟩
  · rw [get_route_target_of_not_rule12 qc ses command qtype h1 h2]
    simp [htrx, hro]
  · rw [get_route_target_of_not_rule12 qc ses _ _ (by decide)
      (by cases qc.m_use_sql_variables_in <;> decide)]
    simp [htrx, hro]
  · rw [get_route_target_of_not_rule12 qc ses _ _ (by decide)
      (by cases qc.m_use_sql_variables_in <;> decide)]
    simp [htrx, hro]

/-- C5 holds of an UPDATE (mask WRITE) inside a read-write transaction. -/
theorem C5_active_trx_routes_to_primary_witness :
    ses_in_trx.is_trx_active = true
      ∧ ses_in_trx.is_trx_read_only = false
      ∧ ¬ matches_rule1 MXS_COM_QUERY QUERY_TYPE_WRITE
      ∧ ¬ matches_rule2 qc_all.m_use_sql_variables_in QUERY_TYPE_WRITE
      ∧ get_route_target qc_all ses_in_trx MXS_COM_QUERY QUERY_TYPE_WRITE = TARGET_MASTER
      ∧ get_route_target qc_all ses_in_trx MXS_COM_QUERY QUERY_TYPE_BEGIN_TRX = TARGET_MASTER
      ∧ get_route_target qc_all ses_in_trx MXS_COM_QUERY QUERY_TYPE_READ = TARGET_MASTER :=
  ⟨rfl, rfl, by decide, by decide,
    C5_active_trx_routes_to_primary qc_all ses_in_trx MXS_COM_QUERY QUERY_TYPE_WRITE
      rfl rfl (by decide) (by decide)⟩

/-- C6: rule 5 of the route selector. When the session reports a read-only
transaction, every command and mask that match neither rule 1 nor rule 2 are
routed to exactly REPLICA (by rule 5, and by rule 4 where that one matches).
Hence the four statements START TRANSACTION READ ONLY (mask BEGIN_TRX | READ),
SELECT 1, SELECT 2 (mask READ) and COMMIT (mask COMMIT), and the mask READ
that update_route_info substitutes inside a read-only transaction, are each
routed to REPLICA. -/
theorem C6_read_only_trx_routes_to_replica (qc : QueryClassifier) (ses : MXS_SESSION)
    (command qtype : Nat)
    (h1 : ¬ matches_rule1 command qtype)
    (h2 : ¬ matches_rule2 qc.m_use_sql_variables_in qtype)
    (hro : ses.is_trx_read_only = true) :
    get_route_target qc ses command qtype = TARGET_SLAVE
      ∧ ∀ mask ∈ [QUERY_TYPE_BEGIN_TRX ||| QUERY_TYPE_READ, QUERY_TYPE_READ,
            QUERY_TYPE_READ, QUERY_TYPE_COMMIT],
          get_route_target qc ses MXS_COM_QUERY mask = TARGET_SLAVE := by
  have key : ∀ c m, ¬ matches_rule1 c m → ¬ matches_rule2 qc.m_use_sql_variables_in m →
      get_route_target qc ses c m = TARGET_SLAVE := by
    intro c m hc hm
    rw [get_route_target_of_not_rule12 qc ses c m hc hm]
    simp [hro]
  refine ⟨key command qtype h1 h2, ?_⟩
  intro mask hmask
  simp only [List.mem_cons, List.mem_singleton, List.mem_nil_iff, or_false] at hmask
  rcases hmask with h | h | h | h <;> subst h <;>
    exact key _ _ (by decide) (by cases qc.m_use_sql_variables_in <;> decide)

/-- C6 holds of a write (mask WRITE) sent inside a read-only transaction, where
rule 4 does not match. -/
theorem C6_read_only_trx_routes_to_replica_witness :
    ¬ matches_rule1 MXS_COM_QUERY QUERY_TYPE_WRITE
      ∧ ¬ matches_rule2 qc_master.m_use_sql_variables_in QUERY_TYPE_WRITE
      ∧ ¬ matches_rule4 qc_master ses_ro_trx QUERY_TYPE_WRITE
      ∧ ses_ro_trx.is_trx_read_only = true
      ∧ get_route_target qc_master ses_ro_trx MXS_COM_QUERY QUERY_TYPE_WRITE = TARGET_SLAVE :=
  ⟨by decide, by decide, by decide, rfl,
    (C6_read_only_trx_routes_to_replica qc_master ses_ro_trx MXS_COM_QUERY QUERY_TYPE_WRITE
      (by decide) (by decide) rfl).1⟩

/-! ## Theorems: routing hints -/

/-- The comparison process_routing_hints makes on the name of a parameter hint
succeeds exactly when the name, in lower case, begins with
max_slave_replication_lag. -/
theorem strncasecmp_eq_rlag_iff (name : String) :
    strncasecmp_eq name "max_slave_replication_lag" "max_slave_replication_lag".length = true
      ↔ ∃ rest, name.toList.map Char.toLower = "max_slave_replication_lag".toList ++ rest := by
  have hlit : ("max_slave_replication_lag".toList.take
      "max_slave_replication_lag".length).map Char.toLower
        = "max_slave_replication_lag".toList := by decide
  have hlen : "max_slave_replication_lag".length
      = "max_slave_replication_lag".toList.length := rfl
  unfold strncasecmp_eq
  rw [hlit, beq_iff_eq, List.map_take]
  constructor
  · intro h
    refine ⟨(name.toList.map Char.toLower).drop "max_slave_replication_lag".length, ?_⟩
    rw [← h, List.take_append_drop]
  · rintro ⟨rest, h⟩
    rw [h, hlen, List.take_left]

/-- C9: ROUTE_TO_MASTER is a hard override. For every initial target and every
hint list that contains a ROUTE_TO_MASTER hint, the handler supporting that
kind of hint, process_routing_hints leaves the target exactly PRIMARY: whatever
bits the initial target had and the hints before it set are gone, and neither
another initial target nor any hints appended after the list change the
result. -/
theorem C9_route_to_master_hint_overrides (supports : HINT_TYPE → Bool)
    (hints : List HINT) (target : Nat)
    (hsup : supports .HINT_ROUTE_TO_MASTER = true)
    (hmem : ∃ h ∈ hints, h.type = .HINT_ROUTE_TO_MASTER) :
    process_routing_hints supports hints target = TARGET_MASTER
      ∧ ∀ (later : List HINT) (other : Nat),
          process_routing_hints supports (hints ++ later) other = TARGET_MASTER := by
  have key : ∀ (l : List HINT), (∃ h ∈ l, h.type = .HINT_ROUTE_TO_MASTER) →
      ∀ t, process_routing_hints supports l t = TARGET_MASTER := by
    intro l
    induction l with
    | nil => rintro ⟨h, hin, _⟩; cases hin
    | cons a rest ih =>
      intro hex t
      by_cases ha : a.type = .HINT_ROUTE_TO_MASTER
      · simp [process_routing_hints, ha, hsup]
      · have hrest : ∃ h ∈ rest, h.type = .HINT_ROUTE_TO_MASTER := by
          obtain ⟨h, hin, hty⟩ := hex
          rcases List.mem_cons.mp hin with heq | hin2
          · exact absurd (heq ▸ hty) ha
          · exact ⟨h, hin2, hty⟩
        unfold process_routing_hints
        split
        · split
          · rename_i heq; exact absurd heq ha
          · exact ih hrest _
          · exact ih hrest _
          · exact ih hrest _
          · exact ih hrest _
          · split <;> exact ih hrest _
          · exact ih hrest _
        · exact ih hrest _
  refine ⟨key hints hmem target, ?_⟩
  intro later other
  obtain ⟨h, hin, hty⟩ := hmem
  exact key (hints ++ later) ⟨h, List.mem_append_left later hin, hty⟩ other

/-- C9 holds of a named-server hint, then a route-to-master hint, then a
route-to-slave hint, starting from REPLICA. -/
theorem C9_route_to_master_hint_overrides_witness :
    process_routing_hints (fun _ => true)
        [⟨.HINT_ROUTE_TO_NAMED_SERVER, "server1"⟩, ⟨.HINT_ROUTE_TO_MASTER, ""⟩,
          ⟨.HINT_ROUTE_TO_SLAVE, ""⟩] TARGET_SLAVE = TARGET_MASTER :=
  (C9_route_to_master_hint_overrides (fun _ => true)
    [⟨.HINT_ROUTE_TO_NAMED_SERVER, "server1"⟩, ⟨.HINT_ROUTE_TO_MASTER, ""⟩,
      ⟨.HINT_ROUTE_TO_SLAVE, ""⟩] TARGET_SLAVE rfl
    ⟨⟨.HINT_ROUTE_TO_MASTER, ""⟩, by decide, rfl⟩).1

/-- C10, as stated, fails: a supported parameter hint whose name is not
max_slave_replication_lag but only begins with it is another parameter hint,
yet it does not leave the target unchanged: RLAG_MAX is OR-ed in. -/
theorem C10_single_hint_counterexample :
    "max_slave_replication_lag_ms" ≠ "max_slave_replication_lag"
      ∧ process_routing_hints (fun _ => true)
          [⟨.HINT_PARAMETER, "max_slave_replication_lag_ms"⟩] TARGET_SLAVE
            = TARGET_SLAVE ||| TARGET_RLAG_MAX
      ∧ process_routing_hints (fun _ => true)
          [⟨.HINT_PARAMETER, "max_slave_replication_lag_ms"⟩] TARGET_SLAVE ≠ TARGET_SLAVE := by
  decide

/-- C10, amended: the effect of a single hint on a target t. A supported
ROUTE_TO_NAMED_SERVER hint yields t with NAMED_SERVER OR-ed in; a supported
parameter hint whose name begins, letter case ignored, with
max_slave_replication_lag (the name max_slave_replication_lag itself included)
yields t with RLAG_MAX OR-ed in; a supported ROUTE_TO_LAST_USED hint yields
exactly LAST_USED; a supported ROUTE_TO_SLAVE hint yields exactly REPLICA; a
hint the handler does not support, a parameter hint whose name does not begin
that way, and the empty hint list leave t unchanged. -/
theorem C10_single_hint_effect (supports : HINT_TYPE → Bool) (t : Nat) (hint : HINT) :
    (hint.type = .HINT_ROUTE_TO_NAMED_SERVER → supports hint.type = true →
        process_routing_hints supports [hint] t = t ||| TARGET_NAMED_SERVER)
      ∧ (hint.type = .HINT_PARAMETER → supports hint.type = true →
          (∃ rest, hint.data.toList.map Char.toLower
            = "max_slave_replication_lag".toList ++ rest) →
          process_routing_hints supports [hint] t = t ||| TARGET_RLAG_MAX)
      ∧ (hint.type = .HINT_PARAMETER → supports hint.type = true →
          hint.data = "max_slave_replication_lag" →
          process_routing_hints supports [hint] t = t ||| TARGET_RLAG_MAX)
      ∧ (hint.type = .HINT_ROUTE_TO_LAST_USED → supports hint.type = true →
          process_routing_hints supports [hint] t = TARGET_LAST_USED)
      ∧ (hint.type = .HINT_ROUTE_TO_SLAVE → supports hint.type = true →
          process_routing_hints supports [hint] t = TARGET_SLAVE)
      ∧ (supports hint.type = false → process_routing_hints supports [hint] t = t)
      ∧ (hint.type = .HINT_PARAMETER →
          (¬ ∃ rest, hint.data.toList.map Char.toLower
            = "max_slave_replication_lag".toList ++ rest) →
          process_routing_hints supports [hint] t = t)
      ∧ process_routing_hints supports [] t = t := by
  refine ⟨?_, ?_, ?_, ?_, ?_, ?_, ?_, ?_⟩
  · intro hty hs
    rw [hty] at hs
    simp [process_routing_hints, hty, hs]
  · intro hty hs hname
    rw [hty] at hs
    have hcmp := (strncasecmp_eq_rlag_iff hint.data).mpr hname
    simp [process_routing_hints, hty, hs, hcmp]
  · intro hty hs hname
    rw [hty] at hs
    have hcmp : strncasecmp_eq hint.data "max_slave_replication_lag"
        "max_slave_replication_lag".length = true := by rw [hname]; decide
    simp [process_routing_hints, hty, hs, hcmp]
  · intro hty hs
    rw [hty] at hs
    simp [process_routing_hints, hty, hs]
  · intro hty hs
    rw [hty] at hs
    simp [process_routing_hints, hty, hs]
  · intro hs
    simp [process_routing_hints, hs]
  · intro hty hname
    have hcmp : strncasecmp_eq hint.data "max_slave_replication_lag"
        "max_slave_replication_lag".length = false := by
      cases h : strncasecmp_eq hint.data "max_slave_replication_lag"
        "max_slave_replication_lag".length
      · rfl
      · exact absurd ((strncasecmp_eq_rlag_iff hint.data).mp h) hname
    cases hs : supports .HINT_PARAMETER <;> simp [process_routing_hints, hty, hs, hcmp]
  · rfl

/-- C10 amended holds of concrete hints of each kind on the target REPLICA. -/
theorem C10_single_hint_effect_witness :
    process_routing_hints (fun _ => true) [⟨.HINT_ROUTE_TO_NAMED_SERVER, "server1"⟩]
        TARGET_SLAVE = TARGET_SLAVE ||| TARGET_NAMED_SERVER
      ∧ process_routing_hints (fun _ => true)
          [⟨.HINT_PARAMETER, "max_slave_replication_lag"⟩]
          TARGET_SLAVE = TARGET_SLAVE ||| TARGET_RLAG_MAX
      ∧ process_routing_hints (fun _ => true) [⟨.HINT_ROUTE_TO_LAST_USED, ""⟩]
          TARGET_SLAVE = TARGET_LAST_USED
      ∧ process_routing_hints (fun _ => false) [⟨.HINT_ROUTE_TO_LAST_USED, ""⟩]
          TARGET_SLAVE = TARGET_SLAVE :=
  ⟨(C10_single_hint_effect (fun _ => true) TARGET_SLAVE
      ⟨.HINT_ROUTE_TO_NAMED_SERVER, "server1"⟩).1 rfl rfl,
    (C10_single_hint_effect (fun _ => true) TARGET_SLAVE
      ⟨.HINT_PARAMETER, "max_slave_replication_lag"⟩).2.2.1 rfl rfl rfl,
    (C10_single_hint_effect (fun _ => true) TARGET_SLAVE
      ⟨.HINT_ROUTE_TO_LAST_USED, ""⟩).2.2.2.1 rfl rfl,
    (C10_single_hint_effect (fun _ => false) TARGET_SLAVE
      ⟨.HINT_ROUTE_TO_LAST_USED, ""⟩).2.2.2.2.2.1 rfl⟩

/-! ## Theorems: update_route_info -/

/-- The handler after the type-mask step is the handler before it or the
handler after one call of lock_to_master. -/
theorem update_route_info_type_mask_handler {σ : Type} (P : SqlParser) (M : Modutil)
    (H : Handler σ) (qc : QueryClassifier) (ses : MXS_SESSION) (hs : σ)
    (current_target : current_target_t) (pBuffer : GWBUF) (command : Nat) (ro : Bool) :
    (update_route_info_type_mask P M H qc ses hs current_target pBuffer command ro).2.2 = hs
      ∨ (update_route_info_type_mask P M H qc ses hs current_target pBuffer command ro).2.2
          = (H.lock_to_master hs).2 := by
  unfold update_route_info_type_mask
  split
  · exact Or.inl rfl
  · simp only
    split
    · split <;> exact Or.inr rfl
    · exact Or.inl rfl

/-- The target update_route_info returns for a command packet (more than the
header, load data not active), in terms of its steps. -/
theorem update_route_info_target_eq {σ : Type} (P : SqlParser) (M : Modutil)
    (H : Handler σ) (qc : QueryClassifier) (ses : MXS_SESSION) (hs : σ)
    (current_target : current_target_t) (pBuffer : GWBUF)
    (hload : qc.m_load_data_state ≠ .LOAD_DATA_ACTIVE)
    (hlen : gwbuf_length pBuffer > MYSQL_HEADER_LEN) :
    (update_route_info P M H qc ses hs current_target pBuffer).1.m_target =
      update_route_info_found_rows P pBuffer (mxs_mysql_get_command pBuffer)
        (process_routing_hints
          (H.supports_hint (update_route_info_type_mask P M H
            { qc with m_ps_continuation := false } ses hs current_target pBuffer
            (mxs_mysql_get_command pBuffer)
            (current_target != .CURRENT_TARGET_UNDEFINED && ses.is_trx_read_only)).2.2)
          pBuffer.hint
          (update_route_info_target P
            (update_route_info_type_mask P M H
              { qc with m_ps_continuation := false } ses hs current_target pBuffer
              (mxs_mysql_get_command pBuffer)
              (current_target != .CURRENT_TARGET_UNDEFINED && ses.is_trx_read_only)).2.1
            ses
            (H.is_locked_to_master (update_route_info_type_mask P M H
              { qc with m_ps_continuation := false } ses hs current_target pBuffer
              (mxs_mysql_get_command pBuffer)
              (current_target != .CURRENT_TARGET_UNDEFINED && ses.is_trx_read_only)).2.2)
            pBuffer (mxs_mysql_get_command pBuffer)
            (update_route_info_type_mask P M H
              { qc with m_ps_continuation := false } ses hs current_target pBuffer
              (mxs_mysql_get_command pBuffer)
              (current_target != .CURRENT_TARGET_UNDEFINED && ses.is_trx_read_only)).1
            (current_target != .CURRENT_TARGET_UNDEFINED && ses.is_trx_read_only)).1) := by
  unfold update_route_info
  have h1 : ((qc.m_load_data_state == load_data_state_t.LOAD_DATA_ACTIVE) = true) = False := by
    simpa using hload
  simp only [h1, hlen, if_false, if_true]

/-- C7: rule 3 of the route selector. When the handler reports the session as
locked to primary, and still does after a call of lock_to_master,
update_route_info returns the route target PRIMARY for every non-empty command
packet without hints, load data inactive, whatever the transaction state and
the current target, and whatever the command and the type mask are (so in
particular when they match neither rule 1 nor rule 2). -/
theorem C7_locked_to_primary_routes_to_primary {σ : Type} (P : SqlParser) (M : Modutil)
    (H : Handler σ) (qc : QueryClassifier) (ses : MXS_SESSION) (hs : σ)
    (current_target : current_target_t) (pBuffer : GWBUF)
    (hload : qc.m_load_data_state = .LOAD_DATA_INACTIVE)
    (hlen : gwbuf_length pBuffer > MYSQL_HEADER_LEN)
    (hhint : pBuffer.hint = [])
    (hlocked : H.is_locked_to_master hs = true)
    (hstay : H.is_locked_to_master (H.lock_to_master hs).2 = true) :
    (update_route_info P M H qc ses hs current_target pBuffer).1.m_target = TARGET_MASTER := by
  rw [update_route_info_target_eq P M H qc ses hs current_target pBuffer
    (by rw [hload]; decide) hlen]
  have hl : H.is_locked_to_master (update_route_info_type_mask P M H
      { qc with m_ps_continuation := false } ses hs current_target pBuffer
      (mxs_mysql_get_command pBuffer)
      (current_target != .CURRENT_TARGET_UNDEFINED && ses.is_trx_read_only)).2.2 = true := by
    rcases update_route_info_type_mask_handler P M H { qc with m_ps_continuation := false }
      ses hs current_target pBuffer (mxs_mysql_get_command pBuffer)
      (current_target != .CURRENT_TARGET_UNDEFINED && ses.is_trx_read_only) with h | h
    · rw [h]; exact hlocked
    · rw [h]; exact hstay
  rw [hl, hhint]
  simp only [update_route_info_target, if_true, process_routing_hints]
  unfold update_route_info_found_rows
  have : (TARGET_MASTER == TARGET_SLAVE) = false := by decide
  simp [this]

/-- C7 holds of a SELECT outside a transaction, which an unlocked session would
send to a replica. -/
theorem C7_locked_to_primary_routes_to_primary_witness :
    qc_master.m_load_data_state = .LOAD_DATA_INACTIVE
      ∧ gwbuf_length buf_select_1 > MYSQL_HEADER_LEN
      ∧ buf_select_1.hint = []
      ∧ handler_flag.is_locked_to_master true = true
      ∧ (update_route_info parser_select modutil_no_semicolon handler_flag qc_master
          ses_idle true .CURRENT_TARGET_UNDEFINED buf_select_1).1.m_target = TARGET_MASTER :=
  ⟨rfl, by decide, rfl, rfl,
    C7_locked_to_primary_routes_to_primary parser_select modutil_no_semicolon handler_flag
      qc_master ses_idle true .CURRENT_TARGET_UNDEFINED buf_select_1 rfl (by decide) rfl
      rfl rfl⟩

/-- C8, as stated, fails in both states it singles out. With the session
locked to primary a COM_STMT_CLOSE without hints gets the target PRIMARY, and
inside a read-only transaction (the router on a replica) a COM_STMT_PREPARE
without hints gets the target REPLICA; neither is ALL. -/
theorem C8_rule1_first_counterexample :
    (update_route_info parser_select modutil_no_semicolon handler_flag qc_master
        ses_idle true .CURRENT_TARGET_UNDEFINED buf_stmt_close_1).1.m_target = TARGET_MASTER
      ∧ (update_route_info parser_select modutil_no_semicolon handler_flag qc_master
          ses_ro_trx false .CURRENT_TARGET_SLAVE buf_prepare_select_1).1.m_target
            = TARGET_SLAVE
      ∧ mxs_mysql_get_command buf_stmt_close_1 = MXS_COM_STMT_CLOSE
      ∧ mxs_mysql_get_command buf_prepare_select_1 = MXS_COM_STMT_PREPARE
      ∧ TARGET_MASTER ≠ TARGET_ALL ∧ TARGET_SLAVE ≠ TARGET_ALL := by
  decide

/-- For a command other than COM_QUERY, handle_multi_temp_and_load asks for no
lock and leaves the type mask as it is. -/
theorem handle_multi_temp_and_load_not_query (P : SqlParser) (M : Modutil)
    (qc : QueryClassifier) (ses : MXS_SESSION) (current_target : current_target_t)
    (querybuf : GWBUF) (packet_type qtype : Nat) (hq : packet_type ≠ MXS_COM_QUERY) :
    (handle_multi_temp_and_load P M qc ses current_target querybuf packet_type qtype).1
        = .CURRENT_TARGET_UNDEFINED
      ∧ (handle_multi_temp_and_load P M qc ses current_target querybuf packet_type qtype).2.1
        = qtype := by
  have hb : (packet_type == MXS_COM_QUERY) = false := by simpa using hq
  simp [handle_multi_temp_and_load, check_for_multi_stmt, check_for_sp_call,
    is_packet_a_query, hb]

/-- For a command other than COM_QUERY the type-mask step does not touch the
handler, and its mask is READ inside a read-only transaction and the mask of
determine_query_type otherwise. -/
theorem update_route_info_type_mask_not_query {σ : Type} (P : SqlParser) (M : Modutil)
    (H : Handler σ) (qc : QueryClassifier) (ses : MXS_SESSION) (hs : σ)
    (current_target : current_target_t) (pBuffer : GWBUF) (command : Nat) (ro : Bool)
    (hq : command ≠ MXS_COM_QUERY) :
    (update_route_info_type_mask P M H qc ses hs current_target pBuffer command ro).2.2 = hs
      ∧ (update_route_info_type_mask P M H qc ses hs current_target pBuffer command ro).1
          = if ro = true then QUERY_TYPE_READ else determine_query_type P pBuffer command := by
  obtain ⟨h1, h2⟩ := handle_multi_temp_and_load_not_query P M qc ses current_target pBuffer
    command (determine_query_type P pBuffer command) hq
  unfold update_route_info_type_mask
  cases ro
  · simp [h1, h2]
  · simp

/-- The classifier the type-mask step hands on has the use_sql_variables_in
setting and the load-data state it was given. -/
theorem update_route_info_type_mask_settings {σ : Type} (P : SqlParser) (M : Modutil)
    (H : Handler σ) (qc : QueryClassifier) (ses : MXS_SESSION) (hs : σ)
    (current_target : current_target_t) (pBuffer : GWBUF) (command : Nat) (ro : Bool) :
    (update_route_info_type_mask P M H qc ses hs current_target pBuffer command
        ro).2.1.m_use_sql_variables_in = qc.m_use_sql_variables_in
      ∧ (update_route_info_type_mask P M H qc ses hs current_target pBuffer command
        ro).2.1.m_load_data_state = qc.m_load_data_state := by
  have hloop : ∀ (l : List String) (q : QueryClassifier),
      (foreach_table_loop ses delete_table l q).2.m_use_sql_variables_in
          = q.m_use_sql_variables_in
        ∧ (foreach_table_loop ses delete_table l q).2.m_load_data_state
          = q.m_load_data_state := by
    intro l
    induction l with
    | nil => intro q; exact ⟨rfl, rfl⟩
    | cons t rest ih =>
      intro q
      simp only [foreach_table_loop, delete_table]
      exact ih (remove_tmp_table q (qualified_table ses t))
  have hdrop : ∀ q : QueryClassifier,
      (check_drop_tmp_table P q ses pBuffer).m_use_sql_variables_in = q.m_use_sql_variables_in
        ∧ (check_drop_tmp_table P q ses pBuffer).m_load_data_state = q.m_load_data_state := by
    intro q
    unfold check_drop_tmp_table foreach_table
    split
    · exact hloop _ q
    · exact ⟨rfl, rfl⟩
  have hcreate : ∀ (q : QueryClassifier) (ty : Nat),
      (check_create_tmp_table P q ses pBuffer ty).m_use_sql_variables_in
          = q.m_use_sql_variables_in
        ∧ (check_create_tmp_table P q ses pBuffer ty).m_load_data_state
          = q.m_load_data_state := by
    intro q ty
    unfold check_create_tmp_table add_tmp_table
    split
    · simp only
      split <;> exact ⟨rfl, rfl⟩
    · exact ⟨rfl, rfl⟩
  have hmulti : ∀ ty : Nat,
      (handle_multi_temp_and_load P M qc ses current_target pBuffer command
          ty).2.2.m_use_sql_variables_in = qc.m_use_sql_variables_in
        ∧ (handle_multi_temp_and_load P M qc ses current_target pBuffer command
          ty).2.2.m_load_data_state = qc.m_load_data_state := by
    intro ty
    unfold handle_multi_temp_and_load
    simp only
    refine ⟨(hcreate _ _).1.trans ?_, (hcreate _ _).2.trans ?_⟩
    · split
      · exact (hdrop qc).1
      · rfl
    · split
      · exact (hdrop qc).2
      · rfl
  unfold update_route_info_type_mask
  split
  · exact ⟨rfl, rfl⟩
  · simp only
    split
    · split <;> exact hmulti _
    · exact hmulti _

/-- C8, amended: rule 1 is applied after the check of the lock to primary and,
for COM_STMT_PREPARE, outside read-only transactions. For every packet without
hints whose command is COM_STMT_PREPARE, COM_STMT_CLOSE or COM_STMT_RESET, load
data inactive: when the handler reports the session as locked to primary the
route target is PRIMARY; when it does not, the target is ALL for COM_STMT_CLOSE
and COM_STMT_RESET in every session state, read-only transactions included,
and for COM_STMT_PREPARE whenever the packet is not classified inside a
read-only transaction (the current target is undefined or the session is not
read-only). -/
theorem C8_rule1_after_lock_check {σ : Type} (P : SqlParser) (M : Modutil)
    (H : Handler σ) (qc : QueryClassifier) (ses : MXS_SESSION) (hs : σ)
    (current_target : current_target_t) (pBuffer : GWBUF)
    (hload : qc.m_load_data_state = .LOAD_DATA_INACTIVE)
    (hlen : gwbuf_length pBuffer > MYSQL_HEADER_LEN)
    (hhint : pBuffer.hint = [])
    (hcmd : mxs_mysql_get_command pBuffer = MXS_COM_STMT_PREPARE
      ∨ mxs_mysql_get_command pBuffer = MXS_COM_STMT_CLOSE
      ∨ mxs_mysql_get_command pBuffer = MXS_COM_STMT_RESET) :
    (H.is_locked_to_master hs = true →
        (update_route_info P M H qc ses hs current_target pBuffer).1.m_target = TARGET_MASTER)
      ∧ (H.is_locked_to_master hs = false →
          (mxs_mysql_get_command pBuffer = MXS_COM_STMT_CLOSE
            ∨ mxs_mysql_get_command pBuffer = MXS_COM_STMT_RESET) →
          (update_route_info P M H qc ses hs current_target pBuffer).1.m_target = TARGET_ALL)
      ∧ (H.is_locked_to_master hs = false →
          mxs_mysql_get_command pBuffer = MXS_COM_STMT_PREPARE →
          (current_target = .CURRENT_TARGET_UNDEFINED ∨ ses.is_trx_read_only = false) →
          (update_route_info P M H qc ses hs current_target pBuffer).1.m_target
            = TARGET_ALL) := by
  have hq : mxs_mysql_get_command pBuffer ≠ MXS_COM_QUERY := by
    rcases hcmd with h | h | h <;> rw [h] <;> decide
  obtain ⟨hhs, hmask⟩ := update_route_info_type_mask_not_query P M H
    { qc with m_ps_continuation := false } ses hs current_target pBuffer
    (mxs_mysql_get_command pBuffer)
    (current_target != .CURRENT_TARGET_UNDEFINED && ses.is_trx_read_only) hq
  have hqb : (mxs_mysql_get_command pBuffer == MXS_COM_QUERY) = false := by simpa using hq
  have hall : (TARGET_ALL == TARGET_SLAVE) = false := by decide
  have hmaster : (TARGET_MASTER == TARGET_SLAVE) = false := by decide
  rw [update_route_info_target_eq P M H qc ses hs current_target pBuffer
    (by rw [hload]; decide) hlen, hhs, hhint]
  simp only [process_routing_hints]
  refine ⟨?_, ?_, ?_⟩
  · intro hl
    simp [hl, update_route_info_target, update_route_info_found_rows, hmaster]
  · intro hl hc
    have hps : qc_mysql_is_ps_command (mxs_mysql_get_command pBuffer) = true := by
      rcases hc with h | h <;> rw [h] <;> decide
    have hr1 : ∀ q m, get_route_target q ses (mxs_mysql_get_command pBuffer) m = TARGET_ALL := by
      intro q m
      apply get_route_target_of_rule1
      rcases hc with h | h
      · exact Or.inl h
      · exact Or.inr (Or.inl h)
    simp [hl, update_route_info_target, update_route_info_found_rows, hqb, hps, hr1, hall]
  · intro hl hc hro
    have hps : qc_mysql_is_ps_command (mxs_mysql_get_command pBuffer) = false := by
      rw [hc]; decide
    have hrob : (current_target != .CURRENT_TARGET_UNDEFINED && ses.is_trx_read_only)
        = false := by
      rcases hro with h | h
      · rw [h]; rfl
      · rw [h]; simp
    rw [hrob] at hmask ⊢
    simp only [Bool.false_eq_true, if_false] at hmask
    have hdet : determine_query_type P pBuffer (mxs_mysql_get_command pBuffer)
        = P.qc_get_type_mask pBuffer ||| QUERY_TYPE_PREPARE_STMT := by
      rw [hc]; rfl
    rw [hmask, hdet]
    have hr1 : ∀ q, get_route_target q ses (mxs_mysql_get_command pBuffer)
        (P.qc_get_type_mask pBuffer ||| QUERY_TYPE_PREPARE_STMT) = TARGET_ALL := by
      intro q
      apply get_route_target_of_rule1
      exact Or.inr (Or.inr (Or.inl (qc_query_is_type_or_self _ _)))
    simp [hl, update_route_info_target, update_route_info_found_rows, hqb, hps, hr1, hall]

/-- C8 amended holds of a COM_STMT_CLOSE sent by an unlocked session inside a
read-only transaction. -/
theorem C8_rule1_after_lock_check_witness :
    qc_master.m_load_data_state = .LOAD_DATA_INACTIVE
      ∧ gwbuf_length buf_stmt_close_1 > MYSQL_HEADER_LEN
      ∧ buf_stmt_close_1.hint = []
      ∧ mxs_mysql_get_command buf_stmt_close_1 = MXS_COM_STMT_CLOSE
      ∧ handler_flag.is_locked_to_master false = false
      ∧ (update_route_info parser_select modutil_no_semicolon handler_flag qc_master
          ses_ro_trx false .CURRENT_TARGET_SLAVE buf_stmt_close_1).1.m_target = TARGET_ALL :=
  ⟨rfl, by decide, rfl, rfl, rfl,
    (C8_rule1_after_lock_check parser_select modutil_no_semicolon handler_flag qc_master
      ses_ro_trx false .CURRENT_TARGET_SLAVE buf_stmt_close_1 rfl (by decide) rfl
      (Or.inr (Or.inl rfl))).2.1 rfl (Or.inl rfl)⟩

/-- Outside a read-only transaction the mask of the type-mask step is the mask
of determine_query_type, with MASTER_READ possibly OR-ed in by the check of
temporary tables and WRITE possibly OR-ed in after a failed lock_to_master. -/
theorem update_route_info_type_mask_shape {σ : Type} (P : SqlParser) (M : Modutil)
    (H : Handler σ) (qc : QueryClassifier) (ses : MXS_SESSION) (hs : σ)
    (current_target : current_target_t) (pBuffer : GWBUF) (command : Nat) :
    ∃ a b : Bool,
      (update_route_info_type_mask P M H qc ses hs current_target pBuffer command false).1
        = (determine_query_type P pBuffer command
            ||| (if a = true then QUERY_TYPE_MASTER_READ else 0))
            ||| (if b = true then QUERY_TYPE_WRITE else 0) := by
  have hm : ∃ a : Bool,
      (handle_multi_temp_and_load P M qc ses current_target pBuffer command
        (determine_query_type P pBuffer command)).2.1
        = determine_query_type P pBuffer command
            ||| (if a = true then QUERY_TYPE_MASTER_READ else 0) := by
    unfold handle_multi_temp_and_load
    simp only
    cases (qc.m_have_tmp_tables && is_packet_a_query command
      && is_read_tmp_table P (if (qc.m_have_tmp_tables && is_packet_a_query command) = true
          then check_drop_tmp_table P qc ses pBuffer else qc) ses pBuffer
        (determine_query_type P pBuffer command))
    · exact ⟨false, by simp⟩
    · exact ⟨true, by simp⟩
  obtain ⟨a, ha⟩ := hm
  refine ⟨a, ?_⟩
  unfold update_route_info_type_mask
  simp only [Bool.false_eq_true, if_false]
  split
  · split
    · exact ⟨true, by rw [ha]; rfl⟩
    · exact ⟨false, by rw [ha]; simp⟩
  · exact ⟨false, by rw [ha]; simp⟩

/-- The scenario of C6 at the level of update_route_info: in a session that
reports a read-only transaction and is not locked to primary, a COM_QUERY
packet without hints that is not an EXECUTE, calls no function and is parsed
as START TRANSACTION READ ONLY (mask BEGIN_TRX | READ), as a SELECT (mask
READ) or as COMMIT (mask COMMIT) gets the route target REPLICA, whether the
parse is skipped (the router already has a target) or not. -/
theorem read_only_trx_statements_route_to_replica {σ : Type} (P : SqlParser) (M : Modutil)
    (H : Handler σ) (qc : QueryClassifier) (ses : MXS_SESSION) (hs : σ)
    (current_target : current_target_t) (pBuffer : GWBUF)
    (hload : qc.m_load_data_state = .LOAD_DATA_INACTIVE)
    (hlen : gwbuf_length pBuffer > MYSQL_HEADER_LEN)
    (hhint : pBuffer.hint = [])
    (hcmd : mxs_mysql_get_command pBuffer = MXS_COM_QUERY)
    (hro : ses.is_trx_read_only = true)
    (hunlocked : H.is_locked_to_master hs = false)
    (hstay : H.is_locked_to_master (H.lock_to_master hs).2 = false)
    (hop : P.qc_get_operation pBuffer ≠ .QUERY_OP_EXECUTE)
    (hmask : P.qc_get_type_mask pBuffer ∈
      [QUERY_TYPE_BEGIN_TRX ||| QUERY_TYPE_READ, QUERY_TYPE_READ, QUERY_TYPE_COMMIT])
    (hfun : P.qc_get_function_info pBuffer = []) :
    (update_route_info P M H qc ses hs current_target pBuffer).1.m_target = TARGET_SLAVE := by
  have key : ∀ (q : QueryClassifier) (m : Nat), ¬ matches_rule1 MXS_COM_QUERY m →
      (∀ u, ¬ matches_rule2 u m) → get_route_target q ses MXS_COM_QUERY m = TARGET_SLAVE := by
    intro q m h1 h2
    rw [get_route_target_of_not_rule12 q ses _ m h1 (h2 _)]
    simp [hro]
  have hopb : (P.qc_get_operation pBuffer == qc_query_op_t.QUERY_OP_EXECUTE) = false := by
    simpa using hop
  have hps : qc_mysql_is_ps_command MXS_COM_QUERY = false := by decide
  have hl : H.is_locked_to_master (update_route_info_type_mask P M H
      { qc with m_ps_continuation := false } ses hs current_target pBuffer
      (mxs_mysql_get_command pBuffer)
      (current_target != .CURRENT_TARGET_UNDEFINED && ses.is_trx_read_only)).2.2 = false := by
    rcases update_route_info_type_mask_handler P M H { qc with m_ps_continuation := false }
      ses hs current_target pBuffer (mxs_mysql_get_command pBuffer)
      (current_target != .CURRENT_TARGET_UNDEFINED && ses.is_trx_read_only) with h | h
    · rw [h]; exact hunlocked
    · rw [h]; exact hstay
  rw [update_route_info_target_eq P M H qc ses hs current_target pBuffer
    (by rw [hload]; decide) hlen, hhint, hl, hcmd]
  simp only [process_routing_hints, update_route_info_target, Bool.false_eq_true, if_false,
    hopb, hps, Bool.and_false]
  have htarget : get_route_target
      (update_route_info_type_mask P M H { qc with m_ps_continuation := false } ses hs
        current_target pBuffer MXS_COM_QUERY
        (current_target != .CURRENT_TARGET_UNDEFINED && ses.is_trx_read_only)).2.1
      ses MXS_COM_QUERY
      (update_route_info_type_mask P M H { qc with m_ps_continuation := false } ses hs
        current_target pBuffer MXS_COM_QUERY
        (current_target != .CURRENT_TARGET_UNDEFINED && ses.is_trx_read_only)).1
        = TARGET_SLAVE := by
    apply key
    all_goals
      cases hb : (current_target != .CURRENT_TARGET_UNDEFINED && ses.is_trx_read_only)
    · obtain ⟨a, b, hab⟩ := update_route_info_type_mask_shape P M H
        { qc with m_ps_continuation := false } ses hs current_target pBuffer MXS_COM_QUERY
      rw [hab]
      have hdet : determine_query_type P pBuffer MXS_COM_QUERY = P.qc_get_type_mask pBuffer :=
        rfl
      rw [hdet]
      simp only [List.mem_cons, List.mem_singleton, List.mem_nil_iff, or_false] at hmask
      rcases hmask with h | h | h <;> rw [h] <;> cases a <;> cases b <;> decide
    · simp only [update_route_info_type_mask, if_true]
      decide
    · obtain ⟨a, b, hab⟩ := update_route_info_type_mask_shape P M H
        { qc with m_ps_continuation := false } ses hs current_target pBuffer MXS_COM_QUERY
      rw [hab]
      have hdet : determine_query_type P pBuffer MXS_COM_QUERY = P.qc_get_type_mask pBuffer :=
        rfl
      rw [hdet]
      simp only [List.mem_cons, List.mem_singleton, List.mem_nil_iff, or_false] at hmask
      intro u
      rcases hmask with h | h | h <;> rw [h] <;> cases a <;> cases b <;> cases u <;> decide
    · simp only [update_route_info_type_mask, if_true]
      intro u
      cases u <;> decide
  rw [htarget]
  simp [update_route_info_found_rows, hfun, found_rows_target]

/-- The scenario holds of SELECT 1 inside a read-only transaction on a
replica. -/
theorem read_only_trx_statements_route_to_replica_example :
    (update_route_info parser_select modutil_no_semicolon handler_unlocked qc_master
      ses_ro_trx () .CURRENT_TARGET_SLAVE buf_select_1).1.m_target = TARGET_SLAVE :=
  read_only_trx_statements_route_to_replica parser_select modutil_no_semicolon handler_unlocked
    qc_master ses_ro_trx () .CURRENT_TARGET_SLAVE buf_select_1 rfl (by decide) rfl rfl rfl
    rfl rfl (by decide) (by decide) rfl

/-! ## Theorems: the type mask of a command -/

/-- C12: the command-code lookup of determine_query_type, for every parser and
every buffer. QUIT, INIT_DB, REFRESH, DEBUG, PING, CHANGE_USER, SET_OPTION and
RESET_CONNECTION give exactly SESSION_WRITE; CREATE_DB, DROP_DB, STMT_CLOSE,
STMT_SEND_LONG_DATA and STMT_RESET give exactly WRITE; FIELD_LIST gives exactly
READ; STMT_EXECUTE gives exactly EXEC_STMT whatever the parser is; STMT_PREPARE
gives the mask of the parser with PREPARE_STMT OR-ed in, which contains
PREPARE_STMT; QUERY gives the mask of the parser unchanged; every other
command code gives UNKNOWN. -/
theorem C12_determine_query_type_lookup (P : SqlParser) (querybuf : GWBUF) :
    (∀ command ∈ [MXS_COM_QUIT, MXS_COM_INIT_DB, MXS_COM_REFRESH, MXS_COM_DEBUG,
        MXS_COM_PING, MXS_COM_CHANGE_USER, MXS_COM_SET_OPTION, MXS_COM_RESET_CONNECTION],
        determine_query_type P querybuf command = QUERY_TYPE_SESSION_WRITE)
      ∧ (∀ command ∈ [MXS_COM_CREATE_DB, MXS_COM_DROP_DB, MXS_COM_STMT_CLOSE,
          MXS_COM_STMT_SEND_LONG_DATA, MXS_COM_STMT_RESET],
          determine_query_type P querybuf command = QUERY_TYPE_WRITE)
      ∧ determine_query_type P querybuf MXS_COM_FIELD_LIST = QUERY_TYPE_READ
      ∧ (∀ Q : SqlParser,
          determine_query_type Q querybuf MXS_COM_STMT_EXECUTE = QUERY_TYPE_EXEC_STMT)
      ∧ determine_query_type P querybuf MXS_COM_STMT_PREPARE
          = P.qc_get_type_mask querybuf ||| QUERY_TYPE_PREPARE_STMT
      ∧ qc_query_is_type (determine_query_type P querybuf MXS_COM_STMT_PREPARE)
          QUERY_TYPE_PREPARE_STMT = true
      ∧ determine_query_type P querybuf MXS_COM_QUERY = P.qc_get_type_mask querybuf
      ∧ (∀ command ∉ [MXS_COM_QUIT, MXS_COM_INIT_DB, MXS_COM_REFRESH, MXS_COM_DEBUG,
          MXS_COM_PING, MXS_COM_CHANGE_USER, MXS_COM_SET_OPTION, MXS_COM_RESET_CONNECTION,
          MXS_COM_CREATE_DB, MXS_COM_DROP_DB, MXS_COM_STMT_CLOSE,
          MXS_COM_STMT_SEND_LONG_DATA, MXS_COM_STMT_RESET, MXS_COM_FIELD_LIST,
          MXS_COM_STMT_EXECUTE, MXS_COM_STMT_PREPARE, MXS_COM_QUERY],
          determine_query_type P querybuf command = QUERY_TYPE_UNKNOWN) := by
  have hprep : determine_query_type P querybuf MXS_COM_STMT_PREPARE
      = P.qc_get_type_mask querybuf ||| QUERY_TYPE_PREPARE_STMT := rfl
  refine ⟨?_, ?_, rfl, fun _ => rfl, hprep, ?_, rfl, ?_⟩
  · intro command hc
    simp only [List.mem_cons, List.mem_singleton, List.mem_nil_iff, or_false] at hc
    rcases hc with h | h | h | h | h | h | h | h <;> subst h <;> rfl
  · intro command hc
    simp only [List.mem_cons, List.mem_singleton, List.mem_nil_iff, or_false] at hc
    rcases hc with h | h | h | h | h <;> subst h <;> rfl
  · rw [hprep]
    exact qc_query_is_type_or_self _ _
  · intro command hc
    simp only [List.mem_cons, List.mem_singleton, List.mem_nil_iff, or_false, not_or] at hc
    obtain ⟨h1, h2, h3, h4, h5, h6, h7, h8, h9, h10, h11, h12, h13, h14, h15, h16, h17⟩ := hc
    simp [determine_query_type, h1, h2, h3, h4, h5, h6, h7, h8, h9, h10, h11, h12, h13, h14,
      h15, h16, h17]

/-! ## Theorems: prepared statements -/

/-- On a buffer of at least 9 bytes mysql_extract_ps_id is the little-endian
value of the bytes at offsets 5 to 8. -/
theorem mysql_extract_ps_id_of_length (buffer : GWBUF) (hlen : 9 ≤ buffer.data.length) :
    mysql_extract_ps_id buffer
      = buffer.data.getD 5 0 + buffer.data.getD 6 0 * 2 ^ 8 + buffer.data.getD 7 0 * 2 ^ 16
          + buffer.data.getD 8 0 * 2 ^ 24 := by
  obtain ⟨data, hint⟩ := buffer
  match data, hlen with
  | _ :: _ :: _ :: _ :: _ :: b5 :: b6 :: b7 :: b8 :: rest, _ =>
    simp [mysql_extract_ps_id, gwbuf_copy_data, gw_mysql_get_byte4, MYSQL_PS_ID_OFFSET,
      MYSQL_PS_ID_SIZE, MYSQL_HEADER_LEN]

/-- C13: the postcondition of registering a prepared statement. After
ps_store_response(internal_id, external_id, param_count), from every prior
state of the classifier, (a) ps_id_internal_get on a packet of at least 9 bytes
whose id field (the little-endian bytes 5 to 8) is external_id returns
internal_id, and (b) ps_id_internal_get on a packet of at least 9 bytes whose
id field is 0xFFFFFFFF returns internal_id as well: 0xFFFFFFFF stands for the
statement registered last. -/
theorem C13_ps_store_response_then_get (qc : QueryClassifier)
    (internal_id external_id param_count : Nat) (pBuffer : GWBUF)
    (hlen : 9 ≤ pBuffer.data.length) :
    (pBuffer.data.getD 5 0 + pBuffer.data.getD 6 0 * 2 ^ 8 + pBuffer.data.getD 7 0 * 2 ^ 16
        + pBuffer.data.getD 8 0 * 2 ^ 24 = external_id →
      ps_id_internal_get (ps_store_response qc internal_id external_id param_count) pBuffer
        = internal_id)
    ∧ (pBuffer.data.getD 5 0 + pBuffer.data.getD 6 0 * 2 ^ 8 + pBuffer.data.getD 7 0 * 2 ^ 16
        + pBuffer.data.getD 8 0 * 2 ^ 24 = 0xFFFFFFFF →
      ps_id_internal_get (ps_store_response qc internal_id external_id param_count) pBuffer
        = internal_id) := by
  have hid := mysql_extract_ps_id_of_length pBuffer hlen
  have hprev : (ps_store_response qc internal_id external_id param_count).m_prev_ps_id
      = external_id := by
    unfold ps_store_response
    simp only
    split <;> rfl
  have hhandle : (ps_store_response qc internal_id external_id param_count).m_ps_handles
      external_id = some internal_id := by
    unfold ps_store_response
    simp only
    split <;> simp
  constructor
  · intro hext
    rw [hext] at hid
    unfold ps_id_internal_get
    simp only [hid, hprev, ite_self, hhandle]
  · intro hext
    rw [hext] at hid
    unfold ps_id_internal_get
    simp only [hid, hprev, beq_self_eq_true, if_true, hhandle]

/-- C13 holds of a statement registered as internal 1, external 7: both an
execute of id 7 and a direct execute (id 0xFFFFFFFF) resolve to 1. -/
theorem C13_ps_store_response_then_get_witness :
    9 ≤ buf_stmt_execute_7.data.length
      ∧ ps_id_internal_get (ps_store_response qc_master 1 7 1) buf_stmt_execute_7 = 1
      ∧ 9 ≤ buf_stmt_execute_direct.data.length
      ∧ ps_id_internal_get (ps_store_response qc_master 1 7 1) buf_stmt_execute_direct = 1 :=
  ⟨by decide,
    (C13_ps_store_response_then_get qc_master 1 7 1 buf_stmt_execute_7 (by decide)).1
      (by decide),
    by decide,
    (C13_ps_store_response_then_get qc_master 1 7 1 buf_stmt_execute_direct (by decide)).2
      (by decide)⟩

/-- The integer expression `(params + 7) / 8` of query_continues_ps is the
ceiling of params / 8. -/
theorem params_add_seven_div_eight (params : Nat) :
    (params + 7) / 8 = ⌈(params : ℚ) / 8⌉₊ := by
  apply le_antisymm
  · have h := Nat.le_ceil ((params : ℚ) / 8)
    rw [div_le_iff₀ (by norm_num)] at h
    have h2 : params ≤ ⌈(params : ℚ) / 8⌉₊ * 8 := by exact_mod_cast h
    omega
  · rw [Nat.ceil_le, div_le_iff₀ (by norm_num)]
    have : params ≤ (params + 7) / 8 * 8 := by omega
    exact_mod_cast this

/-- The one byte that gwbuf_copy_data reads at an offset is the byte of the
buffer there, if the buffer has one. -/
theorem copy_one_byte_eq_zero_iff (data : List Nat) (offset : Nat) :
    (match (data.drop offset).take 1 with
      | have_types :: _ => have_types == 0
      | [] => false) = true ↔ data[offset]? = some 0 := by
  cases hd : data.drop offset with
  | nil =>
    have : data.length ≤ offset := List.drop_eq_nil_iff.mp hd
    simp [List.getElem?_eq_none this]
  | cons a t =>
    have : data[offset]? = some a := by
      have := List.head?_drop data offset
      rw [hd] at this
      simpa using this.symm
    simp [this]

/-- C16: the new-params-bound flag. For a COM_STMT_EXECUTE whose previous
command is not COM_STMT_SEND_LONG_DATA: when the statement is registered with
params > 0 parameters, query_continues_ps is true if and only if the packet has
a byte at offset 4 + 1 + 4 + 1 + 4 + ⌈params / 8⌉ and that byte is 0; for every
16-bit params the expression (params + 7) / 8 of the code is ⌈params / 8⌉, and
params + 7 stays below 2^31, so the C integer arithmetic does not wrap; when
the statement has 0 parameters or is unknown the result is false. -/
theorem C16_new_params_bound_flag (qc : QueryClassifier) (stmt_id : Nat) (buffer : GWBUF)
    (params : Nat)
    (hprev : qc.m_route_info.m_command ≠ MXS_COM_STMT_SEND_LONG_DATA) :
    (param_count qc stmt_id = params → 0 < params →
        (query_continues_ps qc MXS_COM_STMT_EXECUTE stmt_id buffer = true
          ↔ buffer.data[4 + 1 + 4 + 1 + 4 + ⌈(params : ℚ) / 8⌉₊]? = some 0))
      ∧ (params < 2 ^ 16 →
          (params + 7) / 8 = ⌈(params : ℚ) / 8⌉₊ ∧ params + 7 < 2 ^ 31)
      ∧ (param_count qc stmt_id = 0 →
          query_continues_ps qc MXS_COM_STMT_EXECUTE stmt_id buffer = false)
      ∧ (qc.m_binary_ps stmt_id = none →
          query_continues_ps qc MXS_COM_STMT_EXECUTE stmt_id buffer = false) := by
  have hp : (qc.m_route_info.m_command == MXS_COM_STMT_SEND_LONG_DATA) = false := by
    simpa using hprev
  have hf : (MXS_COM_STMT_EXECUTE == MXS_COM_STMT_FETCH) = false := by decide
  have hzero : param_count qc stmt_id = 0 →
      query_continues_ps qc MXS_COM_STMT_EXECUTE stmt_id buffer = false := by
    intro h0
    simp [query_continues_ps, hp, hf, h0]
  refine ⟨?_, ?_, hzero, ?_⟩
  · intro hpc hpos
    have hne : (params != 0) = true := by simpa using Nat.pos_iff_ne_zero.mp hpos
    rw [← params_add_seven_div_eight]
    unfold query_continues_ps
    simp only [hp, hf, hpc, hne, Bool.false_and, Bool.false_eq_true, if_false, if_true,
      beq_self_eq_true, gwbuf_copy_data, MYSQL_HEADER_LEN]
    exact copy_one_byte_eq_zero_iff buffer.data _
  · intro hlt
    exact ⟨params_add_seven_div_eight params, by omega⟩
  · intro hnone
    apply hzero
    simp [param_count, hnone]

/-- C16 holds of an execute of the statement with internal id 1 and one
parameter: the flag byte at offset 15 is 0, so the command continues the
previous execute. -/
theorem C16_new_params_bound_flag_witness :
    qc_prepared.m_route_info.m_command ≠ MXS_COM_STMT_SEND_LONG_DATA
      ∧ param_count qc_prepared 1 = 1
      ∧ buf_stmt_execute_7.data[15]? = some 0
      ∧ query_continues_ps qc_prepared MXS_COM_STMT_EXECUTE 1 buf_stmt_execute_7 = true :=
  ⟨by decide, by decide, by decide,
    ((C16_new_params_bound_flag qc_prepared 1 buf_stmt_execute_7 1 (by decide)).1
      (by decide) (by decide)).mpr (by
        rw [← params_add_seven_div_eight]
        decide)⟩

/-! ## Theorems: the FOUND_ROWS rewrite -/

/-- The target update_route_info returns for a command packet is the target
after hint processing, passed through the check for FOUND_ROWS. -/
theorem update_route_info_target_eq_found_rows {σ : Type} (P : SqlParser) (M : Modutil)
    (H : Handler σ) (qc : QueryClassifier) (ses : MXS_SESSION) (hs : σ)
    (current_target : current_target_t) (pBuffer : GWBUF)
    (hload : qc.m_load_data_state ≠ .LOAD_DATA_ACTIVE)
    (hlen : gwbuf_length pBuffer > MYSQL_HEADER_LEN) :
    (update_route_info P M H qc ses hs current_target pBuffer).1.m_target =
      update_route_info_found_rows P pBuffer (mxs_mysql_get_command pBuffer)
        (update_route_info_hint_target P M H qc ses hs current_target pBuffer) := by
  rw [update_route_info_target_eq P M H qc ses hs current_target pBuffer hload hlen]
  rfl

/-- The comparison the FOUND_ROWS loop makes on a function name succeeds
exactly when the name, in lower case, is found_rows. -/
theorem strcasecmp_eq_found_rows_iff (name : String) :
    strcasecmp_eq name "FOUND_ROWS" = true
      ↔ name.toList.map Char.toLower = "found_rows".toList := by
  have hlit : "FOUND_ROWS".toList.map Char.toLower = "found_rows".toList := by decide
  unfold strcasecmp_eq
  rw [hlit, beq_iff_eq]

/-- C11, as stated, fails: a COM_QUERY that calls FOUND_ROWS and carries the
hint max_slave_replication_lag has, after hint processing, the role REPLICA
with the modifier RLAG_MAX, and update_route_info does not rewrite it to
LAST_USED: the target returned is still REPLICA | RLAG_MAX. -/
theorem C11_found_rows_counterexample :
    mxs_mysql_get_command buf_select_rlag_hint = MXS_COM_QUERY
      ∧ parser_found_rows.qc_get_function_info buf_select_rlag_hint = ["found_rows"]
      ∧ update_route_info_hint_target parser_found_rows modutil_no_semicolon
          handler_unlocked qc_master ses_idle () .CURRENT_TARGET_UNDEFINED
          buf_select_rlag_hint = TARGET_SLAVE ||| TARGET_RLAG_MAX
      ∧ (update_route_info parser_found_rows modutil_no_semicolon handler_unlocked
          qc_master ses_idle () .CURRENT_TARGET_UNDEFINED buf_select_rlag_hint).1.m_target
            = TARGET_SLAVE ||| TARGET_RLAG_MAX
      ∧ TARGET_SLAVE ||| TARGET_RLAG_MAX ≠ TARGET_LAST_USED := by
  decide

/-- C11, amended: the FOUND_ROWS rewrite. For every command packet, load data
inactive: a COM_QUERY whose target after hint processing is exactly REPLICA,
without modifier bits, and whose function list contains FOUND_ROWS (letter
case ignored) gets the route target LAST_USED; a target after hint processing
other than exactly REPLICA (such as REPLICA with RLAG_MAX or NAMED_SERVER), a
COM_QUERY that calls no FOUND_ROWS function, and every command other than
COM_QUERY keep the target after hint processing. -/
theorem C11_found_rows_rewrite {σ : Type} (P : SqlParser) (M : Modutil)
    (H : Handler σ) (qc : QueryClassifier) (ses : MXS_SESSION) (hs : σ)
    (current_target : current_target_t) (pBuffer : GWBUF)
    (hload : qc.m_load_data_state = .LOAD_DATA_INACTIVE)
    (hlen : gwbuf_length pBuffer > MYSQL_HEADER_LEN) :
    (mxs_mysql_get_command pBuffer = MXS_COM_QUERY →
        update_route_info_hint_target P M H qc ses hs current_target pBuffer = TARGET_SLAVE →
        (∃ name ∈ P.qc_get_function_info pBuffer,
          name.toList.map Char.toLower = "found_rows".toList) →
        (update_route_info P M H qc ses hs current_target pBuffer).1.m_target
          = TARGET_LAST_USED)
      ∧ (update_route_info_hint_target P M H qc ses hs current_target pBuffer ≠ TARGET_SLAVE →
          (update_route_info P M H qc ses hs current_target pBuffer).1.m_target
            = update_route_info_hint_target P M H qc ses hs current_target pBuffer)
      ∧ ((¬ ∃ name ∈ P.qc_get_function_info pBuffer,
            name.toList.map Char.toLower = "found_rows".toList) →
          (update_route_info P M H qc ses hs current_target pBuffer).1.m_target
            = update_route_info_hint_target P M H qc ses hs current_target pBuffer)
      ∧ (mxs_mysql_get_command pBuffer ≠ MXS_COM_QUERY →
          (update_route_info P M H qc ses hs current_target pBuffer).1.m_target
            = update_route_info_hint_target P M H qc ses hs current_target pBuffer) := by
  rw [update_route_info_target_eq_found_rows P M H qc ses hs current_target pBuffer
    (by rw [hload]; decide) hlen]
  unfold update_route_info_found_rows found_rows_target
  refine ⟨?_, ?_, ?_, ?_⟩
  · intro hcmd hpre hfun
    have hany : (P.qc_get_function_info pBuffer).any
        (fun name => strcasecmp_eq name "FOUND_ROWS") = true := by
      rw [List.any_eq_true]
      obtain ⟨name, hin, hname⟩ := hfun
      exact ⟨name, hin, (strcasecmp_eq_found_rows_iff name).mpr hname⟩
    simp [hcmd, hpre, hany]
  · intro hpre
    have hb : (update_route_info_hint_target P M H qc ses hs current_target pBuffer
        == TARGET_SLAVE) = false := by simpa using hpre
    simp [hb]
  · intro hfun
    have hany : (P.qc_get_function_info pBuffer).any
        (fun name => strcasecmp_eq name "FOUND_ROWS") = false := by
      rw [Bool.eq_false_iff]
      intro h
      rw [List.any_eq_true] at h
      obtain ⟨name, hin, hname⟩ := h
      exact hfun ⟨name, hin, (strcasecmp_eq_found_rows_iff name).mp hname⟩
    simp [hany]
  · intro hcmd
    have hb : (mxs_mysql_get_command pBuffer == MXS_COM_QUERY) = false := by simpa using hcmd
    simp [hb]

/-- C11 amended holds of SELECT FOUND_ROWS() without hints outside a
transaction: the target after hint processing is REPLICA and the target
returned is LAST_USED. -/
theorem C11_found_rows_rewrite_witness :
    qc_master.m_load_data_state = .LOAD_DATA_INACTIVE
      ∧ gwbuf_length buf_select_1 > MYSQL_HEADER_LEN
      ∧ mxs_mysql_get_command buf_select_1 = MXS_COM_QUERY
      ∧ update_route_info_hint_target parser_found_rows modutil_no_semicolon
          handler_unlocked qc_master ses_idle () .CURRENT_TARGET_UNDEFINED buf_select_1
            = TARGET_SLAVE
      ∧ (update_route_info parser_found_rows modutil_no_semicolon handler_unlocked
          qc_master ses_idle () .CURRENT_TARGET_UNDEFINED buf_select_1).1.m_target
            = TARGET_LAST_USED :=
  ⟨rfl, by decide, rfl, by decide,
    (C11_found_rows_rewrite parser_found_rows modutil_no_semicolon handler_unlocked
      qc_master ses_idle () .CURRENT_TARGET_UNDEFINED buf_select_1 rfl (by decide)).1
      rfl (by decide) ⟨"found_rows", by decide, by decide⟩⟩

/-! ## Theorems: the parts of the result of update_route_info -/

/-- The result of update_route_info on a command packet (more than the header,
load data not active), field by field, in terms of its steps. -/
theorem update_route_info_fields {σ : Type} (P : SqlParser) (M : Modutil)
    (H : Handler σ) (qc : QueryClassifier) (ses : MXS_SESSION) (hs : σ)
    (current_target : current_target_t) (pBuffer : GWBUF)
    (hload : qc.m_load_data_state ≠ .LOAD_DATA_ACTIVE)
    (hlen : gwbuf_length pBuffer > MYSQL_HEADER_LEN) :
    (update_route_info P M H qc ses hs current_target pBuffer).1.m_command
        = mxs_mysql_get_command pBuffer
      ∧ (update_route_info P M H qc ses hs current_target pBuffer).1.m_type_mask
        = (update_route_info_target_step P M H qc ses hs current_target pBuffer).2.1
      ∧ (update_route_info P M H qc ses hs current_target pBuffer).1.m_stmt_id
        = (update_route_info_target_step P M H qc ses hs current_target pBuffer).2.2.1
      ∧ (update_route_info P M H qc ses hs current_target pBuffer).2.1.m_ps_continuation
        = (update_route_info_target_step P M H qc ses hs current_target pBuffer).2.2.2
      ∧ (update_route_info P M H qc ses hs current_target pBuffer).2.1.m_route_info
        = (update_route_info P M H qc ses hs current_target pBuffer).1
      ∧ (update_route_info P M H qc ses hs current_target pBuffer).2.1.m_trx_is_read_only
        = update_route_info_trx_is_read_only
            { (update_route_info_mask_step P M H qc ses hs current_target pBuffer).2.1 with
              m_ps_continuation :=
                (update_route_info_target_step P M H qc ses hs current_target pBuffer).2.2.2 }
            ses (update_route_info_target_step P M H qc ses hs current_target pBuffer).2.1
      ∧ (update_route_info P M H qc ses hs current_target pBuffer).2.2
        = (update_route_info_mask_step P M H qc ses hs current_target pBuffer).2.2 := by
  unfold update_route_info
  have h1 : ((qc.m_load_data_state == load_data_state_t.LOAD_DATA_ACTIVE) = true) = False := by
    simpa using hload
  simp only [h1, hlen, if_false, if_true]
  refine ⟨?_, ?_, ?_, ?_, ?_, ?_, ?_⟩ <;> trivial

/-- The type-mask step changes nothing of the classifier but the set of
temporary tables and the flag that there are some. -/
theorem update_route_info_type_mask_classifier {σ : Type} (P : SqlParser) (M : Modutil)
    (H : Handler σ) (qc : QueryClassifier) (ses : MXS_SESSION) (hs : σ)
    (current_target : current_target_t) (pBuffer : GWBUF) (command : Nat) (ro : Bool) :
    ∃ (tables : List String) (flag : Bool),
      (update_route_info_type_mask P M H qc ses hs current_target pBuffer command ro).2.1
        = { qc with m_tmp_tables := tables, m_have_tmp_tables := flag } := by
  have hloop : ∀ (l : List String) (q : QueryClassifier), ∃ tables : List String,
      (foreach_table_loop ses delete_table l q).2 = { q with m_tmp_tables := tables } := by
    intro l
    induction l with
    | nil => intro q; exact ⟨q.m_tmp_tables, rfl⟩
    | cons t rest ih =>
      intro q
      simp only [foreach_table_loop, delete_table]
      obtain ⟨tables, h⟩ := ih (remove_tmp_table q (qualified_table ses t))
      exact ⟨tables, by rw [h]; rfl⟩
  have hdrop : ∀ q : QueryClassifier, ∃ tables : List String,
      check_drop_tmp_table P q ses pBuffer = { q with m_tmp_tables := tables } := by
    intro q
    unfold check_drop_tmp_table foreach_table
    split
    · exact hloop _ q
    · exact ⟨q.m_tmp_tables, rfl⟩
  have hcreate : ∀ (q : QueryClassifier) (ty : Nat), ∃ (tables : List String) (flag : Bool),
      check_create_tmp_table P q ses pBuffer ty
        = { q with m_tmp_tables := tables, m_have_tmp_tables := flag } := by
    intro q ty
    unfold check_create_tmp_table add_tmp_table
    split
    · simp only
      split
      · exact ⟨q.m_tmp_tables, true, rfl⟩
      · exact ⟨_, true, rfl⟩
    · exact ⟨q.m_tmp_tables, q.m_have_tmp_tables, rfl⟩
  have hmulti : ∀ ty : Nat, ∃ (tables : List String) (flag : Bool),
      (handle_multi_temp_and_load P M qc ses current_target pBuffer command ty).2.2
        = { qc with m_tmp_tables := tables, m_have_tmp_tables := flag } := by
    intro ty
    unfold handle_multi_temp_and_load
    simp only
    split
    · obtain ⟨t1, h1⟩ := hdrop qc
      rw [h1]
      obtain ⟨t2, f2, h2⟩ := hcreate { qc with m_tmp_tables := t1 }
        (if (qc.m_have_tmp_tables && is_packet_a_query command
            && is_read_tmp_table P { qc with m_tmp_tables := t1 } ses pBuffer ty) = true
          then ty ||| QUERY_TYPE_MASTER_READ else ty)
      exact ⟨t2, f2, by rw [h2]⟩
    · obtain ⟨t2, f2, h2⟩ := hcreate qc
        (if (qc.m_have_tmp_tables && is_packet_a_query command
            && is_read_tmp_table P qc ses pBuffer ty) = true
          then ty ||| QUERY_TYPE_MASTER_READ else ty)
      exact ⟨t2, f2, h2⟩
  unfold update_route_info_type_mask
  split
  · exact ⟨qc.m_tmp_tables, qc.m_have_tmp_tables, rfl⟩
  · simp only
    split
    · split <;> exact hmulti _
    · exact hmulti _

/-! ## Theorems: execution of prepared statements -/

/-- For a command other than COM_QUERY the steps of update_route_info leave the
handler as it is and hand on a classifier that differs from the given one in
the temporary tables and in m_ps_continuation only. -/
theorem update_route_info_mask_step_not_query {σ : Type} (P : SqlParser) (M : Modutil)
    (H : Handler σ) (qc : QueryClassifier) (ses : MXS_SESSION) (hs : σ)
    (current_target : current_target_t) (pBuffer : GWBUF)
    (hq : mxs_mysql_get_command pBuffer ≠ MXS_COM_QUERY) :
    (update_route_info_mask_step P M H qc ses hs current_target pBuffer).2.2 = hs
      ∧ ∃ (tables : List String) (flag : Bool),
          (update_route_info_mask_step P M H qc ses hs current_target pBuffer).2.1
            = { qc with m_ps_continuation := false, m_tmp_tables := tables,
                        m_have_tmp_tables := flag } := by
  unfold update_route_info_mask_step
  refine ⟨(update_route_info_type_mask_not_query P M H _ ses hs current_target pBuffer _ _
    hq).1, ?_⟩
  obtain ⟨tables, flag, h⟩ := update_route_info_type_mask_classifier P M H
    { qc with m_ps_continuation := false } ses hs current_target pBuffer
    (mxs_mysql_get_command pBuffer)
    (current_target != .CURRENT_TARGET_UNDEFINED && ses.is_trx_read_only)
  exact ⟨tables, flag, by rw [h]⟩

/-- C14, as stated, fails: with nothing prepared, not locked and load data
inactive, a direct COM_STMT_EXECUTE (id 0xFFFFFFFF) without hints sent inside a
read-only transaction resolves to internal id 0 with mask UNKNOWN, but its
route target is REPLICA, not PRIMARY. -/
theorem C14_direct_execute_counterexample :
    mxs_mysql_get_command buf_stmt_execute_direct = MXS_COM_STMT_EXECUTE
      ∧ mysql_extract_ps_id buf_stmt_execute_direct = 0xFFFFFFFF
      ∧ handler_unlocked.is_locked_to_master () = false
      ∧ qc_master.m_load_data_state = .LOAD_DATA_INACTIVE
      ∧ (update_route_info parser_select modutil_no_semicolon handler_unlocked qc_master
          ses_ro_trx () .CURRENT_TARGET_UNDEFINED buf_stmt_execute_direct).1
          = { m_target := TARGET_SLAVE, m_command := MXS_COM_STMT_EXECUTE,
              m_type_mask := QUERY_TYPE_UNKNOWN, m_stmt_id := 0 }
      ∧ TARGET_SLAVE ≠ TARGET_MASTER := by
  decide

/-- C14, amended: direct execution with nothing prepared. If no prepared
statement has been registered (both maps of the classifier are empty), the
session is not locked to primary and load data is inactive, update_route_info
on a COM_STMT_EXECUTE packet without hints, whatever its id field is and so
also when it is 0xFFFFFFFF, resolves the statement to internal id 0 with type
mask UNKNOWN; the route target is PRIMARY in every session state in which the
session does not report a read-only transaction, and REPLICA when it does. -/
theorem C14_direct_execute_nothing_prepared {σ : Type} (P : SqlParser) (M : Modutil)
    (H : Handler σ) (qc : QueryClassifier) (ses : MXS_SESSION) (hs : σ)
    (current_target : current_target_t) (pBuffer : GWBUF)
    (hload : qc.m_load_data_state = .LOAD_DATA_INACTIVE)
    (hlen : gwbuf_length pBuffer > MYSQL_HEADER_LEN)
    (hhint : pBuffer.hint = [])
    (hcmd : mxs_mysql_get_command pBuffer = MXS_COM_STMT_EXECUTE)
    (hhandles : ∀ k, qc.m_ps_handles k = none)
    (hbinary : ∀ k, qc.m_binary_ps k = none)
    (hunlocked : H.is_locked_to_master hs = false) :
    (update_route_info P M H qc ses hs current_target pBuffer).1.m_stmt_id = 0
      ∧ (update_route_info P M H qc ses hs current_target pBuffer).1.m_type_mask
          = QUERY_TYPE_UNKNOWN
      ∧ (ses.is_trx_read_only = false →
          (update_route_info P M H qc ses hs current_target pBuffer).1.m_target
            = TARGET_MASTER)
      ∧ (ses.is_trx_read_only = true →
          (update_route_info P M H qc ses hs current_target pBuffer).1.m_target
            = TARGET_SLAVE) := by
  have hload2 : qc.m_load_data_state ≠ .LOAD_DATA_ACTIVE := by rw [hload]; decide
  have hq : mxs_mysql_get_command pBuffer ≠ MXS_COM_QUERY := by rw [hcmd]; decide
  obtain ⟨hhs, tables, flag, hqc⟩ := update_route_info_mask_step_not_query P M H qc ses hs
    current_target pBuffer hq
  obtain ⟨-, hmask, hstmt, -, -, -, -⟩ := update_route_info_fields P M H qc ses hs
    current_target pBuffer hload2 hlen
  have hh : ∀ k, (update_route_info_mask_step P M H qc ses hs current_target
      pBuffer).2.1.m_ps_handles k = none := by
    intro k; rw [hqc]; exact hhandles k
  have hb : ∀ k, (update_route_info_mask_step P M H qc ses hs current_target
      pBuffer).2.1.m_binary_ps k = none := by
    intro k; rw [hqc]; exact hbinary k
  have hstep : update_route_info_target_step P M H qc ses hs current_target pBuffer
      = (get_route_target
          (update_route_info_mask_step P M H qc ses hs current_target pBuffer).2.1 ses
          MXS_COM_STMT_EXECUTE QUERY_TYPE_UNKNOWN,
        QUERY_TYPE_UNKNOWN, 0,
        query_continues_ps
          (update_route_info_mask_step P M H qc ses hs current_target pBuffer).2.1
          MXS_COM_STMT_EXECUTE 0 pBuffer) := by
    unfold update_route_info_target_step
    rw [hhs, hunlocked, hcmd]
    have hps : qc_mysql_is_ps_command MXS_COM_STMT_EXECUTE = true := by decide
    have hnq : (MXS_COM_STMT_EXECUTE == MXS_COM_QUERY) = false := by decide
    have hint0 : ps_id_internal_get
        (update_route_info_mask_step P M H qc ses hs current_target pBuffer).2.1 pBuffer
          = 0 := by
      simp [ps_id_internal_get, hh]
    have hty : ps_get_type
        (update_route_info_mask_step P M H qc ses hs current_target pBuffer).2.1 0
          = QUERY_TYPE_UNKNOWN := by
      simp [ps_get_type, hb]
    simp only [update_route_info_target, Bool.false_eq_true, if_false, hnq, hps, if_true,
      Bool.and_false, Bool.false_and, hint0, hty]
  have htarget : (update_route_info P M H qc ses hs current_target pBuffer).1.m_target
      = get_route_target
          (update_route_info_mask_step P M H qc ses hs current_target pBuffer).2.1 ses
          MXS_COM_STMT_EXECUTE QUERY_TYPE_UNKNOWN := by
    rw [update_route_info_target_eq_found_rows P M H qc ses hs current_target pBuffer hload2
      hlen]
    have hpre : update_route_info_hint_target P M H qc ses hs current_target pBuffer
        = (update_route_info_target_step P M H qc ses hs current_target pBuffer).1 := by
      show process_routing_hints _ pBuffer.hint _ = _
      rw [hhint]
      rfl
    rw [hpre, hstep, hcmd]
    have hnq : (MXS_COM_STMT_EXECUTE == MXS_COM_QUERY) = false := by decide
    simp [update_route_info_found_rows, hnq]
  have hu : (update_route_info_mask_step P M H qc ses hs current_target
      pBuffer).2.1.m_use_sql_variables_in = qc.m_use_sql_variables_in := by
    rw [hqc]
  refine ⟨by rw [hstmt, hstep], by rw [hmask, hstep], ?_, ?_⟩
  · intro hro
    rw [htarget, get_route_target_of_not_rule12 _ ses _ _ (by decide)
      (by rw [hu]; cases qc.m_use_sql_variables_in <;> decide)]
    have hnro : query_type_is_read_only
        (update_route_info_mask_step P M H qc ses hs current_target pBuffer).2.1
        QUERY_TYPE_UNKNOWN = false := by
      unfold query_type_is_read_only
      rw [hu]
      cases qc.m_use_sql_variables_in <;> decide
    simp [hnro, hro]
  · intro hro
    rw [htarget, get_route_target_of_not_rule12 _ ses _ _ (by decide)
      (by rw [hu]; cases qc.m_use_sql_variables_in <;> decide)]
    simp [hro]

/-- C14 amended holds of a direct execute on a fresh classifier outside any
transaction: internal id 0, mask UNKNOWN, target PRIMARY. -/
theorem C14_direct_execute_nothing_prepared_witness :
    qc_master.m_load_data_state = .LOAD_DATA_INACTIVE
      ∧ gwbuf_length buf_stmt_execute_direct > MYSQL_HEADER_LEN
      ∧ buf_stmt_execute_direct.hint = []
      ∧ mxs_mysql_get_command buf_stmt_execute_direct = MXS_COM_STMT_EXECUTE
      ∧ mysql_extract_ps_id buf_stmt_execute_direct = 0xFFFFFFFF
      ∧ handler_unlocked.is_locked_to_master () = false
      ∧ ses_idle.is_trx_read_only = false
      ∧ (update_route_info parser_select modutil_no_semicolon handler_unlocked qc_master
          ses_idle () .CURRENT_TARGET_UNDEFINED buf_stmt_execute_direct).1.m_target
            = TARGET_MASTER :=
  ⟨rfl, by decide, rfl, rfl, by decide, rfl, rfl,
    (C14_direct_execute_nothing_prepared parser_select modutil_no_semicolon handler_unlocked
      qc_master ses_idle () .CURRENT_TARGET_UNDEFINED buf_stmt_execute_direct rfl (by decide)
      rfl rfl (fun _ => rfl) (fun _ => rfl) rfl).2.2.1 rfl⟩

/-- On a command packet update_route_info leaves the load-data state as it
is. -/
theorem update_route_info_load_data_state {σ : Type} (P : SqlParser) (M : Modutil)
    (H : Handler σ) (qc : QueryClassifier) (ses : MXS_SESSION) (hs : σ)
    (current_target : current_target_t) (pBuffer : GWBUF)
    (hload : qc.m_load_data_state ≠ .LOAD_DATA_ACTIVE)
    (hlen : gwbuf_length pBuffer > MYSQL_HEADER_LEN) :
    (update_route_info P M H qc ses hs current_target pBuffer).2.1.m_load_data_state
      = qc.m_load_data_state := by
  obtain ⟨tables, flag, h⟩ := update_route_info_type_mask_classifier P M H
    { qc with m_ps_continuation := false } ses hs current_target pBuffer
    (mxs_mysql_get_command pBuffer)
    (current_target != .CURRENT_TARGET_UNDEFINED && ses.is_trx_read_only)
  unfold update_route_info
  have h1 : ((qc.m_load_data_state == load_data_state_t.LOAD_DATA_ACTIVE) = true) = False := by
    simpa using hload
  simp only [h1, hlen, if_false, if_true]
  rw [h]

/-- C15, as stated, fails for a session locked to primary: after a
COM_STMT_SEND_LONG_DATA for statement 7 has been classified, load data
inactive, the classification of the COM_STMT_EXECUTE of statement 7 leaves the
ps-continuation flag false. -/
theorem C15_long_data_continuation_counterexample :
    qc_prepared.m_load_data_state = .LOAD_DATA_INACTIVE
      ∧ mxs_mysql_get_command buf_stmt_long_data_7 = MXS_COM_STMT_SEND_LONG_DATA
      ∧ mysql_extract_ps_id buf_stmt_long_data_7 = 7
      ∧ mxs_mysql_get_command buf_stmt_execute_7 = MXS_COM_STMT_EXECUTE
      ∧ mysql_extract_ps_id buf_stmt_execute_7 = 7
      ∧ (update_route_info parser_select modutil_no_semicolon handler_flag
          (update_route_info parser_select modutil_no_semicolon handler_flag qc_prepared
            ses_idle true .CURRENT_TARGET_MASTER buf_stmt_long_data_7).2.1
          ses_idle true .CURRENT_TARGET_MASTER buf_stmt_execute_7).2.1.m_ps_continuation
            = false := by
  decide

/-- C15, amended: continuation after long data. With load data inactive, if
update_route_info has just classified a COM_STMT_SEND_LONG_DATA, then the next
update_route_info on a COM_STMT_EXECUTE or COM_STMT_SEND_LONG_DATA (for the
same statement id or any other), in every session state in which the handler
does not report the session as locked to primary, sets the ps-continuation
flag to true, whatever the stored type of the statement. -/
theorem C15_long_data_continuation {σ : Type} (P : SqlParser) (M : Modutil)
    (H : Handler σ) (qc : QueryClassifier)
    (ses1 : MXS_SESSION) (hs1 : σ) (target1 : current_target_t) (long_data : GWBUF)
    (ses2 : MXS_SESSION) (hs2 : σ) (target2 : current_target_t) (pBuffer : GWBUF)
    (hload : qc.m_load_data_state = .LOAD_DATA_INACTIVE)
    (hlen1 : gwbuf_length long_data > MYSQL_HEADER_LEN)
    (hcmd1 : mxs_mysql_get_command long_data = MXS_COM_STMT_SEND_LONG_DATA)
    (hlen2 : gwbuf_length pBuffer > MYSQL_HEADER_LEN)
    (hcmd2 : mxs_mysql_get_command pBuffer = MXS_COM_STMT_EXECUTE
      ∨ mxs_mysql_get_command pBuffer = MXS_COM_STMT_SEND_LONG_DATA)
    (hunlocked : H.is_locked_to_master hs2 = false) :
    (update_route_info P M H
      (update_route_info P M H qc ses1 hs1 target1 long_data).2.1
      ses2 hs2 target2 pBuffer).2.1.m_ps_continuation = true := by
  have hload1 : qc.m_load_data_state ≠ .LOAD_DATA_ACTIVE := by rw [hload]; decide
  obtain ⟨hc1, -, -, -, hri1, -, -⟩ := update_route_info_fields P M H qc ses1 hs1 target1
    long_data hload1 hlen1
  have hprev : (update_route_info P M H qc ses1 hs1 target1 long_data).2.1.m_route_info.m_command
      = MXS_COM_STMT_SEND_LONG_DATA := by rw [hri1, hc1, hcmd1]
  have hload2 : (update_route_info P M H qc ses1 hs1 target1 long_data).2.1.m_load_data_state
      ≠ .LOAD_DATA_ACTIVE := by
    rw [update_route_info_load_data_state P M H qc ses1 hs1 target1 long_data hload1 hlen1]
    exact hload1
  generalize (update_route_info P M H qc ses1 hs1 target1 long_data).2.1 = qc1 at hprev hload2 ⊢
  have hq : mxs_mysql_get_command pBuffer ≠ MXS_COM_QUERY := by
    rcases hcmd2 with h | h <;> rw [h] <;> decide
  obtain ⟨hhs, tables, flag, hqc⟩ := update_route_info_mask_step_not_query P M H qc1 ses2 hs2
    target2 pBuffer hq
  obtain ⟨-, -, -, hcont, -, -, -⟩ := update_route_info_fields P M H qc1 ses2 hs2 target2
    pBuffer hload2 hlen2
  rw [hcont]
  have hprev2 : (update_route_info_mask_step P M H qc1 ses2 hs2 target2
      pBuffer).2.1.m_route_info.m_command = MXS_COM_STMT_SEND_LONG_DATA := by
    rw [hqc]; exact hprev
  have hps : qc_mysql_is_ps_command (mxs_mysql_get_command pBuffer) = true := by
    rcases hcmd2 with h | h <;> rw [h] <;> decide
  have hqb : (mxs_mysql_get_command pBuffer == MXS_COM_QUERY) = false := by simpa using hq
  have hcmds : (mxs_mysql_get_command pBuffer == MXS_COM_STMT_EXECUTE
      || mxs_mysql_get_command pBuffer == MXS_COM_STMT_SEND_LONG_DATA) = true := by
    rcases hcmd2 with h | h <;> rw [h] <;> decide
  unfold update_route_info_target_step
  rw [hhs, hunlocked]
  simp only [update_route_info_target, Bool.false_eq_true, if_false, hqb, hps, if_true,
    Bool.and_false, Bool.false_and, query_continues_ps, hprev2, beq_self_eq_true,
    Bool.true_and, hcmds]

/-- C15 amended holds of the long data and the execute of statement 7 in a
session that is not locked to primary. -/
theorem C15_long_data_continuation_witness :
    qc_prepared.m_load_data_state = .LOAD_DATA_INACTIVE
      ∧ mxs_mysql_get_command buf_stmt_long_data_7 = MXS_COM_STMT_SEND_LONG_DATA
      ∧ mxs_mysql_get_command buf_stmt_execute_7 = MXS_COM_STMT_EXECUTE
      ∧ handler_flag.is_locked_to_master false = false
      ∧ (update_route_info parser_select modutil_no_semicolon handler_flag
          (update_route_info parser_select modutil_no_semicolon handler_flag qc_prepared
            ses_idle false .CURRENT_TARGET_MASTER buf_stmt_long_data_7).2.1
          ses_idle false .CURRENT_TARGET_MASTER buf_stmt_execute_7).2.1.m_ps_continuation
            = true :=
  ⟨by decide, rfl, rfl, rfl,
    C15_long_data_continuation parser_select modutil_no_semicolon handler_flag qc_prepared
      ses_idle false .CURRENT_TARGET_MASTER buf_stmt_long_data_7
      ses_idle false .CURRENT_TARGET_MASTER buf_stmt_execute_7
      (by decide) (by decide) rfl (by decide) (Or.inl rfl) rfl⟩

/-! ## Theorems: the read-only flag of the transaction -/

/-- The read-only test reads nothing of the classifier but the setting of
use_sql_variables_in. -/
theorem query_type_is_read_only_congr (q1 q2 : QueryClassifier) (qtype : Nat)
    (h : q1.m_use_sql_variables_in = q2.m_use_sql_variables_in) :
    query_type_is_read_only q1 qtype = query_type_is_read_only q2 qtype := by
  unfold query_type_is_read_only
  rw [h]

/-- A mask that contains a type still contains it when more bits are OR-ed
in. -/
theorem qc_query_is_type_or_left (m x p : Nat) (h : qc_query_is_type m p = true) :
    qc_query_is_type (m ||| x) p = true := by
  unfold qc_query_is_type at h ⊢
  rw [beq_iff_eq] at h ⊢
  apply Nat.eq_of_testBit_eq
  intro i
  have hi := congrArg (fun n => n.testBit i) h
  simp only [Nat.testBit_and, Nat.testBit_or] at hi ⊢
  cases hm : m.testBit i <;> cases hx : x.testBit i <;> cases hp : p.testBit i <;>
    simp_all

/-- The flag m_trx_is_read_only after update_route_info on a command packet,
in terms of the flag before, the session facts and the classified type mask. -/
theorem update_route_info_trx_flag {σ : Type} (P : SqlParser) (M : Modutil)
    (H : Handler σ) (qc : QueryClassifier) (ses : MXS_SESSION) (hs : σ)
    (current_target : current_target_t) (pBuffer : GWBUF)
    (hload : qc.m_load_data_state ≠ .LOAD_DATA_ACTIVE)
    (hlen : gwbuf_length pBuffer > MYSQL_HEADER_LEN) :
    (update_route_info P M H qc ses hs current_target pBuffer).2.1.m_trx_is_read_only
      = if (ses.is_trx_ending || qc_query_is_type
            (update_route_info P M H qc ses hs current_target pBuffer).1.m_type_mask
            QUERY_TYPE_BEGIN_TRX) = true then true
        else if (ses.is_trx_active && !query_type_is_read_only qc
            (update_route_info P M H qc ses hs current_target pBuffer).1.m_type_mask) = true
          then false
        else qc.m_trx_is_read_only := by
  obtain ⟨-, hmask, -, -, -, hflag, -⟩ := update_route_info_fields P M H qc ses hs
    current_target pBuffer hload hlen
  obtain ⟨tables, flag, hqc⟩ := update_route_info_type_mask_classifier P M H
    { qc with m_ps_continuation := false } ses hs current_target pBuffer
    (mxs_mysql_get_command pBuffer)
    (current_target != .CURRENT_TARGET_UNDEFINED && ses.is_trx_read_only)
  have hu : (update_route_info_mask_step P M H qc ses hs current_target
      pBuffer).2.1.m_use_sql_variables_in = qc.m_use_sql_variables_in := by
    unfold update_route_info_mask_step
    rw [hqc]
  have hold : (update_route_info_mask_step P M H qc ses hs current_target
      pBuffer).2.1.m_trx_is_read_only = qc.m_trx_is_read_only := by
    unfold update_route_info_mask_step
    rw [hqc]
  rw [hflag, hmask]
  unfold update_route_info_trx_is_read_only
  rw [query_type_is_read_only_congr _ qc]
  · simp only [hold]
  · exact hu

/-- C17, as stated, fails inside a read-only transaction. With a current
target defined and the session reporting a read-only transaction,
update_route_info does not parse the statement: a BEGIN, whose parsed mask
contains BEGIN_TRX, is classified with the mask READ, no BEGIN is observed, and
a flag that is false stays false. -/
theorem C17_trx_read_only_flag_counterexample :
    qc_trx_written.m_trx_is_read_only = false
      ∧ qc_trx_written.m_load_data_state = .LOAD_DATA_INACTIVE
      ∧ mxs_mysql_get_command buf_begin = MXS_COM_QUERY
      ∧ qc_query_is_type (parser_begin.qc_get_type_mask buf_begin) QUERY_TYPE_BEGIN_TRX = true
      ∧ (update_route_info parser_begin modutil_no_semicolon handler_unlocked qc_trx_written
          ses_ro_trx () .CURRENT_TARGET_MASTER buf_begin).1.m_type_mask = QUERY_TYPE_READ
      ∧ (update_route_info parser_begin modutil_no_semicolon handler_unlocked qc_trx_written
          ses_ro_trx () .CURRENT_TARGET_MASTER buf_begin).2.1.m_trx_is_read_only = false := by
  decide

/-- C17, amended: the read-only flag of the classifier. It is true in a
classifier just constructed. After update_route_info has classified a packet (a
command packet, load data not active) it is true whenever the session reports
the transaction as ending or the classified type mask contains BEGIN_TRX, in
every other respect of the state; a COM_QUERY that is not an EXECUTE and whose
parsed mask contains BEGIN_TRX is so classified when it is parsed, that is
unless the current target is defined and the session reports a read-only
transaction. In that case the statement is not parsed: a COM_QUERY gets the
mask READ and, the transaction not ending, the flag is left as it was. The flag
is false whenever, the transaction neither ending nor starting, a transaction
is active and the classified type mask is not strictly read-only. -/
theorem C17_trx_read_only_flag {σ : Type} (P : SqlParser) (M : Modutil)
    (H : Handler σ) (qc : QueryClassifier) (ses : MXS_SESSION) (hs : σ)
    (current_target : current_target_t) (pBuffer : GWBUF)
    (hload : qc.m_load_data_state ≠ .LOAD_DATA_ACTIVE)
    (hlen : gwbuf_length pBuffer > MYSQL_HEADER_LEN) :
    (∀ (u : mxs_target_t) (multi : Bool), (QueryClassifier.init u multi).m_trx_is_read_only = true)
      ∧ (ses.is_trx_ending = true →
          (update_route_info P M H qc ses hs current_target pBuffer).2.1.m_trx_is_read_only
            = true)
      ∧ (qc_query_is_type
            (update_route_info P M H qc ses hs current_target pBuffer).1.m_type_mask
            QUERY_TYPE_BEGIN_TRX = true →
          (update_route_info P M H qc ses hs current_target pBuffer).2.1.m_trx_is_read_only
            = true)
      ∧ (mxs_mysql_get_command pBuffer = MXS_COM_QUERY →
          P.qc_get_operation pBuffer ≠ .QUERY_OP_EXECUTE →
          (current_target = .CURRENT_TARGET_UNDEFINED ∨ ses.is_trx_read_only = false) →
          qc_query_is_type (P.qc_get_type_mask pBuffer) QUERY_TYPE_BEGIN_TRX = true →
          (update_route_info P M H qc ses hs current_target pBuffer).2.1.m_trx_is_read_only
            = true)
      ∧ (mxs_mysql_get_command pBuffer = MXS_COM_QUERY →
          current_target ≠ .CURRENT_TARGET_UNDEFINED → ses.is_trx_read_only = true →
          (update_route_info P M H qc ses hs current_target pBuffer).1.m_type_mask
              = QUERY_TYPE_READ
            ∧ (ses.is_trx_ending = false →
                (update_route_info P M H qc ses hs current_target
                  pBuffer).2.1.m_trx_is_read_only = qc.m_trx_is_read_only))
      ∧ (ses.is_trx_ending = false →
          qc_query_is_type
            (update_route_info P M H qc ses hs current_target pBuffer).1.m_type_mask
            QUERY_TYPE_BEGIN_TRX = false →
          ses.is_trx_active = true →
          query_type_is_read_only qc
            (update_route_info P M H qc ses hs current_target pBuffer).1.m_type_mask = false →
          (update_route_info P M H qc ses hs current_target pBuffer).2.1.m_trx_is_read_only
            = false) := by
  have hflag := update_route_info_trx_flag P M H qc ses hs current_target pBuffer hload hlen
  refine ⟨fun _ _ => rfl, ?_, ?_, ?_, ?_, ?_⟩
  · intro hend
    rw [hflag]; simp [hend]
  · intro hbegin
    rw [hflag]; simp [hbegin]
  · intro hcmd hop hro hbegin
    rw [hflag]
    have hmask : qc_query_is_type
        (update_route_info P M H qc ses hs current_target pBuffer).1.m_type_mask
        QUERY_TYPE_BEGIN_TRX = true := by
      obtain ⟨-, hm, -, -, -, -, -⟩ := update_route_info_fields P M H qc ses hs
        current_target pBuffer hload hlen
      rw [hm]
      have hrob : (current_target != .CURRENT_TARGET_UNDEFINED && ses.is_trx_read_only)
          = false := by
        rcases hro with h | h
        · rw [h]; rfl
        · rw [h]; simp
      have hopb : (P.qc_get_operation pBuffer == qc_query_op_t.QUERY_OP_EXECUTE) = false := by
        simpa using hop
      have hps : qc_mysql_is_ps_command MXS_COM_QUERY = false := by decide
      have hstep : (update_route_info_target_step P M H qc ses hs current_target pBuffer).2.1
          = (update_route_info_mask_step P M H qc ses hs current_target pBuffer).1 := by
        unfold update_route_info_target_step update_route_info_target
        rw [hcmd]
        cases H.is_locked_to_master
          (update_route_info_mask_step P M H qc ses hs current_target pBuffer).2.2 <;>
          simp [hopb, hps]
      rw [hstep]
      unfold update_route_info_mask_step
      rw [hrob, hcmd]
      obtain ⟨a, b, hab⟩ := update_route_info_type_mask_shape P M H
        { qc with m_ps_continuation := false } ses hs current_target pBuffer MXS_COM_QUERY
      rw [hab]
      apply qc_query_is_type_or_left
      apply qc_query_is_type_or_left
      exact hbegin
    simp [hmask]
  · intro hcmd hct hro
    have hrob : (current_target != .CURRENT_TARGET_UNDEFINED && ses.is_trx_read_only)
        = true := by
      rw [hro]
      simpa using hct
    have hps : qc_mysql_is_ps_command MXS_COM_QUERY = false := by decide
    have hmask : (update_route_info P M H qc ses hs current_target pBuffer).1.m_type_mask
        = QUERY_TYPE_READ := by
      obtain ⟨-, hm, -, -, -, -, -⟩ := update_route_info_fields P M H qc ses hs
        current_target pBuffer hload hlen
      rw [hm]
      have hstep : (update_route_info_target_step P M H qc ses hs current_target pBuffer).2.1
          = (update_route_info_mask_step P M H qc ses hs current_target pBuffer).1 := by
        unfold update_route_info_target_step update_route_info_target
        rw [hcmd, hrob]
        cases H.is_locked_to_master
          (update_route_info_mask_step P M H qc ses hs current_target pBuffer).2.2 <;>
          simp [hps]
      rw [hstep]
      unfold update_route_info_mask_step update_route_info_type_mask
      rw [hrob]
      rfl
    refine ⟨hmask, ?_⟩
    intro hend
    rw [hflag, hmask]
    have h1 : qc_query_is_type QUERY_TYPE_READ QUERY_TYPE_BEGIN_TRX = false := by decide
    have h2 : query_type_is_read_only qc QUERY_TYPE_READ = true := by
      have b1 : qc_query_is_type QUERY_TYPE_READ QUERY_TYPE_MASTER_READ = false := by decide
      have b2 : qc_query_is_type QUERY_TYPE_READ QUERY_TYPE_WRITE = false := by decide
      have b3 : qc_query_is_type QUERY_TYPE_READ QUERY_TYPE_READ = true := by decide
      have b4 : qc_query_is_type QUERY_TYPE_READ QUERY_TYPE_USERVAR_READ = false := by decide
      simp [query_type_is_read_only, b1, b2, b3, b4]
    simp [hend, h1, h2]
  · intro hend hbegin hact hnro
    rw [hflag]; simp [hend, hbegin, hact, hnro]

/-- C17, amended, holds of a BEGIN classified when the flag is false, and of an
UPDATE classified inside an active transaction when the flag is true. -/
theorem C17_trx_read_only_flag_witness :
    qc_trx_written.m_trx_is_read_only = false
      ∧ (update_route_info parser_begin modutil_no_semicolon handler_unlocked qc_trx_written
          ses_in_trx () .CURRENT_TARGET_MASTER buf_begin).2.1.m_trx_is_read_only = true
      ∧ qc_master.m_trx_is_read_only = true
      ∧ (update_route_info parser_update modutil_no_semicolon handler_unlocked qc_master
          ses_in_trx () .CURRENT_TARGET_MASTER buf_select_1).2.1.m_trx_is_read_only = false :=
  ⟨rfl,
    (C17_trx_read_only_flag parser_begin modutil_no_semicolon handler_unlocked qc_trx_written
      ses_in_trx () .CURRENT_TARGET_MASTER buf_begin (by decide) (by decide)).2.2.2.1
      rfl (by decide) (Or.inr rfl) (by decide),
    rfl,
    (C17_trx_read_only_flag parser_update modutil_no_semicolon handler_unlocked qc_master
      ses_in_trx () .CURRENT_TARGET_MASTER buf_select_1 (by decide) (by decide)).2.2.2.2.2
      rfl (by decide) rfl (by decide)⟩

/-- One call of update_route_info, on any packet and in any load-data state,
keeps a false read-only flag false when the session does not report the
transaction as ending and the classified type mask has no BEGIN_TRX. -/
theorem update_route_info_flag_stays_false {σ : Type} (P : SqlParser) (M : Modutil)
    (H : Handler σ) (qc : QueryClassifier) (ses : MXS_SESSION) (hs : σ)
    (current_target : current_target_t) (pBuffer : GWBUF)
    (hend : ses.is_trx_ending = false)
    (hbegin : qc_query_is_type
      (update_route_info P M H qc ses hs current_target pBuffer).1.m_type_mask
      QUERY_TYPE_BEGIN_TRX = false)
    (hfalse : qc.m_trx_is_read_only = false) :
    (update_route_info P M H qc ses hs current_target pBuffer).2.1.m_trx_is_read_only
      = false := by
  by_cases hload : qc.m_load_data_state = .LOAD_DATA_ACTIVE
  · have hl : ∀ q : QueryClassifier,
        (update_route_info_load_data q pBuffer).m_trx_is_read_only = q.m_trx_is_read_only := by
      intro q
      unfold update_route_info_load_data
      simp only
      split <;> rfl
    unfold update_route_info
    simp only [hload, beq_self_eq_true, if_true, hl]
    exact hfalse
  · by_cases hlen : gwbuf_length pBuffer > MYSQL_HEADER_LEN
    · rw [update_route_info_trx_flag P M H qc ses hs current_target pBuffer hload hlen]
      simp [hend, hbegin, hfalse]
    · have h1 : ((qc.m_load_data_state == load_data_state_t.LOAD_DATA_ACTIVE) = true)
          = False := by simpa using hload
      unfold update_route_info
      simp only [h1, hlen, if_false]
      exact hfalse

/-- A prefix of a sequence of calls inside one transaction is inside one
transaction. -/
theorem inside_one_transaction_take {σ : Type} (P : SqlParser) (M : Modutil)
    (H : Handler σ) (calls : List Call) :
    ∀ (qc : QueryClassifier) (hs : σ) (n : Nat),
      inside_one_transaction P M H qc hs calls →
      inside_one_transaction P M H qc hs (calls.take n) := by
  induction calls with
  | nil => intro qc hs n h; simpa using h
  | cons c rest ih =>
    intro qc hs n h
    cases n with
    | zero => simp [inside_one_transaction]
    | succ k =>
      obtain ⟨h1, h2, h3⟩ := h
      exact ⟨h1, h2, ih _ _ k h3⟩

/-- A sequence of calls inside one transaction that starts with the read-only
flag false ends with it false. -/
theorem update_route_info_run_flag_stays_false {σ : Type} (P : SqlParser) (M : Modutil)
    (H : Handler σ) (calls : List Call) :
    ∀ (qc : QueryClassifier) (hs : σ),
      inside_one_transaction P M H qc hs calls →
      qc.m_trx_is_read_only = false →
      (update_route_info_run P M H qc hs calls).1.m_trx_is_read_only = false := by
  induction calls with
  | nil => intro qc hs _ hfalse; exact hfalse
  | cons c rest ih =>
    intro qc hs h hfalse
    obtain ⟨h1, h2, h3⟩ := h
    exact ih _ _ h3
      (update_route_info_flag_stays_false P M H qc c.ses hs c.current_target c.buffer h1 h2
        hfalse)

/-- C18: the read-only flag does not come back inside a transaction. Over
every sequence of update_route_info calls that lies inside one transaction (at
no call does the session report the transaction as ending and no classified
mask contains BEGIN_TRX), whatever the packets, the load-data state and the
other session facts are: once the flag m_trx_is_read_only is false, it is false
after every later call of the sequence. -/
theorem C18_trx_read_only_monotone {σ : Type} (P : SqlParser) (M : Modutil)
    (H : Handler σ) (qc : QueryClassifier) (hs : σ) (calls : List Call)
    (hinside : inside_one_transaction P M H qc hs calls)
    (hfalse : qc.m_trx_is_read_only = false) :
    ∀ n : Nat,
      (update_route_info_run P M H qc hs (calls.take n)).1.m_trx_is_read_only = false :=
  fun n => update_route_info_run_flag_stays_false P M H (calls.take n) qc hs
    (inside_one_transaction_take P M H calls qc hs n hinside) hfalse

/-- C18 holds of two SELECTs and an empty packet sent after the first write
of a transaction: the flag is still false after the three calls. -/
theorem C18_trx_read_only_monotone_witness :
    inside_one_transaction parser_select modutil_no_semicolon handler_unlocked
        qc_trx_written () calls_in_trx
      ∧ qc_trx_written.m_trx_is_read_only = false
      ∧ (update_route_info_run parser_select modutil_no_semicolon handler_unlocked
          qc_trx_written () (calls_in_trx.take 3)).1.m_trx_is_read_only = false :=
  ⟨by decide, rfl,
    C18_trx_read_only_monotone parser_select modutil_no_semicolon handler_unlocked
      qc_trx_written () calls_in_trx (by decide) rfl 3⟩

/-! ## Theorems: multi-statement detection -/

/-- C20: multi-statement detection is gated. For all string helpers,
check_for_multi_stmt is false when the client did not negotiate the
multi-statements capability, when the command is not COM_QUERY, and when the
SQL text (the payload after the command byte) holds no ';' byte. Whenever it is
false, handle_multi_temp_and_load asks to lock the session to primary (returns
CURRENT_TARGET_MASTER) exactly when the statement is a stored-procedure CALL (a
COM_QUERY whose operation is CALL) and the current target is not already
primary, and returns CURRENT_TARGET_UNDEFINED otherwise. -/
theorem C20_multi_stmt_detection_gated (P : SqlParser) (M : Modutil) (qc : QueryClassifier)
    (ses : MXS_SESSION) (current_target : current_target_t) (buf : GWBUF)
    (packet_type qtype : Nat) :
    (qc.m_multi_statements_allowed = false →
        check_for_multi_stmt M qc buf packet_type = false)
      ∧ (packet_type ≠ MXS_COM_QUERY → check_for_multi_stmt M qc buf packet_type = false)
      ∧ ((∀ c ∈ buf.data.drop 5, c ≠ 59) → check_for_multi_stmt M qc buf packet_type = false)
      ∧ (check_for_multi_stmt M qc buf packet_type = false →
          ((handle_multi_temp_and_load P M qc ses current_target buf packet_type qtype).1
              = .CURRENT_TARGET_MASTER
            ↔ (current_target ≠ .CURRENT_TARGET_MASTER
                ∧ packet_type = MXS_COM_QUERY ∧ P.qc_get_operation buf = .QUERY_OP_CALL))
          ∧ ((handle_multi_temp_and_load P M qc ses current_target buf packet_type qtype).1
              = .CURRENT_TARGET_MASTER
            ∨ (handle_multi_temp_and_load P M qc ses current_target buf packet_type qtype).1
              = .CURRENT_TARGET_UNDEFINED)) := by
  refine ⟨?_, ?_, ?_, ?_⟩
  · intro h
    simp [check_for_multi_stmt, h]
  · intro h
    have hb : (packet_type == MXS_COM_QUERY) = false := by simpa using h
    simp [check_for_multi_stmt, hb]
  · intro h
    have hsemi : ∀ len : Int, have_semicolon (buf.data.drop 5) len = false := by
      intro len
      unfold have_semicolon
      rw [Bool.eq_false_iff]
      intro hany
      rw [List.any_eq_true] at hany
      obtain ⟨c, hin, hc⟩ := hany
      exact h c (List.mem_of_mem_take hin) (by simpa using hc)
    unfold check_for_multi_stmt
    simp only [hsemi, Bool.false_eq_true, if_false, ite_self]
  · intro h
    unfold handle_multi_temp_and_load
    simp only [h, Bool.false_or, check_for_sp_call]
    constructor
    · by_cases hct : current_target = .CURRENT_TARGET_MASTER
      · simp [hct]
      · by_cases hq : packet_type = MXS_COM_QUERY
        · by_cases hop : P.qc_get_operation buf = .QUERY_OP_CALL
          · simp [hct, hq, hop]
          · simp [hct, hq, hop]
        · simp [hct, hq]
    · split
      · exact Or.inl rfl
      · exact Or.inr rfl

/-- C24: extract_ps_id decodes little-endian at offset 5. For every buffer of
at least 9 bytes, qc_mysql_extract_ps_id and its duplicate mysql_extract_ps_id
both return b[5] + b[6] * 2^8 + b[7] * 2^16 + b[8] * 2^24; when the four bytes
are bytes (below 256) the value fits the 32-bit result. -/
theorem C24_extract_ps_id_little_endian (buffer : GWBUF) (hlen : 9 ≤ buffer.data.length) :
    qc_mysql_extract_ps_id buffer
        = buffer.data.getD 5 0 + buffer.data.getD 6 0 * 2 ^ 8 + buffer.data.getD 7 0 * 2 ^ 16
            + buffer.data.getD 8 0 * 2 ^ 24
      ∧ mysql_extract_ps_id buffer
        = buffer.data.getD 5 0 + buffer.data.getD 6 0 * 2 ^ 8 + buffer.data.getD 7 0 * 2 ^ 16
            + buffer.data.getD 8 0 * 2 ^ 24
      ∧ (buffer.data.getD 5 0 < 256 → buffer.data.getD 6 0 < 256 →
          buffer.data.getD 7 0 < 256 → buffer.data.getD 8 0 < 256 →
          qc_mysql_extract_ps_id buffer < 2 ^ 32) := by
  have h1 := mysql_extract_ps_id_of_length buffer hlen
  have h2 : qc_mysql_extract_ps_id buffer = mysql_extract_ps_id buffer := rfl
  refine ⟨h2.trans h1, h1, ?_⟩
  intro h5 h6 h7 h8
  rw [h2, h1]
  omega

/-- C24 holds of the execute packet of statement 7 and of a packet with the id
bytes 0x78 0x56 0x34 0x12. -/
theorem C24_extract_ps_id_little_endian_witness :
    9 ≤ buf_stmt_execute_7.data.length
      ∧ qc_mysql_extract_ps_id buf_stmt_execute_7 = 7
      ∧ qc_mysql_extract_ps_id ⟨[5, 0, 0, 0, 0x19, 0x78, 0x56, 0x34, 0x12], []⟩ = 0x12345678 :=
  ⟨by decide,
    (C24_extract_ps_id_little_endian buf_stmt_execute_7 (by decide)).1.trans (by decide),
    (C24_extract_ps_id_little_endian ⟨[5, 0, 0, 0, 0x19, 0x78, 0x56, 0x34, 0x12], []⟩
      (by decide)).1.trans (by decide)⟩

/-- C29: query_continues_ps does not compare statement ids after long data.
When the previously classified command is COM_STMT_SEND_LONG_DATA and the new
command is COM_STMT_EXECUTE or COM_STMT_SEND_LONG_DATA, the result is true for
every statement id and every packet, so two runs that differ in the statement
id and in the packet give the same result. -/
theorem C29_continuation_ignores_statement_id (qc : QueryClassifier) (cmd : Nat)
    (hprev : qc.m_route_info.m_command = MXS_COM_STMT_SEND_LONG_DATA)
    (hcmd : cmd = MXS_COM_STMT_EXECUTE ∨ cmd = MXS_COM_STMT_SEND_LONG_DATA) :
    (∀ (stmt_id : Nat) (buffer : GWBUF), query_continues_ps qc cmd stmt_id buffer = true)
      ∧ ∀ (id1 id2 : Nat) (buffer1 buffer2 : GWBUF),
          query_continues_ps qc cmd id1 buffer1 = query_continues_ps qc cmd id2 buffer2 := by
  have key : ∀ (stmt_id : Nat) (buffer : GWBUF),
      query_continues_ps qc cmd stmt_id buffer = true := by
    intro stmt_id buffer
    unfold query_continues_ps
    rcases hcmd with h | h <;> simp [hprev, h]
  exact ⟨key, fun id1 id2 b1 b2 => (key id1 b1).trans (key id2 b2).symm⟩

/-- C29 holds after the long data of statement 7: the execute of statement 7
and an execute with another id and another packet both continue. -/
theorem C29_continuation_ignores_statement_id_witness :
    (update_route_info parser_select modutil_no_semicolon handler_unlocked qc_prepared
        ses_idle () .CURRENT_TARGET_MASTER buf_stmt_long_data_7).2.1.m_route_info.m_command
        = MXS_COM_STMT_SEND_LONG_DATA
      ∧ query_continues_ps
          (update_route_info parser_select modutil_no_semicolon handler_unlocked qc_prepared
            ses_idle () .CURRENT_TARGET_MASTER buf_stmt_long_data_7).2.1
          MXS_COM_STMT_EXECUTE 1 buf_stmt_execute_7
        = query_continues_ps
          (update_route_info parser_select modutil_no_semicolon handler_unlocked qc_prepared
            ses_idle () .CURRENT_TARGET_MASTER buf_stmt_long_data_7).2.1
          MXS_COM_STMT_EXECUTE 99 buf_stmt_execute_direct :=
  ⟨by decide,
    (C29_continuation_ignores_statement_id
      (update_route_info parser_select modutil_no_semicolon handler_unlocked qc_prepared
        ses_idle () .CURRENT_TARGET_MASTER buf_stmt_long_data_7).2.1
      MXS_COM_STMT_EXECUTE (by decide) (Or.inl rfl)).2 1 99 buf_stmt_execute_7
      buf_stmt_execute_direct⟩

/-! ## Theorems: the read-only recipe -/

/-- Bits OR-ed into a mask that share no bit with a type do not change whether
the mask contains the type. -/
theorem qc_query_is_type_or_disjoint (m x t : Nat) (h : x &&& t = 0) :
    qc_query_is_type (m ||| x) t = qc_query_is_type m t := by
  have heq : (m ||| x) &&& t = m &&& t := by
    apply Nat.eq_of_testBit_eq
    intro i
    have hi := congrArg (fun n => n.testBit i) h
    simp only [Nat.testBit_and, Nat.testBit_or, Nat.zero_testBit] at hi ⊢
    cases hm : m.testBit i <;> cases hx : x.testBit i <;> cases ht : t.testBit i <;>
      simp_all
  unfold qc_query_is_type
  rw [heq]

/-- C28: the read-only recipe. query_type_is_read_only is true if and only if
the mask contains neither MASTER_READ nor WRITE, contains at least one of READ,
SHOW_TABLES, SHOW_DATABASES, USERVAR_READ, SYSVAR_READ, GSYSVAR_READ, and either
does not contain USERVAR_READ or use_sql_variables_in = ALL. No other bit
influences the result: two masks that agree on these eight types give the same
result under the same setting, and OR-ing in SESSION_WRITE, BEGIN_TRX, COMMIT
or EXEC_STMT changes nothing. -/
theorem C28_read_only_recipe (qc : QueryClassifier) (mask : Nat) :
    (query_type_is_read_only qc mask = true ↔
        (qc_query_is_type mask QUERY_TYPE_MASTER_READ = false
          ∧ qc_query_is_type mask QUERY_TYPE_WRITE = false
          ∧ (qc_query_is_type mask QUERY_TYPE_READ = true
              ∨ qc_query_is_type mask QUERY_TYPE_SHOW_TABLES = true
              ∨ qc_query_is_type mask QUERY_TYPE_SHOW_DATABASES = true
              ∨ qc_query_is_type mask QUERY_TYPE_USERVAR_READ = true
              ∨ qc_query_is_type mask QUERY_TYPE_SYSVAR_READ = true
              ∨ qc_query_is_type mask QUERY_TYPE_GSYSVAR_READ = true)
          ∧ (qc_query_is_type mask QUERY_TYPE_USERVAR_READ = false
              ∨ qc.m_use_sql_variables_in = .TYPE_ALL)))
      ∧ (∀ (other : QueryClassifier) (mask2 : Nat),
          other.m_use_sql_variables_in = qc.m_use_sql_variables_in →
          (∀ t ∈ [QUERY_TYPE_MASTER_READ, QUERY_TYPE_WRITE, QUERY_TYPE_READ,
              QUERY_TYPE_SHOW_TABLES, QUERY_TYPE_SHOW_DATABASES, QUERY_TYPE_USERVAR_READ,
              QUERY_TYPE_SYSVAR_READ, QUERY_TYPE_GSYSVAR_READ],
            qc_query_is_type mask2 t = qc_query_is_type mask t) →
          query_type_is_read_only other mask2 = query_type_is_read_only qc mask)
      ∧ (∀ extra ∈ [QUERY_TYPE_SESSION_WRITE, QUERY_TYPE_BEGIN_TRX, QUERY_TYPE_COMMIT,
            QUERY_TYPE_EXEC_STMT],
          query_type_is_read_only qc (mask ||| extra) = query_type_is_read_only qc mask) := by
  have hagree : ∀ (other : QueryClassifier) (mask2 : Nat),
      other.m_use_sql_variables_in = qc.m_use_sql_variables_in →
      (∀ t ∈ [QUERY_TYPE_MASTER_READ, QUERY_TYPE_WRITE, QUERY_TYPE_READ,
          QUERY_TYPE_SHOW_TABLES, QUERY_TYPE_SHOW_DATABASES, QUERY_TYPE_USERVAR_READ,
          QUERY_TYPE_SYSVAR_READ, QUERY_TYPE_GSYSVAR_READ],
        qc_query_is_type mask2 t = qc_query_is_type mask t) →
      query_type_is_read_only other mask2 = query_type_is_read_only qc mask := by
    intro other mask2 hu ht
    unfold query_type_is_read_only
    rw [hu, ht _ (by simp), ht QUERY_TYPE_WRITE (by simp), ht QUERY_TYPE_READ (by simp),
      ht QUERY_TYPE_SHOW_TABLES (by simp), ht QUERY_TYPE_SHOW_DATABASES (by simp),
      ht QUERY_TYPE_USERVAR_READ (by simp), ht QUERY_TYPE_SYSVAR_READ (by simp),
      ht QUERY_TYPE_GSYSVAR_READ (by simp)]
  refine ⟨?_, hagree, ?_⟩
  · unfold query_type_is_read_only
    cases qc_query_is_type mask QUERY_TYPE_MASTER_READ <;>
    cases qc_query_is_type mask QUERY_TYPE_WRITE <;>
    cases qc_query_is_type mask QUERY_TYPE_READ <;>
    cases qc_query_is_type mask QUERY_TYPE_SHOW_TABLES <;>
    cases qc_query_is_type mask QUERY_TYPE_SHOW_DATABASES <;>
    cases qc_query_is_type mask QUERY_TYPE_USERVAR_READ <;>
    cases qc_query_is_type mask QUERY_TYPE_SYSVAR_READ <;>
    cases qc_query_is_type mask QUERY_TYPE_GSYSVAR_READ <;>
    cases qc.m_use_sql_variables_in <;> simp
  · intro extra hextra
    apply hagree qc (mask ||| extra) rfl
    intro t ht
    apply qc_query_is_type_or_disjoint
    simp only [List.mem_cons, List.mem_singleton, List.mem_nil_iff, or_false] at hextra ht
    rcases hextra with h | h | h | h <;> subst h <;>
      rcases ht with h | h | h | h | h | h | h | h <;> subst h <;> decide

/-! ## Theorems: LOAD DATA and empty packets -/

/-- C23, as stated, fails where the byte counter wraps: load_data_sent is a
64-bit counter, and on a classifier that has counted 2^64 - 1 bytes a packet of
7 bytes leaves it at 6, which is not 2^64 - 1 + 7 and is less than before. -/
theorem C23_load_data_sent_counterexample :
    qc_loading_wrap.m_load_data_state = .LOAD_DATA_ACTIVE
      ∧ qc_loading_wrap.m_load_data_sent = 2 ^ 64 - 1
      ∧ gwbuf_length buf_load_data_chunk = 7
      ∧ (update_route_info parser_select modutil_no_semicolon handler_unlocked qc_loading_wrap
          ses_idle () .CURRENT_TARGET_MASTER buf_load_data_chunk).2.1.m_load_data_sent = 6
      ∧ (update_route_info parser_select modutil_no_semicolon handler_unlocked qc_loading_wrap
          ses_idle () .CURRENT_TARGET_MASTER buf_load_data_chunk).2.1.m_load_data_sent
        ≠ qc_loading_wrap.m_load_data_sent + gwbuf_length buf_load_data_chunk
      ∧ (update_route_info parser_select modutil_no_semicolon handler_unlocked qc_loading_wrap
          ses_idle () .CURRENT_TARGET_MASTER buf_load_data_chunk).2.1.m_load_data_sent
        < qc_loading_wrap.m_load_data_sent := by
  decide

/-- C23, amended: the relay of LOAD DATA LOCAL INFILE. While the load-data
state is ACTIVE, update_route_info on every packet returns the route target
PRIMARY with command 0xFF, type mask UNKNOWN and statement id 0, without
classifying the packet: the parser and the string helpers are not consulted and
the handler, the temporary tables and the read-only flag stay as they are. The
state stays ACTIVE after every packet whose length is not that of the header
and becomes LOAD_DATA_END exactly when the packet is empty (length 4).
load_data_sent, a 64-bit counter, grows by the length of the packet modulo
2^64: it becomes (old + length) mod 2^64, which is old + length whenever that
is below 2^64. -/
theorem C23_load_data_relay {σ : Type} (P : SqlParser) (M : Modutil)
    (H : Handler σ) (qc : QueryClassifier) (ses : MXS_SESSION) (hs : σ)
    (current_target : current_target_t) (pBuffer : GWBUF)
    (hactive : qc.m_load_data_state = .LOAD_DATA_ACTIVE) :
    (update_route_info P M H qc ses hs current_target pBuffer).1
        = { m_target := TARGET_MASTER, m_command := 0xFF,
            m_type_mask := QUERY_TYPE_UNKNOWN, m_stmt_id := 0 }
      ∧ (gwbuf_length pBuffer ≠ MYSQL_HEADER_LEN →
          (update_route_info P M H qc ses hs current_target pBuffer).2.1.m_load_data_state
            = .LOAD_DATA_ACTIVE)
      ∧ ((update_route_info P M H qc ses hs current_target pBuffer).2.1.m_load_data_state
            = .LOAD_DATA_END ↔ gwbuf_length pBuffer = MYSQL_HEADER_LEN)
      ∧ (update_route_info P M H qc ses hs current_target pBuffer).2.1.m_load_data_sent
          = (qc.m_load_data_sent + gwbuf_length pBuffer) % 2 ^ 64
      ∧ (qc.m_load_data_sent + gwbuf_length pBuffer < 2 ^ 64 →
          (update_route_info P M H qc ses hs current_target pBuffer).2.1.m_load_data_sent
            = qc.m_load_data_sent + gwbuf_length pBuffer)
      ∧ (update_route_info P M H qc ses hs current_target pBuffer).2.2 = hs
      ∧ (update_route_info P M H qc ses hs current_target pBuffer).2.1.m_tmp_tables
          = qc.m_tmp_tables
      ∧ (update_route_info P M H qc ses hs current_target pBuffer).2.1.m_trx_is_read_only
          = qc.m_trx_is_read_only
      ∧ ∀ (P2 : SqlParser) (M2 : Modutil),
          update_route_info P2 M2 H qc ses hs current_target pBuffer
            = update_route_info P M H qc ses hs current_target pBuffer := by
  have hr : ∀ (P2 : SqlParser) (M2 : Modutil),
      update_route_info P2 M2 H qc ses hs current_target pBuffer
        = ((⟨TARGET_MASTER, 0xFF, QUERY_TYPE_UNKNOWN, 0⟩ : RouteInfo),
            { update_route_info_load_data { qc with m_ps_continuation := false } pBuffer with
              m_route_info := ⟨TARGET_MASTER, 0xFF, QUERY_TYPE_UNKNOWN, 0⟩ }, hs) := by
    intro P2 M2
    unfold update_route_info
    simp only [hactive, beq_self_eq_true, if_true]
  have hsent : (update_route_info_load_data { qc with m_ps_continuation := false }
      pBuffer).m_load_data_sent = (qc.m_load_data_sent + gwbuf_length pBuffer) % 2 ^ 64 := by
    simp only [update_route_info_load_data]
    split <;> rfl
  rw [hr P M]
  refine ⟨rfl, ?_, ?_, hsent, ?_, rfl, ?_, ?_, fun P2 M2 => hr P2 M2⟩
  · intro hne
    have hb : (gwbuf_length pBuffer == MYSQL_HEADER_LEN) = false := by simpa using hne
    simp [update_route_info_load_data, hb, hactive]
  · by_cases hlen : gwbuf_length pBuffer = MYSQL_HEADER_LEN
    · simp [update_route_info_load_data, hlen]
    · have hb : (gwbuf_length pBuffer == MYSQL_HEADER_LEN) = false := by simpa using hlen
      simp [update_route_info_load_data, hb, hactive, hlen]
  · intro hlt
    exact hsent.trans (Nat.mod_eq_of_lt hlt)
  · simp only [update_route_info_load_data]
    split <;> rfl
  · simp only [update_route_info_load_data]
    split <;> rfl

/-- C23, amended, holds of a packet of file data and of the empty packet that
ends the load: both get the default route, the first leaves the state ACTIVE
and adds 7 bytes to the 100 counted, the second makes it LOAD_DATA_END. -/
theorem C23_load_data_relay_witness :
    qc_loading.m_load_data_state = .LOAD_DATA_ACTIVE
      ∧ (update_route_info parser_select modutil_no_semicolon handler_unlocked qc_loading
          ses_idle () .CURRENT_TARGET_MASTER buf_load_data_chunk).1.m_target = TARGET_MASTER
      ∧ (update_route_info parser_select modutil_no_semicolon handler_unlocked qc_loading
          ses_idle () .CURRENT_TARGET_MASTER buf_load_data_chunk).2.1.m_load_data_sent
        = 100 + 7
      ∧ (update_route_info parser_select modutil_no_semicolon handler_unlocked qc_loading
          ses_idle () .CURRENT_TARGET_MASTER buf_empty).2.1.m_load_data_state
            = .LOAD_DATA_END :=
  ⟨rfl,
    congrArg RouteInfo.m_target
      (C23_load_data_relay parser_select modutil_no_semicolon handler_unlocked qc_loading
        ses_idle () .CURRENT_TARGET_MASTER buf_load_data_chunk rfl).1,
    (C23_load_data_relay parser_select modutil_no_semicolon handler_unlocked qc_loading
      ses_idle () .CURRENT_TARGET_MASTER buf_load_data_chunk rfl).2.2.2.2.1 (by decide),
    (C23_load_data_relay parser_select modutil_no_semicolon handler_unlocked qc_loading
      ses_idle () .CURRENT_TARGET_MASTER buf_empty rfl).2.2.1.mpr rfl⟩

/-- C25, as stated, fails: update_route_info has no failure outcome. On the
empty packet (length 4), load data inactive, it returns a route: target
PRIMARY, command 0xFF, type mask UNKNOWN, statement id 0. -/
theorem C25_empty_packet_counterexample :
    gwbuf_length buf_empty = MYSQL_HEADER_LEN
      ∧ qc_master.m_load_data_state = .LOAD_DATA_INACTIVE
      ∧ (update_route_info parser_select modutil_no_semicolon handler_unlocked qc_master
          ses_idle () .CURRENT_TARGET_UNDEFINED buf_empty).1
          = { m_target := TARGET_MASTER, m_command := 0xFF,
              m_type_mask := QUERY_TYPE_UNKNOWN, m_stmt_id := 0 } := by
  decide

/-- C25, amended: an empty payload is not classified. On a packet whose
payload is empty (total length equal to the 4-byte header), load data not
active, update_route_info does not fail: it returns the default route info,
target PRIMARY with command 0xFF, type mask UNKNOWN and statement id 0,
without consulting the parser, and leaves the handler, the load-data state,
the temporary tables and the read-only flag as they are. -/
theorem C25_empty_packet_default_route {σ : Type} (P : SqlParser) (M : Modutil)
    (H : Handler σ) (qc : QueryClassifier) (ses : MXS_SESSION) (hs : σ)
    (current_target : current_target_t) (pBuffer : GWBUF)
    (hload : qc.m_load_data_state ≠ .LOAD_DATA_ACTIVE)
    (hlen : gwbuf_length pBuffer = MYSQL_HEADER_LEN) :
    (update_route_info P M H qc ses hs current_target pBuffer).1
        = { m_target := TARGET_MASTER, m_command := 0xFF,
            m_type_mask := QUERY_TYPE_UNKNOWN, m_stmt_id := 0 }
      ∧ (update_route_info P M H qc ses hs current_target pBuffer).2.2 = hs
      ∧ (update_route_info P M H qc ses hs current_target pBuffer).2.1.m_load_data_state
          = qc.m_load_data_state
      ∧ (update_route_info P M H qc ses hs current_target pBuffer).2.1.m_tmp_tables
          = qc.m_tmp_tables
      ∧ (update_route_info P M H qc ses hs current_target pBuffer).2.1.m_trx_is_read_only
          = qc.m_trx_is_read_only
      ∧ ∀ (P2 : SqlParser) (M2 : Modutil),
          update_route_info P2 M2 H qc ses hs current_target pBuffer
            = update_route_info P M H qc ses hs current_target pBuffer := by
  have h1 : ((qc.m_load_data_state == load_data_state_t.LOAD_DATA_ACTIVE) = true) = False := by
    simpa using hload
  have h2 : ¬ gwbuf_length pBuffer > MYSQL_HEADER_LEN := by omega
  have hr : ∀ (P2 : SqlParser) (M2 : Modutil),
      update_route_info P2 M2 H qc ses hs current_target pBuffer
        = ((⟨TARGET_MASTER, 0xFF, QUERY_TYPE_UNKNOWN, 0⟩ : RouteInfo),
            { qc with
              m_ps_continuation := false
              m_route_info := ⟨TARGET_MASTER, 0xFF, QUERY_TYPE_UNKNOWN, 0⟩ }, hs) := by
    intro P2 M2
    unfold update_route_info
    simp only [h1, h2, if_false]
  rw [hr P M]
  exact ⟨rfl, rfl, rfl, rfl, rfl, fun P2 M2 => hr P2 M2⟩

/-- C25 amended holds of the empty packet on a fresh classifier. -/
theorem C25_empty_packet_default_route_witness :
    qc_master.m_load_data_state ≠ .LOAD_DATA_ACTIVE
      ∧ gwbuf_length buf_empty = MYSQL_HEADER_LEN
      ∧ (update_route_info parser_select modutil_no_semicolon handler_unlocked qc_master
          ses_idle () .CURRENT_TARGET_UNDEFINED buf_empty).1.m_target = TARGET_MASTER :=
  ⟨by decide, rfl,
    congrArg RouteInfo.m_target
      (C25_empty_packet_default_route parser_select modutil_no_semicolon handler_unlocked
        qc_master ses_idle () .CURRENT_TARGET_UNDEFINED buf_empty (by decide) rfl).1⟩

/-! ## Theorems: temporary tables -/

/-- C21: the registration of a temporary table. After check_create_tmp_table
has processed a statement whose type mask contains CREATE_TMP_TABLE and whose
first table name, the created table, is t: the table is a member of
tmp_tables, stored as current_db + "." + t when t contains no '.', and as t
when it is already qualified; have_tmp_tables is true; the members there were
are members still. For a mask without CREATE_TMP_TABLE the classifier, and so
the set and the flag, is unchanged. -/
theorem C21_create_tmp_table_registers (P : SqlParser) (qc : QueryClassifier)
    (ses : MXS_SESSION) (querybuf : GWBUF) (type : Nat) :
    (qc_query_is_type type QUERY_TYPE_CREATE_TMP_TABLE = true →
        ∀ (t : String) (rest : List String), P.qc_get_table_names querybuf = t :: rest →
          (t.toList.contains '.' = false →
              (ses.current_db ++ "." ++ t)
                ∈ (check_create_tmp_table P qc ses querybuf type).m_tmp_tables)
            ∧ (t.toList.contains '.' = true →
                t ∈ (check_create_tmp_table P qc ses querybuf type).m_tmp_tables)
            ∧ (check_create_tmp_table P qc ses querybuf type).m_have_tmp_tables = true
            ∧ ∀ x ∈ qc.m_tmp_tables,
                x ∈ (check_create_tmp_table P qc ses querybuf type).m_tmp_tables)
      ∧ (qc_query_is_type type QUERY_TYPE_CREATE_TMP_TABLE = false →
          check_create_tmp_table P qc ses querybuf type = qc) := by
  constructor
  · intro hcreate t rest hnames
    have hmem : qualified_table ses t
        ∈ (check_create_tmp_table P qc ses querybuf type).m_tmp_tables := by
      unfold check_create_tmp_table add_tmp_table
      simp only [hcreate, if_true, hnames]
      split
      · assumption
      · exact List.mem_cons_self _ _
    refine ⟨?_, ?_, ?_, ?_⟩
    · intro hdot
      have hq : qualified_table ses t = ses.current_db ++ "." ++ t := by
        unfold qualified_table; rw [hdot]; rfl
      rw [hq] at hmem; exact hmem
    · intro hdot
      have hq : qualified_table ses t = t := by
        unfold qualified_table; rw [hdot]; rfl
      rw [hq] at hmem; exact hmem
    · unfold check_create_tmp_table add_tmp_table
      simp only [hcreate, if_true]
      split <;> rfl
    · intro x hx
      unfold check_create_tmp_table add_tmp_table
      simp only [hcreate, if_true]
      split
      · exact hx
      · exact List.mem_cons_of_mem _ hx
  · intro hcreate
    simp [check_create_tmp_table, hcreate]

/-- C21 holds of CREATE TEMPORARY TABLE t1 under the current database test:
test.t1 is registered and the flag is set. -/
theorem C21_create_tmp_table_registers_witness :
    qc_query_is_type (QUERY_TYPE_WRITE ||| QUERY_TYPE_CREATE_TMP_TABLE)
        QUERY_TYPE_CREATE_TMP_TABLE = true
      ∧ "test.t1" ∈ (check_create_tmp_table parser_create_tmp qc_master ses_idle buf_select_1
          (QUERY_TYPE_WRITE ||| QUERY_TYPE_CREATE_TMP_TABLE)).m_tmp_tables
      ∧ (check_create_tmp_table parser_create_tmp qc_master ses_idle buf_select_1
          (QUERY_TYPE_WRITE ||| QUERY_TYPE_CREATE_TMP_TABLE)).m_have_tmp_tables = true :=
  ⟨by decide,
    ((C21_create_tmp_table_registers parser_create_tmp qc_master ses_idle buf_select_1
      (QUERY_TYPE_WRITE ||| QUERY_TYPE_CREATE_TMP_TABLE)).1 (by decide) "t1" [] rfl).1
      (by decide),
    ((C21_create_tmp_table_registers parser_create_tmp qc_master ses_idle buf_select_1
      (QUERY_TYPE_WRITE ||| QUERY_TYPE_CREATE_TMP_TABLE)).1 (by decide) "t1" [] rfl).2.2.1⟩

/-- The set of temporary tables after foreach_table has applied delete_table
to a list of names: the members that are none of the qualified names. -/
theorem foreach_table_loop_delete_mem (ses : MXS_SESSION) (names : List String) :
    ∀ (qc : QueryClassifier) (x : String),
      x ∈ (foreach_table_loop ses delete_table names qc).2.m_tmp_tables
        ↔ x ∈ qc.m_tmp_tables ∧ ∀ t ∈ names, qualified_table ses t ≠ x := by
  induction names with
  | nil => intro qc x; simp [foreach_table_loop]
  | cons t rest ih =>
    intro qc x
    simp only [foreach_table_loop, delete_table]
    rw [ih]
    simp only [remove_tmp_table, List.mem_filter, bne_iff_ne, ne_eq, List.mem_cons,
      forall_eq_or_imp]
    constructor
    · rintro ⟨⟨h1, h2⟩, h3⟩
      exact ⟨h1, fun h => h2 h.symm, h3⟩
    · rintro ⟨h1, h2, h3⟩
      exact ⟨⟨h1, fun h => h2 h.symm⟩, h3⟩

/-- C22: the removal of temporary tables. After check_drop_tmp_table has
processed a DROP TABLE statement, every table it names, qualified with the
current database when the name contains no '.', is absent from tmp_tables, and
every other string is a member exactly when it was one before; for a statement
that is not a DROP TABLE the classifier is unchanged. In particular, after
creating the temporary table t and then dropping t under the same session the
qualified t is not a member. -/
theorem C22_drop_tmp_table_removes (P : SqlParser) (qc : QueryClassifier)
    (ses : MXS_SESSION) (querybuf : GWBUF) :
    (P.qc_is_drop_table_query querybuf = true →
        (∀ t ∈ P.qc_get_table_names querybuf,
            qualified_table ses t ∉ (check_drop_tmp_table P qc ses querybuf).m_tmp_tables)
          ∧ (∀ x : String, (∀ t ∈ P.qc_get_table_names querybuf, qualified_table ses t ≠ x) →
              (x ∈ (check_drop_tmp_table P qc ses querybuf).m_tmp_tables
                ↔ x ∈ qc.m_tmp_tables)))
      ∧ (P.qc_is_drop_table_query querybuf = false →
          check_drop_tmp_table P qc ses querybuf = qc)
      ∧ (∀ (create : GWBUF) (type : Nat) (t : String),
          P.qc_is_drop_table_query querybuf = true →
          t ∈ P.qc_get_table_names querybuf →
          qualified_table ses t ∉ (check_drop_tmp_table P
            (check_create_tmp_table P qc ses create type) ses querybuf).m_tmp_tables) := by
  have key : ∀ q : QueryClassifier, P.qc_is_drop_table_query querybuf = true →
      ∀ x : String, x ∈ (check_drop_tmp_table P q ses querybuf).m_tmp_tables
        ↔ x ∈ q.m_tmp_tables ∧ ∀ t ∈ P.qc_get_table_names querybuf,
            qualified_table ses t ≠ x := by
    intro q hdrop x
    unfold check_drop_tmp_table foreach_table
    simp only [hdrop, if_true]
    exact foreach_table_loop_delete_mem ses _ q x
  refine ⟨?_, ?_, ?_⟩
  · intro hdrop
    constructor
    · intro t ht hmem
      exact ((key qc hdrop _).mp hmem).2 t ht rfl
    · intro x hx
      rw [key qc hdrop x]
      exact ⟨fun h => h.1, fun h => ⟨h, hx⟩⟩
  · intro hdrop
    simp [check_drop_tmp_table, hdrop]
  · intro create type t hdrop ht hmem
    exact ((key _ hdrop _).mp hmem).2 t ht rfl

/-- C22 holds of DROP TABLE t1 under the current database test: test.t1 is
removed and other.t2 stays. -/
theorem C22_drop_tmp_table_removes_witness :
    parser_drop.qc_is_drop_table_query buf_select_1 = true
      ∧ "test.t1" ∈ qc_tmp_tables.m_tmp_tables
      ∧ "test.t1" ∉ (check_drop_tmp_table parser_drop qc_tmp_tables ses_idle
          buf_select_1).m_tmp_tables
      ∧ "other.t2" ∈ (check_drop_tmp_table parser_drop qc_tmp_tables ses_idle
          buf_select_1).m_tmp_tables :=
  ⟨rfl, by decide,
    ((C22_drop_tmp_table_removes parser_drop qc_tmp_tables ses_idle buf_select_1).1 rfl).1
      "t1" (by decide),
    (((C22_drop_tmp_table_removes parser_drop qc_tmp_tables ses_idle buf_select_1).1 rfl).2
      "other.t2" (by decide)).mpr (by decide)⟩

/-- The result of foreach_table with find_table: false exactly when one of the
qualified names is a temporary table. -/
theorem foreach_table_loop_find (ses : MXS_SESSION) (qc : QueryClassifier)
    (names : List String) :
    (foreach_table_loop ses find_table names qc).1
      = !(names.any (fun t => is_tmp_table qc (qualified_table ses t))) := by
  induction names with
  | nil => simp [foreach_table_loop]
  | cons t rest ih =>
    simp only [foreach_table_loop, find_table, List.any_cons]
    cases h : is_tmp_table qc (qualified_table ses t)
    · simpa using ih
    · simp

/-- A mask that contains MASTER_READ is not strictly read-only. -/
theorem query_type_is_read_only_of_master_read (qc : QueryClassifier) (qtype : Nat)
    (h : qc_query_is_type qtype QUERY_TYPE_MASTER_READ = true) :
    query_type_is_read_only qc qtype = false := by
  simp [query_type_is_read_only, h]

/-- Outside a read-only transaction get_route_target does not return REPLICA
for a mask that contains MASTER_READ. -/
theorem get_route_target_of_master_read (qc : QueryClassifier) (ses : MXS_SESSION)
    (command qtype : Nat)
    (h : qc_query_is_type qtype QUERY_TYPE_MASTER_READ = true)
    (hro : ses.is_trx_read_only = false) :
    get_route_target qc ses command qtype ≠ TARGET_SLAVE := by
  have hnro := query_type_is_read_only_of_master_read qc qtype h
  unfold get_route_target
  simp only [hnro, hro, Bool.and_false, Bool.false_eq_true, if_false]
  split
  · decide
  · split
    · split <;> decide
    · decide

/-- The constructor leaves no temporary table, and update_route_info keeps the
state of the temporary tables consistent: the flag is set whenever the set has
a member. -/
theorem update_route_info_tmp_tables_flagged {σ : Type} (P : SqlParser) (M : Modutil)
    (H : Handler σ) (qc : QueryClassifier) (ses : MXS_SESSION) (hs : σ)
    (current_target : current_target_t) (pBuffer : GWBUF)
    (hinv : tmp_tables_flagged qc) :
    (∀ (u : mxs_target_t) (multi : Bool), tmp_tables_flagged (QueryClassifier.init u multi))
      ∧ tmp_tables_flagged (update_route_info P M H qc ses hs current_target pBuffer).2.1 := by
  refine ⟨fun u multi h => absurd rfl h, ?_⟩
  have hloop : ∀ (l : List String) (q : QueryClassifier),
      (foreach_table_loop ses delete_table l q).2.m_have_tmp_tables = q.m_have_tmp_tables := by
    intro l
    induction l with
    | nil => intro q; rfl
    | cons t rest ih =>
      intro q
      simp only [foreach_table_loop, delete_table]
      exact ih _
  have hdrop : ∀ q : QueryClassifier, tmp_tables_flagged q →
      tmp_tables_flagged (check_drop_tmp_table P q ses pBuffer) := by
    intro q hq
    unfold check_drop_tmp_table foreach_table
    split
    · intro hne
      rw [hloop]
      apply hq
      intro hnil
      apply hne
      apply List.eq_nil_iff_forall_not_mem.mpr
      intro x hx
      have := ((foreach_table_loop_delete_mem ses _ q x).mp hx).1
      rw [hnil] at this
      cases this
    · exact hq
  have hcreate : ∀ (q : QueryClassifier) (ty : Nat), tmp_tables_flagged q →
      tmp_tables_flagged (check_create_tmp_table P q ses pBuffer ty) := by
    intro q ty hq
    unfold check_create_tmp_table add_tmp_table
    split
    · simp only
      split <;> exact fun _ => rfl
    · exact hq
  have hmulti : ∀ (q : QueryClassifier) (ty : Nat), tmp_tables_flagged q →
      tmp_tables_flagged
        (handle_multi_temp_and_load P M q ses current_target pBuffer
          (mxs_mysql_get_command pBuffer) ty).2.2 := by
    intro q ty hq
    unfold handle_multi_temp_and_load
    simp only
    apply hcreate
    split
    · exact hdrop q hq
    · exact hq
  have hq0 : tmp_tables_flagged { qc with m_ps_continuation := false } := hinv
  have hstep : ∀ ro : Bool, tmp_tables_flagged
      (update_route_info_type_mask P M H { qc with m_ps_continuation := false } ses hs
        current_target pBuffer (mxs_mysql_get_command pBuffer) ro).2.1 := by
    intro ro
    unfold update_route_info_type_mask
    split
    · exact hq0
    · simp only
      split
      · split <;> exact hmulti _ _ hq0
      · exact hmulti _ _ hq0
  unfold update_route_info
  simp only
  split
  · have hl : tmp_tables_flagged
        (update_route_info_load_data { qc with m_ps_continuation := false } pBuffer) := by
      unfold update_route_info_load_data
      simp only
      split <;> exact hinv
    exact hl
  · split
    · exact hstep _
    · exact hinv

/-- C27: reads of temporary tables go to the primary. In a classifier whose
temporary-table state is consistent, for a COM_QUERY that is not a DROP TABLE,
whose type mask contains READ, LOCAL_READ, USERVAR_READ, SYSVAR_READ or
GSYSVAR_READ and one of whose tables, qualified with the current database, is
a member of tmp_tables, handle_multi_temp_and_load returns the mask with
MASTER_READ OR-ed in, so that for a session that reports no read-only
transaction get_route_target does not return REPLICA for it, whatever the
command and the classifier; when no named table is in tmp_tables the mask is
returned as it was. -/
theorem C27_read_of_tmp_table_to_primary (P : SqlParser) (M : Modutil)
    (qc : QueryClassifier) (ses : MXS_SESSION) (current_target : current_target_t)
    (querybuf : GWBUF) (qtype : Nat)
    (hinv : tmp_tables_flagged qc) :
    (P.qc_is_drop_table_query querybuf = false →
        (qc_query_is_type qtype QUERY_TYPE_READ = true
          ∨ qc_query_is_type qtype QUERY_TYPE_LOCAL_READ = true
          ∨ qc_query_is_type qtype QUERY_TYPE_USERVAR_READ = true
          ∨ qc_query_is_type qtype QUERY_TYPE_SYSVAR_READ = true
          ∨ qc_query_is_type qtype QUERY_TYPE_GSYSVAR_READ = true) →
        (∃ t ∈ P.qc_get_table_names querybuf, qualified_table ses t ∈ qc.m_tmp_tables) →
        (handle_multi_temp_and_load P M qc ses current_target querybuf MXS_COM_QUERY
            qtype).2.1 = qtype ||| QUERY_TYPE_MASTER_READ
          ∧ ∀ (other : QueryClassifier) (s : MXS_SESSION) (command : Nat),
              s.is_trx_read_only = false →
              get_route_target other s command
                (handle_multi_temp_and_load P M qc ses current_target querybuf MXS_COM_QUERY
                  qtype).2.1 ≠ TARGET_SLAVE)
      ∧ ((∀ t ∈ P.qc_get_table_names querybuf, qualified_table ses t ∉ qc.m_tmp_tables) →
          (handle_multi_temp_and_load P M qc ses current_target querybuf MXS_COM_QUERY
            qtype).2.1 = qtype) := by
  constructor
  · intro hdrop hread htmp
    obtain ⟨t, ht, hmem⟩ := htmp
    have hflag : qc.m_have_tmp_tables = true := hinv (List.ne_nil_of_mem hmem)
    have hq : is_packet_a_query MXS_COM_QUERY = true := by decide
    have hqc1 : check_drop_tmp_table P qc ses querybuf = qc := by
      simp [check_drop_tmp_table, hdrop]
    have hbits : (qc_query_is_type qtype QUERY_TYPE_READ
        || qc_query_is_type qtype QUERY_TYPE_LOCAL_READ
        || qc_query_is_type qtype QUERY_TYPE_USERVAR_READ
        || qc_query_is_type qtype QUERY_TYPE_SYSVAR_READ
        || qc_query_is_type qtype QUERY_TYPE_GSYSVAR_READ) = true := by
      rcases hread with h | h | h | h | h <;> simp [h]
    have hany : (P.qc_get_table_names querybuf).any
        (fun t => is_tmp_table qc (qualified_table ses t)) = true := by
      rw [List.any_eq_true]
      exact ⟨t, ht, by simpa [is_tmp_table] using hmem⟩
    have hisread : is_read_tmp_table P qc ses querybuf qtype = true := by
      unfold is_read_tmp_table foreach_table
      rw [hbits, foreach_table_loop_find, hany]
      rfl
    have hmask : (handle_multi_temp_and_load P M qc ses current_target querybuf MXS_COM_QUERY
        qtype).2.1 = qtype ||| QUERY_TYPE_MASTER_READ := by
      unfold handle_multi_temp_and_load
      simp only [hflag, hq, Bool.and_self, if_true, hqc1, hisread]
    refine ⟨hmask, ?_⟩
    intro other s command hro
    rw [hmask]
    exact get_route_target_of_master_read other s command _ (qc_query_is_type_or_self _ _) hro
  · intro hnone
    have hsub : ∀ x, x ∈ (check_drop_tmp_table P qc ses querybuf).m_tmp_tables →
        x ∈ qc.m_tmp_tables := by
      intro x hx
      unfold check_drop_tmp_table foreach_table at hx
      split at hx
      · exact ((foreach_table_loop_delete_mem ses _ qc x).mp hx).1
      · exact hx
    have hnotread : ∀ q : QueryClassifier, (∀ x, x ∈ q.m_tmp_tables → x ∈ qc.m_tmp_tables) →
        is_read_tmp_table P q ses querybuf qtype = false := by
      intro q hq
      have hany : (P.qc_get_table_names querybuf).any
          (fun t => is_tmp_table q (qualified_table ses t)) = false := by
        rw [Bool.eq_false_iff]
        intro h
        rw [List.any_eq_true] at h
        obtain ⟨t, ht, hm⟩ := h
        exact hnone t ht (hq _ (by simpa [is_tmp_table] using hm))
      unfold is_read_tmp_table foreach_table
      rw [foreach_table_loop_find, hany]
      simp
    have hq1 : ∀ x, x ∈ (if (qc.m_have_tmp_tables && is_packet_a_query MXS_COM_QUERY) = true
        then check_drop_tmp_table P qc ses querybuf else qc).m_tmp_tables →
        x ∈ qc.m_tmp_tables := by
      split
      · exact hsub
      · exact fun x h => h
    unfold handle_multi_temp_and_load
    simp only [hnotread _ hq1, Bool.and_false, Bool.false_eq_true, if_false]

/-- C27 holds of SELECT * FROM t1 while test.t1 is a temporary table: the mask
READ becomes READ | MASTER_READ and the target outside a transaction is not
REPLICA. -/
theorem C27_read_of_tmp_table_to_primary_witness :
    tmp_tables_flagged qc_tmp_tables
      ∧ (handle_multi_temp_and_load parser_select_t1 modutil_no_semicolon qc_tmp_tables
          ses_idle .CURRENT_TARGET_UNDEFINED buf_select_1 MXS_COM_QUERY QUERY_TYPE_READ).2.1
          = QUERY_TYPE_READ ||| QUERY_TYPE_MASTER_READ
      ∧ get_route_target qc_tmp_tables ses_idle MXS_COM_QUERY
          (handle_multi_temp_and_load parser_select_t1 modutil_no_semicolon qc_tmp_tables
            ses_idle .CURRENT_TARGET_UNDEFINED buf_select_1 MXS_COM_QUERY QUERY_TYPE_READ).2.1
          ≠ TARGET_SLAVE :=
  ⟨by decide,
    ((C27_read_of_tmp_table_to_primary parser_select_t1 modutil_no_semicolon qc_tmp_tables
      ses_idle .CURRENT_TARGET_UNDEFINED buf_select_1 QUERY_TYPE_READ (by decide)).1 rfl
      (Or.inl (by decide)) ⟨"t1", by decide, by decide⟩).1,
    ((C27_read_of_tmp_table_to_primary parser_select_t1 modutil_no_semicolon qc_tmp_tables
      ses_idle .CURRENT_TARGET_UNDEFINED buf_select_1 QUERY_TYPE_READ (by decide)).1 rfl
      (Or.inl (by decide)) ⟨"t1", by decide, by decide⟩).2 qc_tmp_tables ses_idle
      MXS_COM_QUERY rfl⟩

/-! ## Theorems: module names -/

/-- Lower-casing a character twice is lower-casing it once. -/
theorem char_toLower_idem (c : Char) : c.toLower.toLower = c.toLower := by
  by_cases h : 65 ≤ c.toNat ∧ c.toNat ≤ 90
  · have h1 : c.toLower = Char.ofNat (c.toNat + 32) := by
      unfold Char.toLower
      simp [h]
    rw [h1]
    obtain ⟨hlo, hhi⟩ := h
    generalize c.toNat = k at hlo hhi
    interval_cases k <;> decide
  · have : c.toLower = c := by
      unfold Char.toLower
      simp only [ge_iff_le, h, if_false]
    rw [this, this]

/-- Lower-casing a string twice is lower-casing it once. -/
theorem mxb_tolower_idem (s : String) : mxb_tolower (mxb_tolower s) = mxb_tolower s := by
  unfold mxb_tolower
  simp [List.map_map, Function.comp_def, char_toLower_idem]

/-- The loop of module_get_effective_name over the whole table, written out. -/
theorem module_get_effective_name_loop_eq (l : String) :
    module_get_effective_name_loop l name_mappings =
      if l = "mysqlmon" then "mariadbmon"
      else if l = "mysqlclient" then "mariadbclient"
      else if l = "mariadb" then "mariadbclient"
      else if l = "mysqlauth" then "mariadbauth"
      else l := by
  simp [module_get_effective_name_loop, name_mappings]

/-- C30: module_get_effective_name is idempotent and case-insensitive. For
every name n, applying it twice gives what applying it once gives, and n and
the lowercase of n give the same result; the result is lowercase and is never
one of the deprecated names mysqlmon, mysqlclient, mariadb, mysqlauth: a name
whose lowercase is one of them gives mariadbmon, mariadbclient, mariadbclient
and mariadbauth. -/
theorem C30_module_effective_name (n : String) :
    module_get_effective_name (module_get_effective_name n) = module_get_effective_name n
      ∧ module_get_effective_name n = module_get_effective_name (mxb_tolower n)
      ∧ mxb_tolower (module_get_effective_name n) = module_get_effective_name n
      ∧ module_get_effective_name n ∉ ["mysqlmon", "mysqlclient", "mariadb", "mysqlauth"]
      ∧ (mxb_tolower n = "mysqlmon" → module_get_effective_name n = "mariadbmon")
      ∧ (mxb_tolower n = "mysqlclient" → module_get_effective_name n = "mariadbclient")
      ∧ (mxb_tolower n = "mariadb" → module_get_effective_name n = "mariadbclient")
      ∧ (mxb_tolower n = "mysqlauth" → module_get_effective_name n = "mariadbauth")
      ∧ module_get_effective_name "MySQLMon" = "mariadbmon"
      ∧ module_get_effective_name "readwritesplit" = "readwritesplit" := by
  have hsame : module_get_effective_name n = module_get_effective_name (mxb_tolower n) := by
    unfold module_get_effective_name
    rw [mxb_tolower_idem]
  refine ⟨?_, hsame, ?_, ?_, ?_, ?_, ?_, ?_, by decide, by decide⟩
  · unfold module_get_effective_name
    rw [module_get_effective_name_loop_eq (mxb_tolower n)]
    split_ifs with h1 h2 h3 h4
    · decide
    · decide
    · decide
    · decide
    · rw [mxb_tolower_idem, module_get_effective_name_loop_eq]
      simp [h1, h2, h3, h4]
  · unfold module_get_effective_name
    rw [module_get_effective_name_loop_eq (mxb_tolower n)]
    split_ifs with h1 h2 h3 h4
    · decide
    · decide
    · decide
    · decide
    · exact mxb_tolower_idem n
  · unfold module_get_effective_name
    rw [module_get_effective_name_loop_eq (mxb_tolower n)]
    split_ifs with h1 h2 h3 h4
    · decide
    · decide
    · decide
    · decide
    · simp [h1, h2, h3, h4]
  · intro h
    unfold module_get_effective_name
    rw [h]; decide
  · intro h
    unfold module_get_effective_name
    rw [h]; decide
  · intro h
    unfold module_get_effective_name
    rw [h]; decide
  · intro h
    unfold module_get_effective_name
    rw [h]; decide

/-! ## Theorems: classifying a packet twice -/

/-- C26, as stated, fails: the first classification of a statement that
creates a temporary table registers the table, and the second classification
of the same packet then finds a read of a temporary table. For the COM_QUERY
CREATE TEMPORARY TABLE t1 SELECT @a on a fresh classifier, same session and
current target, the first call returns the type mask
WRITE | CREATE_TMP_TABLE | USERVAR_READ and the second call returns that mask
with MASTER_READ added, so the two RouteInfo differ. -/
theorem C26_classify_twice_counterexample :
    registers_table_it_reads parser_create_tmp_select qc_master ses_idle
        .CURRENT_TARGET_UNDEFINED buf_create_tmp_select
      ∧ (update_route_info parser_create_tmp_select modutil_no_semicolon handler_unlocked
        qc_master ses_idle () .CURRENT_TARGET_UNDEFINED buf_create_tmp_select).1.m_type_mask
        = QUERY_TYPE_WRITE ||| QUERY_TYPE_CREATE_TMP_TABLE ||| QUERY_TYPE_USERVAR_READ
      ∧ (update_route_info parser_create_tmp_select modutil_no_semicolon handler_unlocked
          (update_route_info parser_create_tmp_select modutil_no_semicolon handler_unlocked
            qc_master ses_idle () .CURRENT_TARGET_UNDEFINED buf_create_tmp_select).2.1
          ses_idle
          (update_route_info parser_create_tmp_select modutil_no_semicolon handler_unlocked
            qc_master ses_idle () .CURRENT_TARGET_UNDEFINED buf_create_tmp_select).2.2
          .CURRENT_TARGET_UNDEFINED buf_create_tmp_select).1.m_type_mask
        = QUERY_TYPE_WRITE ||| QUERY_TYPE_CREATE_TMP_TABLE ||| QUERY_TYPE_USERVAR_READ
            ||| QUERY_TYPE_MASTER_READ
      ∧ (update_route_info parser_create_tmp_select modutil_no_semicolon handler_unlocked
          (update_route_info parser_create_tmp_select modutil_no_semicolon handler_unlocked
            qc_master ses_idle () .CURRENT_TARGET_UNDEFINED buf_create_tmp_select).2.1
          ses_idle
          (update_route_info parser_create_tmp_select modutil_no_semicolon handler_unlocked
            qc_master ses_idle () .CURRENT_TARGET_UNDEFINED buf_create_tmp_select).2.2
          .CURRENT_TARGET_UNDEFINED buf_create_tmp_select).1
        ≠ (update_route_info parser_create_tmp_select modutil_no_semicolon handler_unlocked
            qc_master ses_idle () .CURRENT_TARGET_UNDEFINED buf_create_tmp_select).1 := by
  decide

/-- A statement whose mask does not contain CREATE_TMP_TABLE registers no
temporary table. -/
theorem check_create_tmp_table_of_not_create (P : SqlParser) (qc : QueryClassifier)
    (ses : MXS_SESSION) (querybuf : GWBUF) (type : Nat)
    (hc : qc_query_is_type type QUERY_TYPE_CREATE_TMP_TABLE = false) :
    check_create_tmp_table P qc ses querybuf type = qc := by
  simp [check_create_tmp_table, hc]

/-- The members of the set of temporary tables after check_drop_tmp_table. -/
theorem check_drop_tmp_table_mem (P : SqlParser) (qc : QueryClassifier)
    (ses : MXS_SESSION) (querybuf : GWBUF) (x : String) :
    x ∈ (check_drop_tmp_table P qc ses querybuf).m_tmp_tables
      ↔ x ∈ qc.m_tmp_tables
        ∧ (P.qc_is_drop_table_query querybuf = true →
            ∀ t ∈ P.qc_get_table_names querybuf, qualified_table ses t ≠ x) := by
  unfold check_drop_tmp_table foreach_table
  split
  · rename_i h
    rw [foreach_table_loop_delete_mem]
    simp [h]
  · rename_i h
    simp [h]

/-- The function check_drop_tmp_table leaves the flag m_have_tmp_tables as it
is. -/
theorem check_drop_tmp_table_flag (P : SqlParser) (qc : QueryClassifier)
    (ses : MXS_SESSION) (querybuf : GWBUF) :
    (check_drop_tmp_table P qc ses querybuf).m_have_tmp_tables = qc.m_have_tmp_tables := by
  have hloop : ∀ (l : List String) (q : QueryClassifier),
      (foreach_table_loop ses delete_table l q).2.m_have_tmp_tables = q.m_have_tmp_tables := by
    intro l
    induction l with
    | nil => intro q; rfl
    | cons t rest ih =>
      intro q
      simp only [foreach_table_loop, delete_table]
      exact ih _
  unfold check_drop_tmp_table foreach_table
  split
  · exact hloop _ _
  · rfl

/-- The function is_read_tmp_table reads of the classifier only which strings
are members of the set of temporary tables. -/
theorem is_read_tmp_table_congr (P : SqlParser) (qa qb : QueryClassifier)
    (ses : MXS_SESSION) (querybuf : GWBUF) (qtype : Nat)
    (h : ∀ x, x ∈ qa.m_tmp_tables ↔ x ∈ qb.m_tmp_tables) :
    is_read_tmp_table P qa ses querybuf qtype = is_read_tmp_table P qb ses querybuf qtype := by
  have hany : ∀ t, is_tmp_table qa t = is_tmp_table qb t := by
    intro t
    unfold is_tmp_table
    exact decide_eq_decide.mpr (h t)
  unfold is_read_tmp_table foreach_table
  rw [foreach_table_loop_find, foreach_table_loop_find]
  simp only [hany]

/-- The function check_for_multi_stmt reads of the classifier only whether
multi-statements are allowed. -/
theorem check_for_multi_stmt_congr (M : Modutil) (qa qb : QueryClassifier) (buf : GWBUF)
    (packet_type : Nat)
    (h : qa.m_multi_statements_allowed = qb.m_multi_statements_allowed) :
    check_for_multi_stmt M qa buf packet_type = check_for_multi_stmt M qb buf packet_type := by
  unfold check_for_multi_stmt
  rw [h]

/-- For a mask without CREATE_TMP_TABLE the classifier after
handle_multi_temp_and_load is the one after the check for dropped tables. -/
theorem handle_multi_temp_and_load_state (P : SqlParser) (M : Modutil)
    (q : QueryClassifier) (ses : MXS_SESSION) (current_target : current_target_t)
    (querybuf : GWBUF) (packet_type qtype : Nat)
    (hc : qc_query_is_type qtype QUERY_TYPE_CREATE_TMP_TABLE = false) :
    (handle_multi_temp_and_load P M q ses current_target querybuf packet_type qtype).2.2
      = (if (q.m_have_tmp_tables && is_packet_a_query packet_type) = true
          then check_drop_tmp_table P q ses querybuf else q) := by
  have hbit : ∀ b : Bool,
      qc_query_is_type (if b = true then qtype ||| QUERY_TYPE_MASTER_READ else qtype)
        QUERY_TYPE_CREATE_TMP_TABLE = false := by
    intro b
    cases b
    · simpa using hc
    · simp only [if_true]
      rw [qc_query_is_type_or_disjoint _ _ _ (by decide)]
      exact hc
  unfold handle_multi_temp_and_load
  simp only
  exact check_create_tmp_table_of_not_create _ _ _ _ _ (hbit _)

/-- For a mask without CREATE_TMP_TABLE, handle_multi_temp_and_load run again
on the temporary tables it left returns the same result and the same mask. -/
theorem handle_multi_temp_and_load_repeat (P : SqlParser) (M : Modutil)
    (q q' : QueryClassifier) (ses : MXS_SESSION) (current_target : current_target_t)
    (querybuf : GWBUF) (packet_type qtype : Nat)
    (hc : qc_query_is_type qtype QUERY_TYPE_CREATE_TMP_TABLE = false)
    (hmulti : q'.m_multi_statements_allowed = q.m_multi_statements_allowed)
    (hhave : q'.m_have_tmp_tables = q.m_have_tmp_tables)
    (htab : ∀ x, x ∈ q'.m_tmp_tables
      ↔ x ∈ (handle_multi_temp_and_load P M q ses current_target querybuf packet_type
          qtype).2.2.m_tmp_tables) :
    (handle_multi_temp_and_load P M q' ses current_target querybuf packet_type qtype).1
        = (handle_multi_temp_and_load P M q ses current_target querybuf packet_type qtype).1
      ∧ (handle_multi_temp_and_load P M q' ses current_target querybuf packet_type qtype).2.1
        = (handle_multi_temp_and_load P M q ses current_target querybuf packet_type
            qtype).2.1 := by
  rw [handle_multi_temp_and_load_state P M q ses current_target querybuf packet_type qtype
    hc] at htab
  have hq1 : ∀ x,
      x ∈ (if (q'.m_have_tmp_tables && is_packet_a_query packet_type) = true
          then check_drop_tmp_table P q' ses querybuf else q').m_tmp_tables
        ↔ x ∈ (if (q.m_have_tmp_tables && is_packet_a_query packet_type) = true
          then check_drop_tmp_table P q ses querybuf else q).m_tmp_tables := by
    intro x
    rw [hhave]
    by_cases hb : (q.m_have_tmp_tables && is_packet_a_query packet_type) = true
    · simp only [hb, if_true] at htab ⊢
      rw [check_drop_tmp_table_mem, htab, check_drop_tmp_table_mem]
      tauto
    · simp only [hb, if_false] at htab ⊢
      exact htab x
  unfold handle_multi_temp_and_load
  simp only
  rw [check_for_multi_stmt_congr M q' q querybuf packet_type hmulti,
    is_read_tmp_table_congr P _ _ ses querybuf qtype hq1, hhave]
  exact ⟨rfl, rfl⟩

/-- The classifier the type-mask step hands on outside a read-only
transaction is the one handle_multi_temp_and_load leaves. -/
theorem update_route_info_type_mask_state {σ : Type} (P : SqlParser) (M : Modutil)
    (H : Handler σ) (qc : QueryClassifier) (ses : MXS_SESSION) (hs : σ)
    (current_target : current_target_t) (pBuffer : GWBUF) (command : Nat) :
    (update_route_info_type_mask P M H qc ses hs current_target pBuffer command false).2.1
      = (handle_multi_temp_and_load P M qc ses current_target pBuffer command
          (determine_query_type P pBuffer command)).2.2 := by
  unfold update_route_info_type_mask
  simp only [Bool.false_eq_true, if_false]
  split
  · split <;> rfl
  · rfl

/-- The function is_read_tmp_table, written out: the mask contains a read type
and one of the qualified names of the statement is a temporary table. -/
theorem is_read_tmp_table_eq (P : SqlParser) (qa : QueryClassifier)
    (ses : MXS_SESSION) (querybuf : GWBUF) (qtype : Nat) :
    is_read_tmp_table P qa ses querybuf qtype
      = ((qc_query_is_type qtype QUERY_TYPE_READ
            || qc_query_is_type qtype QUERY_TYPE_LOCAL_READ
            || qc_query_is_type qtype QUERY_TYPE_USERVAR_READ
            || qc_query_is_type qtype QUERY_TYPE_SYSVAR_READ
            || qc_query_is_type qtype QUERY_TYPE_GSYSVAR_READ)
          && (P.qc_get_table_names querybuf).any
              (fun t => is_tmp_table qa (qualified_table ses t))) := by
  unfold is_read_tmp_table foreach_table
  rw [foreach_table_loop_find]
  generalize (qc_query_is_type qtype QUERY_TYPE_READ
    || qc_query_is_type qtype QUERY_TYPE_LOCAL_READ
    || qc_query_is_type qtype QUERY_TYPE_USERVAR_READ
    || qc_query_is_type qtype QUERY_TYPE_SYSVAR_READ
    || qc_query_is_type qtype QUERY_TYPE_GSYSVAR_READ) = c
  cases c <;> simp

/-- A statement whose mask contains CREATE_TMP_TABLE sets the flag and adds the
first of its table names, qualified, to the temporary tables. -/
theorem check_create_tmp_table_of_create (P : SqlParser) (qc : QueryClassifier)
    (ses : MXS_SESSION) (querybuf : GWBUF) (type : Nat)
    (hc : qc_query_is_type type QUERY_TYPE_CREATE_TMP_TABLE = true) :
    (check_create_tmp_table P qc ses querybuf type).m_have_tmp_tables = true
      ∧ (∀ x, x ∈ qc.m_tmp_tables →
          x ∈ (check_create_tmp_table P qc ses querybuf type).m_tmp_tables)
      ∧ (∀ t rest, P.qc_get_table_names querybuf = t :: rest →
          qualified_table ses t ∈ (check_create_tmp_table P qc ses querybuf type).m_tmp_tables) := by
  unfold check_create_tmp_table add_tmp_table
  simp only [hc, if_true]
  refine ⟨?_, ?_, ?_⟩
  · split <;> rfl
  · intro x hx
    split
    · exact hx
    · exact List.mem_cons_of_mem _ hx
  · intro t rest hnames
    rw [hnames]
    split
    · rename_i h
      exact h
    · exact List.mem_cons_self _ _

/-- After a DROP TABLE none of the qualified names of the statement is a
temporary table. -/
theorem check_drop_tmp_table_none (P : SqlParser) (qc : QueryClassifier)
    (ses : MXS_SESSION) (querybuf : GWBUF)
    (hdrop : P.qc_is_drop_table_query querybuf = true) :
    (P.qc_get_table_names querybuf).any
      (fun t => is_tmp_table (check_drop_tmp_table P qc ses querybuf) (qualified_table ses t))
      = false := by
  rw [Bool.eq_false_iff]
  intro h
  rw [List.any_eq_true] at h
  obtain ⟨t, ht, hm⟩ := h
  have hmem : qualified_table ses t ∈ (check_drop_tmp_table P qc ses querybuf).m_tmp_tables := by
    simpa [is_tmp_table] using hm
  exact ((check_drop_tmp_table_mem P qc ses querybuf _).mp hmem).2 hdrop t ht rfl

/-- A statement that is not a DROP TABLE leaves the classifier as it is in
check_drop_tmp_table. -/
theorem check_drop_tmp_table_of_not_drop (P : SqlParser) (qc : QueryClassifier)
    (ses : MXS_SESSION) (querybuf : GWBUF)
    (hdrop : P.qc_is_drop_table_query querybuf = false) :
    check_drop_tmp_table P qc ses querybuf = qc := by
  simp [check_drop_tmp_table, hdrop]

/-- Unless the statement registers a temporary table that it reads,
handle_multi_temp_and_load run again on the temporary tables it left returns
the same result and the same mask. -/
theorem handle_multi_temp_and_load_again (P : SqlParser) (M : Modutil)
    (q q' : QueryClassifier) (ses : MXS_SESSION) (current_target : current_target_t)
    (querybuf : GWBUF) (packet_type qtype : Nat)
    (hsafe : is_packet_a_query packet_type = true →
      P.qc_is_drop_table_query querybuf = false →
      qc_query_is_type qtype QUERY_TYPE_CREATE_TMP_TABLE = true →
      (qc_query_is_type qtype QUERY_TYPE_READ
        || qc_query_is_type qtype QUERY_TYPE_LOCAL_READ
        || qc_query_is_type qtype QUERY_TYPE_USERVAR_READ
        || qc_query_is_type qtype QUERY_TYPE_SYSVAR_READ
        || qc_query_is_type qtype QUERY_TYPE_GSYSVAR_READ) = true →
      P.qc_get_table_names querybuf ≠ [] →
      q.m_have_tmp_tables = true
        ∧ ∃ t ∈ P.qc_get_table_names querybuf, qualified_table ses t ∈ q.m_tmp_tables)
    (hmulti : q'.m_multi_statements_allowed = q.m_multi_statements_allowed)
    (hhave : q'.m_have_tmp_tables
      = (handle_multi_temp_and_load P M q ses current_target querybuf packet_type
          qtype).2.2.m_have_tmp_tables)
    (htab : ∀ x, x ∈ q'.m_tmp_tables
      ↔ x ∈ (handle_multi_temp_and_load P M q ses current_target querybuf packet_type
          qtype).2.2.m_tmp_tables) :
    (handle_multi_temp_and_load P M q' ses current_target querybuf packet_type qtype).1
        = (handle_multi_temp_and_load P M q ses current_target querybuf packet_type qtype).1
      ∧ (handle_multi_temp_and_load P M q' ses current_target querybuf packet_type qtype).2.1
        = (handle_multi_temp_and_load P M q ses current_target querybuf packet_type
            qtype).2.1 := by
  by_cases hc : qc_query_is_type qtype QUERY_TYPE_CREATE_TMP_TABLE = false
  · have hst := handle_multi_temp_and_load_state P M q ses current_target querybuf
      packet_type qtype hc
    have hhave2 : q'.m_have_tmp_tables = q.m_have_tmp_tables := by
      rw [hhave, hst]
      split
      · exact check_drop_tmp_table_flag _ _ _ _
      · rfl
    exact handle_multi_temp_and_load_repeat P M q q' ses current_target querybuf packet_type
      qtype hc hmulti hhave2 htab
  · have hc2 : qc_query_is_type qtype QUERY_TYPE_CREATE_TMP_TABLE = true := by
      simpa using hc
    have hbit : ∀ b : Bool,
        qc_query_is_type (if b = true then qtype ||| QUERY_TYPE_MASTER_READ else qtype)
          QUERY_TYPE_CREATE_TMP_TABLE = true := by
      intro b
      cases b
      · simpa using hc2
      · simp only [if_true]
        rw [qc_query_is_type_or_disjoint _ _ _ (by decide)]
        exact hc2
    have hst : (handle_multi_temp_and_load P M q ses current_target querybuf packet_type
        qtype).2.2
        = check_create_tmp_table P
            (if (q.m_have_tmp_tables && is_packet_a_query packet_type) = true
              then check_drop_tmp_table P q ses querybuf else q)
            ses querybuf
            (if (q.m_have_tmp_tables && is_packet_a_query packet_type
                && is_read_tmp_table P
                  (if (q.m_have_tmp_tables && is_packet_a_query packet_type) = true
                    then check_drop_tmp_table P q ses querybuf else q)
                  ses querybuf qtype) = true
              then qtype ||| QUERY_TYPE_MASTER_READ else qtype) := by
      unfold handle_multi_temp_and_load
      rfl
    obtain ⟨f1, f2, -⟩ := check_create_tmp_table_of_create P
      (if (q.m_have_tmp_tables && is_packet_a_query packet_type) = true
        then check_drop_tmp_table P q ses querybuf else q)
      ses querybuf _ (hbit (q.m_have_tmp_tables && is_packet_a_query packet_type
        && is_read_tmp_table P
          (if (q.m_have_tmp_tables && is_packet_a_query packet_type) = true
            then check_drop_tmp_table P q ses querybuf else q)
          ses querybuf qtype))
    rw [hst] at hhave htab
    have hh : q'.m_have_tmp_tables = true := hhave.trans f1
    have hcond : (q'.m_have_tmp_tables && is_packet_a_query packet_type
        && is_read_tmp_table P
          (if (q'.m_have_tmp_tables && is_packet_a_query packet_type) = true
            then check_drop_tmp_table P q' ses querybuf else q')
          ses querybuf qtype)
        = (q.m_have_tmp_tables && is_packet_a_query packet_type
          && is_read_tmp_table P
            (if (q.m_have_tmp_tables && is_packet_a_query packet_type) = true
              then check_drop_tmp_table P q ses querybuf else q)
            ses querybuf qtype) := by
      rw [hh]
      cases hq : is_packet_a_query packet_type
      · simp
      · simp only [Bool.true_and, Bool.and_true, if_true]
        rw [is_read_tmp_table_eq, is_read_tmp_table_eq]
        cases hrb : (qc_query_is_type qtype QUERY_TYPE_READ
          || qc_query_is_type qtype QUERY_TYPE_LOCAL_READ
          || qc_query_is_type qtype QUERY_TYPE_USERVAR_READ
          || qc_query_is_type qtype QUERY_TYPE_SYSVAR_READ
          || qc_query_is_type qtype QUERY_TYPE_GSYSVAR_READ)
        · simp
        · simp only [Bool.true_and]
          cases hd : P.qc_is_drop_table_query querybuf
          · rw [check_drop_tmp_table_of_not_drop _ _ _ _ hd]
            have hq1 : (if q.m_have_tmp_tables = true
                then check_drop_tmp_table P q ses querybuf else q) = q := by
              split
              · exact check_drop_tmp_table_of_not_drop _ _ _ _ hd
              · rfl
            rw [hq1]
            by_cases hn : P.qc_get_table_names querybuf = []
            · simp [hn]
            · obtain ⟨hqh, t, ht, hmem⟩ := hsafe hq hd hc2 hrb hn
              have hq2 : (if (q.m_have_tmp_tables && is_packet_a_query packet_type) = true
                  then check_drop_tmp_table P q ses querybuf else q) = q := by
                split
                · exact check_drop_tmp_table_of_not_drop _ _ _ _ hd
                · rfl
              rw [hq2] at f2 htab
              have h1 : (P.qc_get_table_names querybuf).any
                  (fun t => is_tmp_table q' (qualified_table ses t)) = true := by
                rw [List.any_eq_true]
                exact ⟨t, ht, by simpa [is_tmp_table] using (htab _).mpr (f2 _ hmem)⟩
              have h2 : (P.qc_get_table_names querybuf).any
                  (fun t => is_tmp_table q (qualified_table ses t)) = true := by
                rw [List.any_eq_true]
                exact ⟨t, ht, by simpa [is_tmp_table] using hmem⟩
              rw [h1, h2, hqh]
              rfl
          · rw [check_drop_tmp_table_none _ _ _ _ hd]
            cases hqh : q.m_have_tmp_tables
            · simp
            · simp [check_drop_tmp_table_none _ _ _ _ hd]
    unfold handle_multi_temp_and_load
    simp only
    rw [check_for_multi_stmt_congr M q' q querybuf packet_type hmulti, hcond]
    exact ⟨rfl, rfl⟩

/-- Unless the statement registers a temporary table that it reads, and for a
handler on which a second lock_to_master repeats the first, the type-mask step
run again, on the temporary tables and the handler it left, returns the same
mask and leaves the handler as it is. -/
theorem update_route_info_type_mask_again {σ : Type} (P : SqlParser) (M : Modutil)
    (H : Handler σ) (q q' : QueryClassifier) (ses : MXS_SESSION) (hs : σ)
    (current_target : current_target_t) (pBuffer : GWBUF) (command : Nat) (ro : Bool)
    (hsafe : ro = false → is_packet_a_query command = true →
      P.qc_is_drop_table_query pBuffer = false →
      qc_query_is_type (determine_query_type P pBuffer command)
        QUERY_TYPE_CREATE_TMP_TABLE = true →
      (qc_query_is_type (determine_query_type P pBuffer command) QUERY_TYPE_READ
        || qc_query_is_type (determine_query_type P pBuffer command) QUERY_TYPE_LOCAL_READ
        || qc_query_is_type (determine_query_type P pBuffer command) QUERY_TYPE_USERVAR_READ
        || qc_query_is_type (determine_query_type P pBuffer command) QUERY_TYPE_SYSVAR_READ
        || qc_query_is_type (determine_query_type P pBuffer command) QUERY_TYPE_GSYSVAR_READ)
        = true →
      P.qc_get_table_names pBuffer ≠ [] →
      q.m_have_tmp_tables = true
        ∧ ∃ t ∈ P.qc_get_table_names pBuffer, qualified_table ses t ∈ q.m_tmp_tables)
    (hlock : H.lock_to_master (H.lock_to_master hs).2 = H.lock_to_master hs)
    (hmulti : q'.m_multi_statements_allowed = q.m_multi_statements_allowed)
    (hhave : q'.m_have_tmp_tables
      = (update_route_info_type_mask P M H q ses hs current_target pBuffer command
          ro).2.1.m_have_tmp_tables)
    (htab : ∀ x, x ∈ q'.m_tmp_tables
      ↔ x ∈ (update_route_info_type_mask P M H q ses hs current_target pBuffer command
          ro).2.1.m_tmp_tables) :
    (update_route_info_type_mask P M H q' ses
        (update_route_info_type_mask P M H q ses hs current_target pBuffer command ro).2.2
        current_target pBuffer command ro).1
        = (update_route_info_type_mask P M H q ses hs current_target pBuffer command ro).1
      ∧ (update_route_info_type_mask P M H q' ses
          (update_route_info_type_mask P M H q ses hs current_target pBuffer command ro).2.2
          current_target pBuffer command ro).2.2
        = (update_route_info_type_mask P M H q ses hs current_target pBuffer command
            ro).2.2 := by
  cases ro with
  | true => simp [update_route_info_type_mask]
  | false =>
    rw [update_route_info_type_mask_state] at hhave htab
    obtain ⟨h1, h2⟩ := handle_multi_temp_and_load_again P M q q' ses current_target pBuffer
      command (determine_query_type P pBuffer command) (hsafe rfl) hmulti hhave htab
    unfold update_route_info_type_mask
    simp only [Bool.false_eq_true, if_false, h1, h2]
    by_cases hm : ((handle_multi_temp_and_load P M q ses current_target pBuffer command
        (determine_query_type P pBuffer command)).1
        == current_target_t.CURRENT_TARGET_MASTER) = true
    · simp only [hm, if_true]
      have hl : ∀ b : Bool,
          (if b = true then
            ((handle_multi_temp_and_load P M q ses current_target pBuffer command
                (determine_query_type P pBuffer command)).2.1 ||| QUERY_TYPE_WRITE,
              (handle_multi_temp_and_load P M q ses current_target pBuffer command
                (determine_query_type P pBuffer command)).2.2, (H.lock_to_master hs).2)
          else
            ((handle_multi_temp_and_load P M q ses current_target pBuffer command
                (determine_query_type P pBuffer command)).2.1,
              (handle_multi_temp_and_load P M q ses current_target pBuffer command
                (determine_query_type P pBuffer command)).2.2, (H.lock_to_master hs).2)).2.2
            = (H.lock_to_master hs).2 := by
        intro b
        cases b <;> rfl
      rw [hl, hlock]
      constructor
      · split <;> rfl
      · split <;> rfl
    · simp [hm]

/-- The target step reads of the classifier only the setting
use_sql_variables_in, the load-data state and the prepared statements, as far
as the target, the type mask and the statement id go. -/
theorem update_route_info_target_congr (P : SqlParser) (qa qb : QueryClassifier)
    (ses : MXS_SESSION) (locked : Bool) (pBuffer : GWBUF) (command type_mask : Nat)
    (ro : Bool)
    (h1 : qa.m_use_sql_variables_in = qb.m_use_sql_variables_in)
    (h2 : qa.m_load_data_state = qb.m_load_data_state)
    (h3 : qa.m_binary_ps = qb.m_binary_ps)
    (h4 : qa.m_text_ps = qb.m_text_ps)
    (h5 : qa.m_ps_handles = qb.m_ps_handles)
    (h6 : qa.m_prev_ps_id = qb.m_prev_ps_id) :
    (update_route_info_target P qa ses locked pBuffer command type_mask ro).1
        = (update_route_info_target P qb ses locked pBuffer command type_mask ro).1
      ∧ (update_route_info_target P qa ses locked pBuffer command type_mask ro).2.1
        = (update_route_info_target P qb ses locked pBuffer command type_mask ro).2.1
      ∧ (update_route_info_target P qa ses locked pBuffer command type_mask ro).2.2.1
        = (update_route_info_target P qb ses locked pBuffer command type_mask ro).2.2.1 := by
  have hg : ∀ c t, get_route_target qa ses c t = get_route_target qb ses c t := by
    intro c t
    simp only [get_route_target, query_type_is_read_only, h1, h2]
  have ht : ∀ id, ps_get_type_text qa id = ps_get_type_text qb id := by
    intro id
    simp only [ps_get_type_text, h4]
  have hb : ∀ id, ps_get_type qa id = ps_get_type qb id := by
    intro id
    simp only [ps_get_type, h3]
  have hi : ps_id_internal_get qa pBuffer = ps_id_internal_get qb pBuffer := by
    simp only [ps_id_internal_get, h5, h6]
  unfold update_route_info_target
  simp only [hg, ht, hb, hi]
  split
  · exact ⟨rfl, rfl, rfl⟩
  · split
    · exact ⟨rfl, rfl, rfl⟩
    · split <;> exact ⟨rfl, rfl, rfl⟩

/-- While load data is active, and on a packet that is no longer than the
header, update_route_info returns the default route info. -/
theorem update_route_info_default {σ : Type} (P : SqlParser) (M : Modutil)
    (H : Handler σ) (qc : QueryClassifier) (ses : MXS_SESSION) (hs : σ)
    (current_target : current_target_t) (pBuffer : GWBUF)
    (h : qc.m_load_data_state = .LOAD_DATA_ACTIVE
      ∨ ¬ gwbuf_length pBuffer > MYSQL_HEADER_LEN) :
    (update_route_info P M H qc ses hs current_target pBuffer).1
      = (⟨TARGET_MASTER, 0xFF, QUERY_TYPE_UNKNOWN, 0⟩ : RouteInfo) := by
  unfold update_route_info
  simp only
  split
  · rfl
  · split
    · rename_i h1 h2
      rcases h with h | h
      · simp [h] at h1
      · exact absurd h2 h
    · rfl

/-- After a call of update_route_info made while load data is active, load data
is still active or the packet was an empty one. -/
theorem update_route_info_load_data_after {σ : Type} (P : SqlParser) (M : Modutil)
    (H : Handler σ) (qc : QueryClassifier) (ses : MXS_SESSION) (hs : σ)
    (current_target : current_target_t) (pBuffer : GWBUF)
    (hload : qc.m_load_data_state = .LOAD_DATA_ACTIVE) :
    (update_route_info P M H qc ses hs current_target pBuffer).2.1.m_load_data_state
        = .LOAD_DATA_ACTIVE
      ∨ ¬ gwbuf_length pBuffer > MYSQL_HEADER_LEN := by
  by_cases hlen : gwbuf_length pBuffer > MYSQL_HEADER_LEN
  · left
    have hne : (gwbuf_length pBuffer == MYSQL_HEADER_LEN) = false := by
      rw [beq_eq_false_iff_ne]
      exact Nat.ne_of_gt hlen
    unfold update_route_info update_route_info_load_data
    simp only [hload, hne]
    rfl
  · exact Or.inr hlen

/-- The classifier after update_route_info on a command packet (more than the
header, load data not active): what the type-mask step left of the temporary
tables, and the settings and prepared statements it started with. -/
theorem update_route_info_keeps {σ : Type} (P : SqlParser) (M : Modutil)
    (H : Handler σ) (qc : QueryClassifier) (ses : MXS_SESSION) (hs : σ)
    (current_target : current_target_t) (pBuffer : GWBUF)
    (hload : qc.m_load_data_state ≠ .LOAD_DATA_ACTIVE)
    (hlen : gwbuf_length pBuffer > MYSQL_HEADER_LEN) :
    (update_route_info P M H qc ses hs current_target pBuffer).2.1.m_tmp_tables
        = (update_route_info_mask_step P M H qc ses hs current_target pBuffer).2.1.m_tmp_tables
      ∧ (update_route_info P M H qc ses hs current_target pBuffer).2.1.m_have_tmp_tables
        = (update_route_info_mask_step P M H qc ses hs current_target
            pBuffer).2.1.m_have_tmp_tables
      ∧ (update_route_info P M H qc ses hs current_target
          pBuffer).2.1.m_multi_statements_allowed = qc.m_multi_statements_allowed
      ∧ (update_route_info P M H qc ses hs current_target pBuffer).2.1.m_use_sql_variables_in
        = qc.m_use_sql_variables_in
      ∧ (update_route_info P M H qc ses hs current_target pBuffer).2.1.m_load_data_state
        = qc.m_load_data_state
      ∧ (update_route_info P M H qc ses hs current_target pBuffer).2.1.m_binary_ps
        = qc.m_binary_ps
      ∧ (update_route_info P M H qc ses hs current_target pBuffer).2.1.m_text_ps
        = qc.m_text_ps
      ∧ (update_route_info P M H qc ses hs current_target pBuffer).2.1.m_ps_handles
        = qc.m_ps_handles
      ∧ (update_route_info P M H qc ses hs current_target pBuffer).2.1.m_prev_ps_id
        = qc.m_prev_ps_id := by
  obtain ⟨tables, flag, h⟩ := update_route_info_type_mask_classifier P M H
    { qc with m_ps_continuation := false } ses hs current_target pBuffer
    (mxs_mysql_get_command pBuffer)
    (current_target != .CURRENT_TARGET_UNDEFINED && ses.is_trx_read_only)
  have h1 : ((qc.m_load_data_state == load_data_state_t.LOAD_DATA_ACTIVE) = true) = False := by
    simpa using hload
  refine ⟨?_, ?_, ?_, ?_, ?_, ?_, ?_, ?_, ?_⟩
  · unfold update_route_info update_route_info_mask_step
    simp only [h1, hlen, if_false, if_true]
  · unfold update_route_info update_route_info_mask_step
    simp only [h1, hlen, if_false, if_true]
  all_goals
    unfold update_route_info
    simp only [h1, hlen, if_false, if_true]
    rw [h]

/-- The settings and prepared statements of the classifier after the type-mask
step are those before it. -/
theorem update_route_info_mask_step_keeps {σ : Type} (P : SqlParser) (M : Modutil)
    (H : Handler σ) (qc : QueryClassifier) (ses : MXS_SESSION) (hs : σ)
    (current_target : current_target_t) (pBuffer : GWBUF) :
    (update_route_info_mask_step P M H qc ses hs current_target
        pBuffer).2.1.m_use_sql_variables_in = qc.m_use_sql_variables_in
      ∧ (update_route_info_mask_step P M H qc ses hs current_target
          pBuffer).2.1.m_load_data_state = qc.m_load_data_state
      ∧ (update_route_info_mask_step P M H qc ses hs current_target pBuffer).2.1.m_binary_ps
        = qc.m_binary_ps
      ∧ (update_route_info_mask_step P M H qc ses hs current_target pBuffer).2.1.m_text_ps
        = qc.m_text_ps
      ∧ (update_route_info_mask_step P M H qc ses hs current_target pBuffer).2.1.m_ps_handles
        = qc.m_ps_handles
      ∧ (update_route_info_mask_step P M H qc ses hs current_target pBuffer).2.1.m_prev_ps_id
        = qc.m_prev_ps_id := by
  obtain ⟨tables, flag, h⟩ := update_route_info_type_mask_classifier P M H
    { qc with m_ps_continuation := false } ses hs current_target pBuffer
    (mxs_mysql_get_command pBuffer)
    (current_target != .CURRENT_TARGET_UNDEFINED && ses.is_trx_read_only)
  unfold update_route_info_mask_step
  rw [h]
  exact ⟨rfl, rfl, rfl, rfl, rfl, rfl⟩

/-- C26, amended: classification is repeatable unless the packet registers a
temporary table that it reads. For every classifier state, session state,
current target and packet, except a parsed query packet that is not a DROP
TABLE, names a table, has CREATE_TMP_TABLE and a read type (READ, LOCAL_READ,
USERVAR_READ, SYSVAR_READ or GSYSVAR_READ) in its type mask and none of whose
tables is registered as a temporary table yet, and for a handler on which a
second lock_to_master reports what the first reported and leaves the handler as
the first left it: calling update_route_info twice in succession with the same
packet, session facts and current target returns the same RouteInfo (target,
command, type mask, statement id) both times. -/
theorem C26_classify_twice_same_route {σ : Type} (P : SqlParser) (M : Modutil)
    (H : Handler σ) (qc : QueryClassifier) (ses : MXS_SESSION) (hs : σ)
    (current_target : current_target_t) (pBuffer : GWBUF)
    (hnew : ¬ registers_table_it_reads P qc ses current_target pBuffer)
    (hlock : H.lock_to_master (H.lock_to_master hs).2 = H.lock_to_master hs) :
    (update_route_info P M H
        (update_route_info P M H qc ses hs current_target pBuffer).2.1 ses
        (update_route_info P M H qc ses hs current_target pBuffer).2.2
        current_target pBuffer).1
      = (update_route_info P M H qc ses hs current_target pBuffer).1 := by
  by_cases hload : qc.m_load_data_state = .LOAD_DATA_ACTIVE
  · rw [update_route_info_default P M H _ ses _ current_target pBuffer
        (update_route_info_load_data_after P M H qc ses hs current_target pBuffer hload),
      update_route_info_default P M H qc ses hs current_target pBuffer (Or.inl hload)]
  · by_cases hlen : gwbuf_length pBuffer > MYSQL_HEADER_LEN
    · obtain ⟨k1, k2, k3, k4, k5, k6, k7, k8, k9⟩ :=
        update_route_info_keeps P M H qc ses hs current_target pBuffer hload hlen
      have hload1 : (update_route_info P M H qc ses hs current_target
          pBuffer).2.1.m_load_data_state ≠ .LOAD_DATA_ACTIVE := by
        rw [k5]
        exact hload
      obtain ⟨c1, m1, s1, _, _, _, e1⟩ :=
        update_route_info_fields P M H qc ses hs current_target pBuffer hload hlen
      obtain ⟨c2, m2, s2, _, _, _, _⟩ :=
        update_route_info_fields P M H
          (update_route_info P M H qc ses hs current_target pBuffer).2.1 ses
          (update_route_info P M H qc ses hs current_target pBuffer).2.2
          current_target pBuffer hload1 hlen
      have t1 := update_route_info_target_eq P M H qc ses hs current_target pBuffer hload hlen
      have t2 := update_route_info_target_eq P M H
        (update_route_info P M H qc ses hs current_target pBuffer).2.1 ses
        (update_route_info P M H qc ses hs current_target pBuffer).2.2
        current_target pBuffer hload1 hlen
      have hrep := update_route_info_type_mask_again P M H
        { qc with m_ps_continuation := false }
        { (update_route_info P M H qc ses hs current_target pBuffer).2.1 with
          m_ps_continuation := false }
        ses hs current_target pBuffer (mxs_mysql_get_command pBuffer)
        (current_target != .CURRENT_TARGET_UNDEFINED && ses.is_trx_read_only)
        (fun hro h1 h2 h3 h4 h5 => by
          by_contra hn
          exact hnew ⟨hro, h1, h2, h3, h4, h5, hn⟩)
        hlock k3 k2 (fun x => Iff.of_eq (congrArg (fun l => x ∈ l) k1))
      obtain ⟨r1, r2⟩ := hrep
      obtain ⟨a1, a2, a3, a4, a5, a6⟩ :=
        update_route_info_mask_step_keeps P M H qc ses hs current_target pBuffer
      obtain ⟨b1, b2, b3, b4, b5, b6⟩ :=
        update_route_info_mask_step_keeps P M H
          (update_route_info P M H qc ses hs current_target pBuffer).2.1 ses
          (update_route_info P M H qc ses hs current_target pBuffer).2.2
          current_target pBuffer
      have e1m : (update_route_info P M H qc ses hs current_target pBuffer).2.2
          = (update_route_info_type_mask P M H { qc with m_ps_continuation := false } ses hs
              current_target pBuffer (mxs_mysql_get_command pBuffer)
              (current_target != .CURRENT_TARGET_UNDEFINED && ses.is_trx_read_only)).2.2 := e1
      rw [← e1m] at r1 r2
      have hms1 : (update_route_info_mask_step P M H
          (update_route_info P M H qc ses hs current_target pBuffer).2.1 ses
          (update_route_info P M H qc ses hs current_target pBuffer).2.2
          current_target pBuffer).1
          = (update_route_info_mask_step P M H qc ses hs current_target pBuffer).1 := r1
      have hms2 : (update_route_info_mask_step P M H
          (update_route_info P M H qc ses hs current_target pBuffer).2.1 ses
          (update_route_info P M H qc ses hs current_target pBuffer).2.2
          current_target pBuffer).2.2
          = (update_route_info_mask_step P M H qc ses hs current_target pBuffer).2.2 :=
        r2.trans e1m
      have htg := update_route_info_target_congr P
        (update_route_info_mask_step P M H
          (update_route_info P M H qc ses hs current_target pBuffer).2.1 ses
          (update_route_info P M H qc ses hs current_target pBuffer).2.2
          current_target pBuffer).2.1
        (update_route_info_mask_step P M H qc ses hs current_target pBuffer).2.1
        ses
        (H.is_locked_to_master
          (update_route_info_mask_step P M H qc ses hs current_target pBuffer).2.2)
        pBuffer (mxs_mysql_get_command pBuffer)
        (update_route_info_mask_step P M H qc ses hs current_target pBuffer).1
        (current_target != .CURRENT_TARGET_UNDEFINED && ses.is_trx_read_only)
        (by rw [b1, a1, k4]) (by rw [b2, a2, k5]) (by rw [b3, a3, k6]) (by rw [b4, a4, k7])
        (by rw [b5, a5, k8]) (by rw [b6, a6, k9])
      have hstep : update_route_info_target_step P M H
          (update_route_info P M H qc ses hs current_target pBuffer).2.1 ses
          (update_route_info P M H qc ses hs current_target pBuffer).2.2
          current_target pBuffer
          = update_route_info_target P
            (update_route_info_mask_step P M H
              (update_route_info P M H qc ses hs current_target pBuffer).2.1 ses
              (update_route_info P M H qc ses hs current_target pBuffer).2.2
              current_target pBuffer).2.1
            ses
            (H.is_locked_to_master
              (update_route_info_mask_step P M H qc ses hs current_target pBuffer).2.2)
            pBuffer (mxs_mysql_get_command pBuffer)
            (update_route_info_mask_step P M H qc ses hs current_target pBuffer).1
            (current_target != .CURRENT_TARGET_UNDEFINED && ses.is_trx_read_only) := by
        rw [← hms1, ← hms2]
        rfl
      have hfields : ∀ a b : RouteInfo, a.m_target = b.m_target → a.m_command = b.m_command →
          a.m_type_mask = b.m_type_mask → a.m_stmt_id = b.m_stmt_id → a = b := by
        intro a b h1 h2 h3 h4
        cases a
        cases b
        simp only at h1 h2 h3 h4
        rw [h1, h2, h3, h4]
      apply hfields
      · rw [t1, t2]
        have hsup : (update_route_info_type_mask P M H
            { (update_route_info P M H qc ses hs current_target pBuffer).2.1 with
              m_ps_continuation := false }
            ses (update_route_info P M H qc ses hs current_target pBuffer).2.2
            current_target pBuffer (mxs_mysql_get_command pBuffer)
            (current_target != .CURRENT_TARGET_UNDEFINED && ses.is_trx_read_only)).2.2
            = (update_route_info_type_mask P M H { qc with m_ps_continuation := false } ses hs
              current_target pBuffer (mxs_mysql_get_command pBuffer)
              (current_target != .CURRENT_TARGET_UNDEFINED && ses.is_trx_read_only)).2.2 :=
          hms2
        have hmask : (update_route_info_type_mask P M H
            { (update_route_info P M H qc ses hs current_target pBuffer).2.1 with
              m_ps_continuation := false }
            ses (update_route_info P M H qc ses hs current_target pBuffer).2.2
            current_target pBuffer (mxs_mysql_get_command pBuffer)
            (current_target != .CURRENT_TARGET_UNDEFINED && ses.is_trx_read_only)).1
            = (update_route_info_type_mask P M H { qc with m_ps_continuation := false } ses hs
              current_target pBuffer (mxs_mysql_get_command pBuffer)
              (current_target != .CURRENT_TARGET_UNDEFINED && ses.is_trx_read_only)).1 :=
          hms1
        rw [hsup, hmask]
        exact congrArg
          (fun t => update_route_info_found_rows P pBuffer (mxs_mysql_get_command pBuffer)
            (process_routing_hints
              (H.supports_hint (update_route_info_type_mask P M H
                { qc with m_ps_continuation := false } ses hs current_target pBuffer
                (mxs_mysql_get_command pBuffer)
                (current_target != .CURRENT_TARGET_UNDEFINED && ses.is_trx_read_only)).2.2)
              pBuffer.hint t)) htg.1
      · rw [c1, c2]
      · rw [m1, m2, hstep]
        exact htg.2.1
      · rw [s1, s2, hstep]
        exact htg.2.2
    · rw [update_route_info_default P M H _ ses _ current_target pBuffer (Or.inr hlen),
        update_route_info_default P M H qc ses hs current_target pBuffer (Or.inr hlen)]

/-- C26, amended, holds of CREATE TEMPORARY TABLE t1, whose mask has no read
type, on a fresh classifier, and of CREATE TEMPORARY TABLE t1 SELECT @a once
test.t1 is registered: in both cases the two calls return the same
RouteInfo. -/
theorem C26_classify_twice_same_route_witness :
    (¬ registers_table_it_reads parser_create_tmp qc_master ses_idle
        .CURRENT_TARGET_UNDEFINED buf_create_tmp_select)
      ∧ handler_flag.lock_to_master (handler_flag.lock_to_master false).2
        = handler_flag.lock_to_master false
      ∧ (update_route_info parser_create_tmp modutil_no_semicolon handler_flag
          (update_route_info parser_create_tmp modutil_no_semicolon handler_flag qc_master
            ses_idle false .CURRENT_TARGET_UNDEFINED buf_create_tmp_select).2.1 ses_idle
          (update_route_info parser_create_tmp modutil_no_semicolon handler_flag qc_master
            ses_idle false .CURRENT_TARGET_UNDEFINED buf_create_tmp_select).2.2
          .CURRENT_TARGET_UNDEFINED buf_create_tmp_select).1
        = (update_route_info parser_create_tmp modutil_no_semicolon handler_flag qc_master
            ses_idle false .CURRENT_TARGET_UNDEFINED buf_create_tmp_select).1
      ∧ (¬ registers_table_it_reads parser_create_tmp_select qc_tmp_tables ses_idle
          .CURRENT_TARGET_UNDEFINED buf_create_tmp_select)
      ∧ (update_route_info parser_create_tmp_select modutil_no_semicolon handler_flag
          (update_route_info parser_create_tmp_select modutil_no_semicolon handler_flag
            qc_tmp_tables ses_idle false .CURRENT_TARGET_UNDEFINED
            buf_create_tmp_select).2.1 ses_idle
          (update_route_info parser_create_tmp_select modutil_no_semicolon handler_flag
            qc_tmp_tables ses_idle false .CURRENT_TARGET_UNDEFINED
            buf_create_tmp_select).2.2
          .CURRENT_TARGET_UNDEFINED buf_create_tmp_select).1
        = (update_route_info parser_create_tmp_select modutil_no_semicolon handler_flag
            qc_tmp_tables ses_idle false .CURRENT_TARGET_UNDEFINED buf_create_tmp_select).1 :=
  ⟨by decide, rfl,
    C26_classify_twice_same_route parser_create_tmp modutil_no_semicolon handler_flag qc_master
      ses_idle false .CURRENT_TARGET_UNDEFINED buf_create_tmp_select (by decide) rfl,
    by decide,
    C26_classify_twice_same_route parser_create_tmp_select modutil_no_semicolon handler_flag
      qc_tmp_tables ses_idle false .CURRENT_TARGET_UNDEFINED buf_create_tmp_select
      (by decide) rfl⟩

/-- For a COM_QUERY that is not an EXECUTE the type mask the target step
returns is the one the type-mask step found. -/
theorem update_route_info_target_step_mask {σ : Type} (P : SqlParser) (M : Modutil)
    (H : Handler σ) (qc : QueryClassifier) (ses : MXS_SESSION) (hs : σ)
    (current_target : current_target_t) (pBuffer : GWBUF)
    (hcmd : mxs_mysql_get_command pBuffer = MXS_COM_QUERY)
    (hop : P.qc_get_operation pBuffer ≠ .QUERY_OP_EXECUTE) :
    (update_route_info_target_step P M H qc ses hs current_target pBuffer).2.1
      = (update_route_info_mask_step P M H qc ses hs current_target pBuffer).1 := by
  have hopb : (P.qc_get_operation pBuffer == qc_query_op_t.QUERY_OP_EXECUTE) = false := by
    simpa using hop
  have hps : qc_mysql_is_ps_command MXS_COM_QUERY = false := by decide
  unfold update_route_info_target_step update_route_info_target
  rw [hcmd]
  cases H.is_locked_to_master
    (update_route_info_mask_step P M H qc ses hs current_target pBuffer).2.2 <;>
    simp [hopb, hps]

/-- The result of handle_multi_temp_and_load depends on the classifier only
through the permission for multi-statements. -/
theorem handle_multi_temp_and_load_result_congr (P : SqlParser) (M : Modutil)
    (qa qb : QueryClassifier) (ses : MXS_SESSION) (current_target : current_target_t)
    (querybuf : GWBUF) (packet_type qtype : Nat)
    (h : qa.m_multi_statements_allowed = qb.m_multi_statements_allowed) :
    (handle_multi_temp_and_load P M qa ses current_target querybuf packet_type qtype).1
      = (handle_multi_temp_and_load P M qb ses current_target querybuf packet_type qtype).1 := by
  unfold handle_multi_temp_and_load
  simp only
  rw [check_for_multi_stmt_congr M qa qb querybuf packet_type h]

/-- For a statement that is not a DROP TABLE, handle_multi_temp_and_load leaves
the mask as it is when the flag is not set or none of the tables of the
statement is a temporary table. -/
theorem handle_multi_temp_and_load_mask_kept (P : SqlParser) (M : Modutil)
    (q : QueryClassifier) (ses : MXS_SESSION) (current_target : current_target_t)
    (querybuf : GWBUF) (packet_type qtype : Nat)
    (hd : P.qc_is_drop_table_query querybuf = false)
    (hnr : ¬ (q.m_have_tmp_tables = true
      ∧ ∃ t ∈ P.qc_get_table_names querybuf, qualified_table ses t ∈ q.m_tmp_tables)) :
    (handle_multi_temp_and_load P M q ses current_target querybuf packet_type qtype).2.1
      = qtype := by
  have hq0 : (if (q.m_have_tmp_tables && is_packet_a_query packet_type) = true
      then check_drop_tmp_table P q ses querybuf else q) = q := by
    split
    · exact check_drop_tmp_table_of_not_drop _ _ _ _ hd
    · rfl
  have hany0 : (q.m_have_tmp_tables
      && (P.qc_get_table_names querybuf).any
        (fun t => is_tmp_table q (qualified_table ses t))) = false := by
    rw [Bool.eq_false_iff]
    intro h
    rw [Bool.and_eq_true, List.any_eq_true] at h
    obtain ⟨hh, t, ht, hm⟩ := h
    exact hnr ⟨hh, t, ht, by simpa [is_tmp_table] using hm⟩
  have hcond : (q.m_have_tmp_tables && is_packet_a_query packet_type
      && is_read_tmp_table P
        (if (q.m_have_tmp_tables && is_packet_a_query packet_type) = true
          then check_drop_tmp_table P q ses querybuf else q)
        ses querybuf qtype) = false := by
    rw [hq0, is_read_tmp_table_eq]
    cases hh : q.m_have_tmp_tables
    · rfl
    · rw [hh] at hany0
      simp only [Bool.true_and] at hany0
      rw [hany0]
      simp
  unfold handle_multi_temp_and_load
  simp only
  rw [hcond]
  rfl

/-- For a query packet that is not a DROP TABLE and whose mask contains a read
type, handle_multi_temp_and_load adds MASTER_READ to the mask when the flag is
set and one of the tables of the statement is a temporary table. -/
theorem handle_multi_temp_and_load_mask_read (P : SqlParser) (M : Modutil)
    (q : QueryClassifier) (ses : MXS_SESSION) (current_target : current_target_t)
    (querybuf : GWBUF) (packet_type qtype : Nat)
    (hq : is_packet_a_query packet_type = true)
    (hd : P.qc_is_drop_table_query querybuf = false)
    (hrb : (qc_query_is_type qtype QUERY_TYPE_READ
      || qc_query_is_type qtype QUERY_TYPE_LOCAL_READ
      || qc_query_is_type qtype QUERY_TYPE_USERVAR_READ
      || qc_query_is_type qtype QUERY_TYPE_SYSVAR_READ
      || qc_query_is_type qtype QUERY_TYPE_GSYSVAR_READ) = true)
    (hhave : q.m_have_tmp_tables = true)
    (hmem : ∃ t ∈ P.qc_get_table_names querybuf, qualified_table ses t ∈ q.m_tmp_tables) :
    (handle_multi_temp_and_load P M q ses current_target querybuf packet_type qtype).2.1
      = qtype ||| QUERY_TYPE_MASTER_READ := by
  have hq0 : (if (q.m_have_tmp_tables && is_packet_a_query packet_type) = true
      then check_drop_tmp_table P q ses querybuf else q) = q := by
    split
    · exact check_drop_tmp_table_of_not_drop _ _ _ _ hd
    · rfl
  have hany : (P.qc_get_table_names querybuf).any
      (fun t => is_tmp_table q (qualified_table ses t)) = true := by
    rw [List.any_eq_true]
    obtain ⟨t, ht, hm⟩ := hmem
    exact ⟨t, ht, by simpa [is_tmp_table] using hm⟩
  have hcond : (q.m_have_tmp_tables && is_packet_a_query packet_type
      && is_read_tmp_table P
        (if (q.m_have_tmp_tables && is_packet_a_query packet_type) = true
          then check_drop_tmp_table P q ses querybuf else q)
        ses querybuf qtype) = true := by
    rw [hq0, is_read_tmp_table_eq, hrb, hq, hany, hhave]
    rfl
  unfold handle_multi_temp_and_load
  simp only
  rw [hcond]
  rfl

/-- In the excepted case of C26 the two classifications do differ. When the
packet registers a temporary table that it reads (load data not active, the
statement not an EXECUTE, no MASTER_READ in the parsed mask), the second call of
update_route_info returns the type mask of the first with MASTER_READ added,
and so another RouteInfo. -/
theorem update_route_info_registers_then_reads {σ : Type} (P : SqlParser) (M : Modutil)
    (H : Handler σ) (qc : QueryClassifier) (ses : MXS_SESSION) (hs : σ)
    (current_target : current_target_t) (pBuffer : GWBUF)
    (hnew : registers_table_it_reads P qc ses current_target pBuffer)
    (hload : qc.m_load_data_state ≠ .LOAD_DATA_ACTIVE)
    (hop : P.qc_get_operation pBuffer ≠ .QUERY_OP_EXECUTE)
    (hmr : qc_query_is_type (determine_query_type P pBuffer (mxs_mysql_get_command pBuffer))
      QUERY_TYPE_MASTER_READ = false)
    (hlock : H.lock_to_master (H.lock_to_master hs).2 = H.lock_to_master hs) :
    (update_route_info P M H
        (update_route_info P M H qc ses hs current_target pBuffer).2.1 ses
        (update_route_info P M H qc ses hs current_target pBuffer).2.2
        current_target pBuffer).1.m_type_mask
        = (update_route_info P M H qc ses hs current_target pBuffer).1.m_type_mask
            ||| QUERY_TYPE_MASTER_READ
      ∧ (update_route_info P M H
          (update_route_info P M H qc ses hs current_target pBuffer).2.1 ses
          (update_route_info P M H qc ses hs current_target pBuffer).2.2
          current_target pBuffer).1
        ≠ (update_route_info P M H qc ses hs current_target pBuffer).1 := by
  obtain ⟨hro, hq, hd, hc, hrb, hn, hnr⟩ := hnew
  have hcmd : mxs_mysql_get_command pBuffer = MXS_COM_QUERY := by
    simpa [is_packet_a_query] using hq
  have hlen : gwbuf_length pBuffer > MYSQL_HEADER_LEN := by
    by_contra hle
    have h0 : mxs_mysql_get_command pBuffer = 0 := by
      unfold mxs_mysql_get_command
      apply List.getD_eq_default
      unfold gwbuf_length at hle
      omega
    rw [h0] at hcmd
    exact absurd hcmd (by decide)
  obtain ⟨k1, k2, k3, -, k5, -, -, -, -⟩ :=
    update_route_info_keeps P M H qc ses hs current_target pBuffer hload hlen
  have hload1 : (update_route_info P M H qc ses hs current_target
      pBuffer).2.1.m_load_data_state ≠ .LOAD_DATA_ACTIVE := by
    rw [k5]
    exact hload
  obtain ⟨-, m1, -, -, -, -, e1⟩ :=
    update_route_info_fields P M H qc ses hs current_target pBuffer hload hlen
  obtain ⟨-, m2, -, -, -, -, -⟩ :=
    update_route_info_fields P M H
      (update_route_info P M H qc ses hs current_target pBuffer).2.1 ses
      (update_route_info P M H qc ses hs current_target pBuffer).2.2
      current_target pBuffer hload1 hlen
  rw [update_route_info_target_step_mask P M H _ ses _ current_target pBuffer hcmd hop] at m1 m2
  -- the first call: no temporary table of the statement is registered yet
  have hfirst := handle_multi_temp_and_load_mask_kept P M
    { qc with m_ps_continuation := false } ses current_target pBuffer
    (mxs_mysql_get_command pBuffer)
    (determine_query_type P pBuffer (mxs_mysql_get_command pBuffer)) hd hnr
  -- the classifier the first call leaves: the flag set, the first table registered
  have hst : (update_route_info_mask_step P M H qc ses hs current_target pBuffer).2.1
      = check_create_tmp_table P { qc with m_ps_continuation := false } ses pBuffer
          (determine_query_type P pBuffer (mxs_mysql_get_command pBuffer)) := by
    have hq0 : (if (qc.m_have_tmp_tables
        && is_packet_a_query (mxs_mysql_get_command pBuffer)) = true
        then check_drop_tmp_table P { qc with m_ps_continuation := false } ses pBuffer
        else { qc with m_ps_continuation := false })
        = { qc with m_ps_continuation := false } := by
      split
      · exact check_drop_tmp_table_of_not_drop _ _ _ _ hd
      · rfl
    have h2 : (handle_multi_temp_and_load P M { qc with m_ps_continuation := false } ses
        current_target pBuffer (mxs_mysql_get_command pBuffer)
        (determine_query_type P pBuffer (mxs_mysql_get_command pBuffer))).2.2
        = check_create_tmp_table P
            (if (qc.m_have_tmp_tables && is_packet_a_query (mxs_mysql_get_command pBuffer))
              = true then check_drop_tmp_table P { qc with m_ps_continuation := false } ses
                pBuffer
              else { qc with m_ps_continuation := false })
            ses pBuffer
            (handle_multi_temp_and_load P M { qc with m_ps_continuation := false } ses
              current_target pBuffer (mxs_mysql_get_command pBuffer)
              (determine_query_type P pBuffer (mxs_mysql_get_command pBuffer))).2.1 := by
      unfold handle_multi_temp_and_load
      rfl
    unfold update_route_info_mask_step
    rw [hro, update_route_info_type_mask_state, h2, hq0, hfirst]
  obtain ⟨f1, -, f3⟩ := check_create_tmp_table_of_create P
    { qc with m_ps_continuation := false } ses pBuffer
    (determine_query_type P pBuffer (mxs_mysql_get_command pBuffer)) hc
  rw [← hst] at f1 f3
  obtain ⟨t0, rest, hnames⟩ := List.exists_cons_of_ne_nil hn
  have hhave1 : (update_route_info P M H qc ses hs current_target
      pBuffer).2.1.m_have_tmp_tables = true := k2.trans f1
  have hmem1 : qualified_table ses t0
      ∈ (update_route_info P M H qc ses hs current_target pBuffer).2.1.m_tmp_tables := by
    rw [k1]
    exact f3 t0 rest hnames
  -- the second call: the table is read
  have hsecond := handle_multi_temp_and_load_mask_read P M
    { (update_route_info P M H qc ses hs current_target pBuffer).2.1 with
      m_ps_continuation := false }
    ses current_target pBuffer (mxs_mysql_get_command pBuffer)
    (determine_query_type P pBuffer (mxs_mysql_get_command pBuffer)) hq hd hrb hhave1
    ⟨t0, by rw [hnames]; exact List.mem_cons_self _ _, hmem1⟩
  have hrv := handle_multi_temp_and_load_result_congr P M
    { (update_route_info P M H qc ses hs current_target pBuffer).2.1 with
      m_ps_continuation := false }
    { qc with m_ps_continuation := false }
    ses current_target pBuffer (mxs_mysql_get_command pBuffer)
    (determine_query_type P pBuffer (mxs_mysql_get_command pBuffer)) k3
  -- the masks of the two type-mask steps
  have hstep : ∀ (q : QueryClassifier) (s : σ),
      (update_route_info_type_mask P M H q ses s current_target pBuffer
          (mxs_mysql_get_command pBuffer) false).1
        = (if ((handle_multi_temp_and_load P M q ses current_target pBuffer
              (mxs_mysql_get_command pBuffer)
              (determine_query_type P pBuffer (mxs_mysql_get_command pBuffer))).1
            == current_target_t.CURRENT_TARGET_MASTER) = true
          then
            (if (!(H.lock_to_master s).1) = true
              then (handle_multi_temp_and_load P M q ses current_target pBuffer
                (mxs_mysql_get_command pBuffer)
                (determine_query_type P pBuffer (mxs_mysql_get_command pBuffer))).2.1
                  ||| QUERY_TYPE_WRITE
              else (handle_multi_temp_and_load P M q ses current_target pBuffer
                (mxs_mysql_get_command pBuffer)
                (determine_query_type P pBuffer (mxs_mysql_get_command pBuffer))).2.1)
          else (handle_multi_temp_and_load P M q ses current_target pBuffer
            (mxs_mysql_get_command pBuffer)
            (determine_query_type P pBuffer (mxs_mysql_get_command pBuffer))).2.1)
      ∧ (update_route_info_type_mask P M H q ses s current_target pBuffer
          (mxs_mysql_get_command pBuffer) false).2.2
        = (if ((handle_multi_temp_and_load P M q ses current_target pBuffer
              (mxs_mysql_get_command pBuffer)
              (determine_query_type P pBuffer (mxs_mysql_get_command pBuffer))).1
            == current_target_t.CURRENT_TARGET_MASTER) = true
          then (H.lock_to_master s).2 else s) := by
    intro q s
    unfold update_route_info_type_mask
    simp only [Bool.false_eq_true, if_false]
    split
    · split <;> exact ⟨rfl, rfl⟩
    · exact ⟨rfl, rfl⟩
  have hmask : (update_route_info_mask_step P M H
      (update_route_info P M H qc ses hs current_target pBuffer).2.1 ses
      (update_route_info P M H qc ses hs current_target pBuffer).2.2
      current_target pBuffer).1
      = (update_route_info_mask_step P M H qc ses hs current_target pBuffer).1
          ||| QUERY_TYPE_MASTER_READ := by
    rw [e1]
    unfold update_route_info_mask_step
    rw [hro, (hstep _ _).1, (hstep _ _).1, (hstep _ _).2, hrv, hsecond, hfirst]
    by_cases hm : ((handle_multi_temp_and_load P M { qc with m_ps_continuation := false } ses
        current_target pBuffer (mxs_mysql_get_command pBuffer)
        (determine_query_type P pBuffer (mxs_mysql_get_command pBuffer))).1
        == current_target_t.CURRENT_TARGET_MASTER) = true
    · simp only [hm, if_true]
      rw [hlock]
      cases (H.lock_to_master hs).1
      · simp only [Bool.not_false, if_true]
        rw [Nat.lor_assoc, Nat.lor_comm QUERY_TYPE_MASTER_READ, ← Nat.lor_assoc]
      · simp
    · simp [hm]
  have hlacks : qc_query_is_type
      (update_route_info P M H qc ses hs current_target pBuffer).1.m_type_mask
      QUERY_TYPE_MASTER_READ = false := by
    rw [m1]
    unfold update_route_info_mask_step
    rw [hro, (hstep _ _).1, hfirst]
    split
    · split
      · rw [qc_query_is_type_or_disjoint _ _ _ (by decide)]
        exact hmr
      · exact hmr
    · exact hmr
  have hmasks : (update_route_info P M H
      (update_route_info P M H qc ses hs current_target pBuffer).2.1 ses
      (update_route_info P M H qc ses hs current_target pBuffer).2.2
      current_target pBuffer).1.m_type_mask
      = (update_route_info P M H qc ses hs current_target pBuffer).1.m_type_mask
          ||| QUERY_TYPE_MASTER_READ := by
    rw [m2, m1]
    exact hmask
  refine ⟨hmasks, ?_⟩
  intro heq
  rw [heq] at hmasks
  have hhas := qc_query_is_type_or_self
    (update_route_info P M H qc ses hs current_target pBuffer).1.m_type_mask
    QUERY_TYPE_MASTER_READ
  rw [← hmasks, hlacks] at hhas
  exact absurd hhas (by simp)

end MaxScale
